import Mathlib

/-!
Asynchronous task handlers of aidea-server: effect-trace embedding.

The queue handlers of `internal/queue` (`dashscope_image.go`, `group_chat.go`,
`image.go`) are embedded as pure functions.  A handler run takes the outcomes of
the collaborator calls it makes (vendor client, result store, quota ledger, clock)
from an environment record, one field per call site, and yields

* the trace of collaborator calls it performed, in program order, each with the
  outcome it received, and
* its own outcome: a normal return, or a panic that escapes the handler.

Conventions.

* A Go `error` value is a `GoError`; a nil-able `error` is `Option GoError`.
* `int64` quantities (quota, counters) are `Int`; times are `Int` nanoseconds,
  `t.Add(d)` is `t + d` and `t.Before(u)` is `t < u`.  No arithmetic of the
  handlers comes near the `int64` bounds, so no wrap-around is modelled.
* Store and ledger operations return an error or nil.  Vendor-client calls may in
  addition panic, with an error value or with a value that is not an error
  (represented by a string).
* Logging is not an effect of the model.
* `defer func() { recover() ... }()` is embedded as a function from the outcome of
  the body to the rest of the run.

The later sections embed, in the same way, the chat messages and requests of
`pkg/ai/chat/chat.go` (`Messages.Fix`, `Request.Init`, `Request.Fix`), the task
status controller of `server/controllers/tasks.go`, and the submission endpoints of
`server/controllers/v2/creative-island.go`, whose runs yield the trace of calls and
the HTTP response.  There a `float64` request parameter is read in thousandths, and
functions of packages outside these files are fields of the environment.  The part
and image pointers of chat messages are addresses into a heap, so that a write
through a pointer is seen through every copy of it, and a nil pointer can be
dereferenced, which panics.
-/

namespace Aidea

/-! ## Go values -/

/-- Go `error` value, identified with the text of `err.Error()`. -/
structure GoError where
  msg : String
deriving DecidableEq

/-- Value carried by a Go panic: an `error`, or some value that is not an `error`
(a string). -/
inductive PanicValue where
  | error (e : GoError)
  | str (s : String)
deriving DecidableEq

/-- Outcome of running Go code: a normal return or a panic in flight. -/
inductive Res (α : Type) where
  | ret (a : α)
  | panic (v : PanicValue)
deriving DecidableEq

/-- Result of the type assertion `err2.(error)` on a recovered panic value: the
error itself, or the run-time panic raised by the failed assertion. -/
def assertError : PanicValue → Res GoError
  | .error e => .ret e
  | .str _ => .panic (.error ⟨"interface conversion: string is not error: missing method Error"⟩)

/-- Outcome of a vendor-client call. -/
inductive CallOutcome (α : Type) where
  | ok (a : α)
  | fail (e : GoError)
  | panics (v : PanicValue)
deriving DecidableEq

abbrev Time := Int

def Second : Int := 1000000000

def Minute : Int := 60 * Second

def Hour : Int := 60 * Minute

/-- Go zero `time.Time` (January 1, year 1, 00:00 UTC), in nanoseconds relative to
the Unix epoch. -/
def zeroTime : Time := -62135596800 * Second

/-! ## Records of the result store and the ledger -/

/-- Values `repo.QueueTaskStatusRunning`, `...Success`, `...Failed`. -/
inductive QueueTaskStatus where
  | Running
  | Success
  | Failed
deriving DecidableEq

/-- Values `repo.PendingTaskStatusProcessing`, `...Success`, `...Failed`. -/
inductive PendingTaskStatus where
  | Processing
  | Success
  | Failed
deriving DecidableEq

/-- Values `repo.CreativeStatusPending`, `repo.CreativeStatusSuccess`,
`repo.CreativeStatusFailed`; `Unset` is the zero value of the field. -/
inductive CreativeStatus where
  | Unset
  | Pending
  | Success
  | Failed
deriving DecidableEq

/-- Value `repo.MessageStatusSucceed`, `repo.MessageStatusFailed`. -/
inductive MessageStatus where
  | Succeed
  | Failed
deriving DecidableEq

/-- Result argument of `rep.Queue.Update`: `nil`, `ErrorResult`, `CompletionResult`
or `EmptyResult`. -/
inductive QueueResult where
  | Nil
  | ErrorResult (Errors : List String)
  | CompletionResult (OriginImage : String) (Resources : List String) (ValidBefore : Time)
  | EmptyResult
deriving DecidableEq

structure CreativeRecordUpdateRequest where
  Answer : String := ""
  QuotaUsed : Int := 0
  Status : CreativeStatus := .Unset
deriving DecidableEq

structure CreativeRecordUpdateExtArgs where
  RealPrompt : String := ""
  RealNegativePrompt : String := ""
deriving DecidableEq

/-- Value built by `repo.NewQuotaUsedMeta(tag, models...)`. -/
structure QuotaUsedMeta where
  Tag : String
  Models : List String
deriving DecidableEq

structure PendingTaskUpdate where
  NextExecuteAt : Time := zeroTime
  Status : PendingTaskStatus
  ExecuteTimes : Int := 0
deriving DecidableEq

/-! ## Payloads -/

/-- Type `DashscopeImageCompletionPayload`; the `float64` field `ImageStrength`,
which no handler reads, is left out. -/
structure DashscopeImageCompletionPayload where
  ID : String := ""
  Model : String := ""
  Quota : Int := 0
  UID : Int := 0
  Prompt : String := ""
  PromptTags : List String := []
  NegativePrompt : String := ""
  ImageCount : Int := 0
  Width : Int := 0
  Height : Int := 0
  Steps : Int := 0
  Seed : Int := 0
  Image : String := ""
  AIRewrite : Bool := false
  FilterID : Int := 0
  TextureText : String := ""
  TextureStyle : String := ""
  TextureFontName : String := ""
  CreatedAt : Time := zeroTime
  FreezedCoins : Int := 0
deriving DecidableEq

structure DashscopeImagePendingTaskPayload where
  DashscopeImageTaskID : String := ""
  Payload : DashscopeImageCompletionPayload := {}
deriving DecidableEq

def DashscopeImagePendingTaskPayload.GetImage (p : DashscopeImagePendingTaskPayload) : String :=
  p.Payload.Image

def DashscopeImagePendingTaskPayload.GetID (p : DashscopeImagePendingTaskPayload) : String :=
  p.Payload.ID

def DashscopeImagePendingTaskPayload.GetUID (p : DashscopeImagePendingTaskPayload) : Int :=
  p.Payload.UID

def DashscopeImagePendingTaskPayload.GetQuota (p : DashscopeImagePendingTaskPayload) : Int :=
  p.Payload.Quota

def DashscopeImagePendingTaskPayload.GetModel (p : DashscopeImagePendingTaskPayload) : String :=
  p.Payload.Model

/-- Type `repo.PendingTask`, as filled in by the dashscope dispatcher. -/
structure PendingTask where
  TaskID : String
  TaskType : String
  NextExecuteAt : Time
  DeadlineAt : Time
  Status : PendingTaskStatus
  Payload : DashscopeImagePendingTaskPayload
deriving DecidableEq

/-- Type `model.QueueTasksPending`, the stored row handed to a pending-task handler. -/
structure QueueTasksPending where
  TaskID : String := ""
  TaskType : String := ""
  Payload : String := ""
  Status : PendingTaskStatus := .Processing
  NextExecuteAt : Time := zeroTime
  DeadlineAt : Time := zeroTime
  ExecuteTimes : Int := 0
deriving DecidableEq

structure ImageDownloaderPayload where
  CreativeHistoryTaskID : String
  UserID : Int
  CreatedAt : Time
deriving DecidableEq

/-- Type `ImageCompletionPayload`; the `float64` field `ImageStrength` is left out. -/
structure ImageCompletionPayload where
  ID : String := ""
  Quota : Int := 0
  UID : Int := 0
  Prompt : String := ""
  NegativePrompt : String := ""
  PromptTags : List String := []
  ImageCount : Int := 0
  ImageRatio : String := ""
  Width : Int := 0
  Height : Int := 0
  Steps : Int := 0
  Image : String := ""
  AIRewrite : Bool := false
  Mode : String := ""
  UpscaleBy : String := ""
  StylePreset : String := ""
  Vendor : String := ""
  Model : String := ""
  Seed : Int := 0
  CreatedAt : Time := zeroTime
  ModelName : String := ""
  FilterID : Int := 0
  FilterName : String := ""
  GalleryCopyID : Int := 0
  FreezedCoins : Int := 0
deriving DecidableEq

/-- Type `GroupChatPayload`; `ContextMessages` is kept as the list of
(role, content) pairs. -/
structure GroupChatPayload where
  ID : String := ""
  GroupID : Int := 0
  UserID : Int := 0
  MemberID : Int := 0
  QuestionID : Int := 0
  MessageID : Int := 0
  ModelID : String := ""
  ContextMessages : List (String × String) := []
  CreatedAt : Time := zeroTime
  FreezedCoins : Int := 0
deriving DecidableEq

structure ChatGroupMessageUpdate where
  Message : String := ""
  TokenConsumed : Int := 0
  QuotaConsumed : Int := 0
  Status : MessageStatus
  Error : String := ""
deriving DecidableEq

/-- Fields of `chat.Response` read by the group-chat handler. -/
structure ChatResponse where
  Error : String := ""
  ErrorCode : String := ""
  Text : String := ""
  InputTokens : Int := 0
  OutputTokens : Int := 0
deriving DecidableEq

/-! ## Vendor requests and responses -/

/-- Request of a dashscope submission, with the fields the dispatcher fills in. -/
inductive VendorRequest where
  | WordArtTexture (Model FontName TextContent OutputImageRatio TextureStyle Prompt : String)
      (ImageShortSize N : Int)
  | ImageGeneration (Model ImageURL : String)
  | StableDiffusion (Model Prompt NegativePrompt Size : String) (N Steps Seed : Int)
deriving DecidableEq

structure ImageTaskOutputImage where
  URL : String
deriving DecidableEq

/-- Fields `Output.TaskStatus` and `Output.Results` of `dashscope.ImageTaskResponse`. -/
structure ImageTaskResponse where
  TaskStatus : String
  Results : List ImageTaskOutputImage
deriving DecidableEq

/-! ## Effects -/

/-- Calls a handler makes on its collaborators. -/
inductive Call where
  | QueueUpdate (id : String) (status : QueueTaskStatus) (result : QueueResult)
  | UpdateRecordByTaskID (uid : Int) (taskID : String) (req : CreativeRecordUpdateRequest)
  | UpdateRecordArgumentsByTaskID (uid : Int) (taskID : String) (args : CreativeRecordUpdateExtArgs)
  | CreatePendingTask (task : PendingTask)
  | QuotaConsume (uid : Int) (quota : Int) (usedMeta : QuotaUsedMeta)
  | UnfreezeUserQuota (uid : Int) (quota : Int)
  | Enqueue (payload : ImageDownloaderPayload)
  | VendorSubmit (req : VendorRequest)
  | ResolvePrompts (model : String)
  | ImageTaskStatus (taskID : String)
  | DescribeImage (imageURL : String)
  | UpdateChatMessage (groupID userID messageID : Int) (msg : ChatGroupMessageUpdate)
  | Chat (model : String) (messages : List (String × String))
  | FreeChatRequestCounts (userID : Int) (model : String)
  | UpdateFreeChatCount (userID : Int) (model : String)
deriving DecidableEq

/-- What the caller got back from a call. -/
inductive CallResult where
  | ok
  | failed (e : GoError)
  | panicked (v : PanicValue)
deriving DecidableEq

def CallResult.ofError : Option GoError → CallResult
  | none => .ok
  | some e => .failed e

def CallResult.ofOutcome {α : Type} : CallOutcome α → CallResult
  | .ok _ => .ok
  | .fail e => .failed e
  | .panics v => .panicked v

structure Effect where
  call : Call
  result : CallResult
deriving DecidableEq

/-- One run of a piece of handler code: the calls made and the outcome. -/
structure Run (α : Type) where
  trace : List Effect
  out : Res α
deriving DecidableEq

/-- Run `r` continued after the calls `pre` have been made. -/
def Run.after {α : Type} (pre : List Effect) (r : Run α) : Run α :=
  ⟨pre ++ r.trace, r.out⟩

/-! ## Constants and helpers declared outside the embedded files -/

/-- Constants of packages `dashscope` and `queue` that the handlers compare with or
store; their declarations are not part of the embedded files. -/
structure Consts where
  WordArtTextureModel : String
  TypeDashscopeImageCompletion : String
  TaskStatusPending : String
  TaskStatusRunning : String
  TaskStatusUnknown : String
  TaskStatusFailed : String

/-! ## Dashscope dispatcher (`BuildDashscopeImageCompletionHandler`) -/

/-- Outcomes of the calls of one run of the dashscope dispatcher. -/
structure DispatchEnv where
  /-- Result of `json.Unmarshal(task.Payload(), &payload)`. -/
  unmarshal : String → Except GoError DashscopeImageCompletionPayload
  /-- Reading of `time.Now()` in the expiry check. -/
  nowExpiry : Time
  /-- Reading of `time.Now()` for `NextExecuteAt`. -/
  nowNextExecute : Time
  /-- Reading of `time.Now()` for `DeadlineAt`. -/
  nowDeadline : Time
  /-- Helper `misc.SubStringRaw`. -/
  subStringRaw : String → Int → String
  /-- Helper `misc.WordCount`. -/
  wordCount : String → Int
  /-- Result of `rand.Intn(2)`. -/
  randIntn2 : Int
  /-- Result of `resolvePrompts`: prompt, negative prompt, AI-rewrite flag. -/
  resolvePrompts : Res (String × String × Bool)
  wordArtTexture : CallOutcome String
  imageGeneration : CallOutcome String
  stableDiffusion : CallOutcome String
  queueUpdateExpired : Option GoError
  updateRecordArguments : Option GoError
  createPendingTask : Option GoError
  queueUpdateRunning : Option GoError
  updateRecordFailed : Option GoError
  queueUpdateFailed : Option GoError

/-- Function `dashscopeWordArtImageRatio`, with the result of `rand.Intn(2)` as
second argument. -/
def dashscopeWordArtImageRatio (wordCount : Int) (randIntn2 : Int) : String :=
  if wordCount ≤ 2 then "1:1"
  else if randIntn2 = 0 then "16:9"
  else "9:16"

/-- Expiry test `payload.CreatedAt.Add(d).Before(time.Now())`. -/
def expired (createdAt : Time) (d : Int) (now : Time) : Bool :=
  decide (createdAt + d < now)

/-- The `QueueTask` write of the expiry branch of both image dispatchers. -/
def expiredWrite (id : String) (result : Option GoError) : Effect :=
  ⟨.QueueUpdate id .Failed (.ErrorResult ["任务处理超时"]), CallResult.ofError result⟩

/-- Lines 252-284 of `dashscope_image.go`: record the rewritten prompts, create the
pending task, mark the queue task running. -/
def dispatchRegister (c : Consts) (env : DispatchEnv) (payload : DashscopeImageCompletionPayload)
    (prompt negativePrompt taskID : String) : Run (Option GoError) :=
  let argUpdate : CreativeRecordUpdateExtArgs :=
    { RealPrompt := if prompt ≠ payload.Prompt then prompt else ""
      RealNegativePrompt := if negativePrompt ≠ payload.NegativePrompt then negativePrompt else "" }
  let args : List Effect :=
    if prompt ≠ payload.Prompt ∨ negativePrompt ≠ payload.NegativePrompt then
      [⟨.UpdateRecordArgumentsByTaskID payload.UID payload.ID argUpdate,
        CallResult.ofError env.updateRecordArguments⟩]
    else []
  let pending : PendingTask :=
    { TaskID := payload.ID
      TaskType := c.TypeDashscopeImageCompletion
      NextExecuteAt := env.nowNextExecute + 5 * Second
      DeadlineAt := env.nowDeadline + 30 * Minute
      Status := .Processing
      Payload := { DashscopeImageTaskID := taskID, Payload := payload } }
  match env.createPendingTask with
  | some e => ⟨args ++ [⟨.CreatePendingTask pending, .failed e⟩], .panic (.error e)⟩
  | none =>
    ⟨args ++ [⟨.CreatePendingTask pending, .ok⟩,
        ⟨.QueueUpdate payload.ID .Running .Nil, CallResult.ofError env.queueUpdateRunning⟩],
      .ret env.queueUpdateRunning⟩

/-- One vendor submission: the call is made; an error it returns is raised as a
panic, a panic of the client stays a panic, an accepted job continues with `k`. -/
def submit (req : VendorRequest) (outcome : CallOutcome String)
    (k : String → Run (Option GoError)) : Run (Option GoError) :=
  match outcome with
  | .ok taskID => Run.after [⟨.VendorSubmit req, .ok⟩] (k taskID)
  | .fail e => ⟨[⟨.VendorSubmit req, .failed e⟩], .panic (.error e)⟩
  | .panics v => ⟨[⟨.VendorSubmit req, .panicked v⟩], .panic v⟩

/-- Body of the dashscope dispatcher after the `defer` statement (lines 165-284). -/
def dispatchBody (c : Consts) (env : DispatchEnv) (payload : DashscopeImageCompletionPayload) :
    Run (Option GoError) :=
  if payload.Model = c.WordArtTextureModel then
    let prompt := env.subStringRaw payload.Prompt 200
    let negativePrompt := ""
    submit
      (.WordArtTexture payload.Model payload.TextureFontName
        (env.subStringRaw payload.TextureText 6)
        (dashscopeWordArtImageRatio (env.wordCount payload.TextureText) env.randIntn2)
        payload.TextureStyle prompt 1024 payload.ImageCount)
      env.wordArtTexture
      (fun taskID => dispatchRegister c env payload prompt negativePrompt taskID)
  else
    match env.resolvePrompts with
    | .panic v => ⟨[⟨.ResolvePrompts payload.Model, .panicked v⟩], .panic v⟩
    | .ret (prompt, negativePrompt, aiRewrite) =>
      let payload := { payload with AIRewrite := aiRewrite }
      Run.after [⟨.ResolvePrompts payload.Model, .ok⟩]
        (if payload.Image ≠ "" then
          submit (.ImageGeneration payload.Model payload.Image) env.imageGeneration
            (fun taskID => dispatchRegister c env payload prompt negativePrompt taskID)
        else
          submit
            (.StableDiffusion payload.Model prompt negativePrompt
              (toString payload.Width ++ "*" ++ toString payload.Height)
              payload.ImageCount payload.Steps payload.Seed)
            env.stableDiffusion
            (fun taskID => dispatchRegister c env payload prompt negativePrompt taskID))

/-- The deferred function of the dashscope dispatcher (lines 137-163), applied to
the outcome of the body: the value of the named result `err` on return. -/
def dispatchDeferred (env : DispatchEnv) (payload : DashscopeImageCompletionPayload) :
    Res (Option GoError) → Run (Option GoError)
  | .panic v =>
    match assertError v with
    | .panic v2 => ⟨[], .panic v2⟩
    | .ret err =>
      ⟨[⟨.UpdateRecordByTaskID payload.UID payload.ID { Answer := err.msg, Status := .Failed },
          CallResult.ofError env.updateRecordFailed⟩,
        ⟨.QueueUpdate payload.ID .Failed (.ErrorResult [err.msg]),
          CallResult.ofError env.queueUpdateFailed⟩],
        .ret (some err)⟩
  | .ret (some err) =>
    ⟨[⟨.QueueUpdate payload.ID .Failed (.ErrorResult [err.msg]),
        CallResult.ofError env.queueUpdateFailed⟩],
      .ret (some err)⟩
  | .ret none => ⟨[], .ret none⟩

/-- Handler built by `BuildDashscopeImageCompletionHandler`, run on a task with the
given payload bytes. -/
def BuildDashscopeImageCompletionHandler (c : Consts) (env : DispatchEnv) (taskPayload : String) :
    Run (Option GoError) :=
  match env.unmarshal taskPayload with
  | .error e => ⟨[], .ret (some e)⟩
  | .ok payload =>
    if expired payload.CreatedAt (5 * Minute) env.nowExpiry then
      ⟨[expiredWrite payload.ID env.queueUpdateExpired], .ret none⟩
    else
      let body := dispatchBody c env payload
      Run.after body.trace (dispatchDeferred env payload body.out)

/-! ## Dashscope pending-task handler (`dashscopeImageAsyncJobProcesser`) -/

/-- Outcomes of the calls of one run of the dashscope pending-task handler. -/
structure PollEnv where
  /-- Result of `json.Unmarshal([]byte(task.Payload), &payload)`. -/
  unmarshal : String → Except GoError DashscopeImagePendingTaskPayload
  imageTaskStatus : CallOutcome ImageTaskResponse
  /-- Reading of `time.Now()` when the task is re-armed. -/
  nowRearm : Time
  /-- Result of `json.Marshal(resources)`. -/
  jsonMarshal : List String → Except GoError String
  /-- Value of `coins.GetUnifiedImageGenCoins("")`. -/
  unifiedImageGenCoins : Int
  updateRecordSuccess : Option GoError
  quotaConsume : Option GoError
  /-- Reading of `time.Now()` for the download payload. -/
  nowDownload : Time
  enqueue : Option GoError
  /-- Reading of `time.Now()` for `ValidBefore`. -/
  nowValidBefore : Time
  queueUpdateSuccess : Option GoError
  updateRecordFailed : Option GoError
  queueUpdateFailed : Option GoError

/-- The non-empty URLs of a vendor response, in vendor order (lines 378-381). -/
def resourcesOf (tasks : ImageTaskResponse) : List String :=
  (tasks.Results.map fun item => item.URL).filter fun item => item ≠ ""

/-- Function `handleDashscopeImageTask`. -/
def handleDashscopeImageTask (env : PollEnv) (payload : DashscopeImagePendingTaskPayload)
    (tasks : ImageTaskResponse) : Run (Option GoError) :=
  let resources := resourcesOf tasks
  if resources.length = 0 then
    ⟨[], .panic (.error ⟨"没有生成任何图片"⟩)⟩
  else
    match env.jsonMarshal resources with
    | .error e => ⟨[], .panic (.error e)⟩
    | .ok retJson =>
      let quotaConsumed : Int := env.unifiedImageGenCoins * resources.length
      let req : CreativeRecordUpdateRequest :=
        { Answer := retJson, QuotaUsed := quotaConsumed, Status := .Success }
      let record : Call := .UpdateRecordByTaskID payload.GetUID payload.GetID req
      match env.updateRecordSuccess with
      | some e => ⟨[⟨record, .failed e⟩], .panic (.error e)⟩
      | none =>
        let modelUsed := [payload.GetModel, "upload"]
        let consume : Call :=
          .QuotaConsume payload.GetUID payload.GetQuota ⟨"fromston", modelUsed⟩
        match env.quotaConsume with
        | some e => ⟨[⟨record, .ok⟩, ⟨consume, .failed e⟩], .ret (some e)⟩
        | none =>
          let downloadPayload : ImageDownloaderPayload :=
            { CreativeHistoryTaskID := payload.GetID
              UserID := payload.GetUID
              CreatedAt := env.nowDownload }
          ⟨[⟨record, .ok⟩, ⟨consume, .ok⟩,
              ⟨.Enqueue downloadPayload, CallResult.ofError env.enqueue⟩,
              ⟨.QueueUpdate payload.GetID .Success
                  (.CompletionResult payload.GetImage resources (env.nowValidBefore + 7 * 24 * Hour)),
                CallResult.ofError env.queueUpdateSuccess⟩],
            .ret env.queueUpdateSuccess⟩

/-- The update that re-arms a pending task (lines 298-302 and 338-342). -/
def rearm (env : PollEnv) (task : QueueTasksPending) : PendingTaskUpdate :=
  { NextExecuteAt := env.nowRearm + 5 * Second
    Status := .Processing
    ExecuteTimes := task.ExecuteTimes + 1 }

/-- Body of the pending-task handler after the `defer` statement (lines 335-359);
the result is the pair of the named results `update` and `err`. -/
def pollBody (c : Consts) (env : PollEnv) (task : QueueTasksPending)
    (payload : DashscopeImagePendingTaskPayload) (taskRes : ImageTaskResponse) :
    Run (Option PendingTaskUpdate × Option GoError) :=
  if taskRes.TaskStatus = c.TaskStatusPending ∨ taskRes.TaskStatus = c.TaskStatusRunning ∨
      taskRes.TaskStatus = c.TaskStatusUnknown then
    ⟨[], .ret (some (rearm env task), none)⟩
  else if taskRes.TaskStatus = c.TaskStatusFailed then
    ⟨[], .panic (.error ⟨"task failed: " ++ taskRes.TaskStatus⟩)⟩
  else
    let handled := handleDashscopeImageTask env payload taskRes
    match handled.out with
    | .panic v => ⟨handled.trace, .panic v⟩
    | .ret (some err) => ⟨handled.trace, .ret (none, some err)⟩
    | .ret none => ⟨handled.trace, .ret (some { Status := .Success }, none)⟩

/-- The deferred function of the pending-task handler (lines 305-333), applied to
the outcome of the body. -/
def pollDeferred (env : PollEnv) (payload : DashscopeImagePendingTaskPayload) :
    Res (Option PendingTaskUpdate × Option GoError) →
      Run (Option PendingTaskUpdate × Option GoError)
  | .panic v =>
    match assertError v with
    | .panic v2 => ⟨[], .panic v2⟩
    | .ret err =>
      ⟨[⟨.UpdateRecordByTaskID payload.Payload.UID payload.Payload.ID
            { Answer := err.msg, Status := .Failed },
          CallResult.ofError env.updateRecordFailed⟩,
        ⟨.QueueUpdate payload.Payload.ID .Failed (.ErrorResult [err.msg]),
          CallResult.ofError env.queueUpdateFailed⟩],
        .ret (some { Status := .Failed }, some err)⟩
  | .ret (update, some err) =>
    ⟨[⟨.QueueUpdate payload.Payload.ID .Failed (.ErrorResult [err.msg]),
        CallResult.ofError env.queueUpdateFailed⟩],
      .ret (update, some err)⟩
  | .ret (update, none) => ⟨[], .ret (update, none)⟩

/-- Handler built by `dashscopeImageAsyncJobProcesser`, run on a stored pending task. -/
def dashscopeImageAsyncJobProcesser (c : Consts) (env : PollEnv) (task : QueueTasksPending) :
    Run (Option PendingTaskUpdate × Option GoError) :=
  match env.unmarshal task.Payload with
  | .error e => ⟨[], .ret (none, some e)⟩
  | .ok payload =>
    let query : Call := .ImageTaskStatus payload.DashscopeImageTaskID
    match env.imageTaskStatus with
    | .panics v => ⟨[⟨query, .panicked v⟩], .panic v⟩
    | .fail e => ⟨[⟨query, .failed e⟩], .ret (some (rearm env task), none)⟩
    | .ok taskRes =>
      let body := pollBody c env task payload taskRes
      Run.after (⟨query, .ok⟩ :: body.trace) (pollDeferred env payload body.out)

/-! ## Group-chat handler (`BuildGroupChatHandler`) -/

/-- Fields of `chat.Request` that the group-chat handler passes on. -/
structure ChatRequest where
  Model : String
  Messages : List (String × String)
deriving DecidableEq

/-- Outcomes of the calls of one run of the group-chat handler. -/
structure GroupChatEnv where
  /-- Result of `json.Unmarshal(task.Payload(), &payload)`. -/
  unmarshal : String → Except GoError GroupChatPayload
  /-- Reading of `time.Now()` in the expiry check. -/
  now : Time
  /-- Result of `(chat.Request{...}).Init().Fix(ct, 5, 1024*200)` on the request
  built from the payload. -/
  fix : ChatRequest → CallOutcome ChatRequest
  chat : CallOutcome ChatResponse
  /-- First result of `userSrv.FreeChatRequestCounts`; its error is dropped. -/
  freeChatRequestCounts : Int
  /-- Fields `conf.VirtualModel.NanxianRel` and `conf.VirtualModel.BeichouRel`. -/
  nanxianRel : String
  beichouRel : String
  /-- Function `coins.GetOpenAITextCoins`. -/
  getOpenAITextCoins : String → Int → Int
  updateChatMessageSucceed : Option GoError
  updateFreeChatCount : Option GoError
  quotaConsume : Option GoError
  queueUpdateSuccess : Option GoError
  updateChatMessageFailed : Option GoError
  queueUpdateFailed : Option GoError
  unfreezeUserQuota : Option GoError

/-- Method `Request.ResolveCalFeeModel` of `chat.go`. -/
def ResolveCalFeeModel (req : ChatRequest) (nanxianRel beichouRel : String) : String :=
  if req.Model = "nanxian" then nanxianRel
  else if req.Model = "beichou" then beichouRel
  else req.Model

/-- Lines 128-165 of `group_chat.go`: settle a chat response without error code. -/
def groupChatSettle (env : GroupChatEnv) (payload : GroupChatPayload) (req : ChatRequest)
    (resp : ChatResponse) : Run (Option GoError) :=
  let tokenConsumed : Int := resp.InputTokens + resp.OutputTokens
  let leftCount := env.freeChatRequestCounts
  let quotaConsumed : Int :=
    if leftCount > 0 then 0
    else env.getOpenAITextCoins (ResolveCalFeeModel req env.nanxianRel env.beichouRel) tokenConsumed
  let msg : ChatGroupMessageUpdate :=
    { Message := resp.Text
      TokenConsumed := tokenConsumed
      QuotaConsumed := quotaConsumed
      Status := .Succeed }
  let counts : Effect := ⟨.FreeChatRequestCounts payload.UserID req.Model, .ok⟩
  let update : Call := .UpdateChatMessage payload.GroupID payload.UserID payload.MessageID msg
  match env.updateChatMessageSucceed with
  | some e =>
    ⟨[counts, ⟨update, .failed e⟩], .panic (.error ⟨"update chat message failed: " ++ e.msg⟩)⟩
  | none =>
    let consume : List Effect :=
      if quotaConsumed > 0 then
        [⟨.QuotaConsume payload.UserID quotaConsumed ⟨"group_chat", [req.Model]⟩,
          CallResult.ofError env.quotaConsume⟩]
      else []
    ⟨[counts, ⟨update, .ok⟩,
        ⟨.UpdateFreeChatCount payload.UserID req.Model, CallResult.ofError env.updateFreeChatCount⟩]
        ++ consume ++
        [⟨.QueueUpdate payload.ID .Success .EmptyResult, CallResult.ofError env.queueUpdateSuccess⟩],
      .ret env.queueUpdateSuccess⟩

/-- Body of the group-chat handler after the `defer` statement (lines 110-165). -/
def groupChatBody (env : GroupChatEnv) (payload : GroupChatPayload) : Run (Option GoError) :=
  match env.fix ⟨payload.ModelID, payload.ContextMessages⟩ with
  | .panics v => ⟨[], .panic v⟩
  | .fail e => ⟨[], .panic (.error ⟨"fix chat request failed: " ++ e.msg⟩)⟩
  | .ok req =>
    let call : Call := .Chat req.Model req.Messages
    match env.chat with
    | .panics v => ⟨[⟨call, .panicked v⟩], .panic v⟩
    | .fail e => ⟨[⟨call, .failed e⟩], .panic (.error ⟨"chat failed: " ++ e.msg⟩)⟩
    | .ok resp =>
      if resp.ErrorCode ≠ "" then
        ⟨[⟨call, .ok⟩], .panic (.error ⟨"chat failed: " ++ resp.ErrorCode ++ " " ++ resp.Error⟩)⟩
      else
        Run.after [⟨call, .ok⟩] (groupChatSettle env payload req resp)

/-- The unfreeze step that closes the deferred function (lines 102-107). -/
def groupChatRelease (env : GroupChatEnv) (payload : GroupChatPayload) : List Effect :=
  if payload.FreezedCoins > 0 then
    [⟨.UnfreezeUserQuota payload.UserID payload.FreezedCoins,
      CallResult.ofError env.unfreezeUserQuota⟩]
  else []

/-- The failure writes of the deferred function (lines 78-100). -/
def groupChatFailed (env : GroupChatEnv) (payload : GroupChatPayload) (err : GoError) :
    List Effect :=
  [⟨.UpdateChatMessage payload.GroupID payload.UserID payload.MessageID
        { Message := err.msg, Status := .Failed, Error := err.msg },
      CallResult.ofError env.updateChatMessageFailed⟩,
    ⟨.QueueUpdate payload.ID .Failed (.ErrorResult [err.msg]),
      CallResult.ofError env.queueUpdateFailed⟩]

/-- The deferred function of the group-chat handler (lines 73-108), applied to the
outcome of the body. -/
def groupChatDeferred (env : GroupChatEnv) (payload : GroupChatPayload) :
    Res (Option GoError) → Run (Option GoError)
  | .panic v =>
    match assertError v with
    | .panic v2 => ⟨[], .panic v2⟩
    | .ret err => ⟨groupChatFailed env payload err ++ groupChatRelease env payload, .ret (some err)⟩
  | .ret (some err) =>
    ⟨groupChatFailed env payload err ++ groupChatRelease env payload, .ret (some err)⟩
  | .ret none => ⟨groupChatRelease env payload, .ret none⟩

/-- Handler built by `BuildGroupChatHandler`, run on a task with the given payload
bytes. -/
def BuildGroupChatHandler (env : GroupChatEnv) (taskPayload : String) : Run (Option GoError) :=
  match env.unmarshal taskPayload with
  | .error e => ⟨[], .ret (some e)⟩
  | .ok payload =>
    if expired payload.CreatedAt (15 * Minute) env.now then
      ⟨[], .ret none⟩
    else
      let body := groupChatBody env payload
      Run.after body.trace (groupChatDeferred env payload body.out)

/-! ## Image dispatcher (`BuildImageCompletionHandler`) -/

/-- Function `imageToImagePrompt`, given the outcome of `ai.Xfyun.DescribeImage`;
the result is the prompt together with the calls made. -/
def imageToImagePrompt (describeImage : CallOutcome String) (targetProvider imageURL : String) :
    Run String :=
  if targetProvider = "xfyun" then
    match describeImage with
    | .panics v => ⟨[⟨.DescribeImage imageURL, .panicked v⟩], .panic v⟩
    | .fail e => ⟨[⟨.DescribeImage imageURL, .failed e⟩], .ret ""⟩
    | .ok desc => ⟨[⟨.DescribeImage imageURL, .ok⟩], .ret desc⟩
  else ⟨[], .ret ""⟩

/-- Outcomes of the calls of one run of the image dispatcher.  The handlers of the
vendors other than dashscope are not part of the embedded files and are taken as
given functions of the task payload. -/
structure ImageEnv where
  /-- Result of `json.Unmarshal(task.Payload(), &payload)`. -/
  unmarshal : String → Except GoError ImageCompletionPayload
  /-- Result of `json.Marshal(payload)`; its error is dropped. -/
  marshal : ImageCompletionPayload → String
  /-- Reading of `time.Now()` in the expiry check. -/
  nowExpiry : Time
  queueUpdateExpired : Option GoError
  /-- Field `conf.ImageToImageRecognitionProvider`. -/
  imageToImageRecognitionProvider : String
  describeImage : CallOutcome String
  leapai : String → Run (Option GoError)
  deepai : String → Run (Option GoError)
  stabilityai : String → Run (Option GoError)
  fromston : String → Run (Option GoError)
  getimgai : String → Run (Option GoError)
  dalle : String → Run (Option GoError)
  dashscope : DispatchEnv

/-- The vendor switch of the image dispatcher (lines 135-152). -/
def imageVendorSwitch (c : Consts) (env : ImageEnv) (vendor : String) (taskPayload : String) :
    Run (Option GoError) :=
  if vendor = "leapai" then env.leapai taskPayload
  else if vendor = "deepai" then env.deepai taskPayload
  else if vendor = "stabilityai" then env.stabilityai taskPayload
  else if vendor = "fromston" then env.fromston taskPayload
  else if vendor = "getimgai" then env.getimgai taskPayload
  else if vendor = "dashscope" then BuildDashscopeImageCompletionHandler c env.dashscope taskPayload
  else if vendor = "dalle" then env.dalle taskPayload
  else ⟨[], .ret none⟩

/-- Lines 126-152 of `image.go`: the image dispatcher after the expiry check. -/
def imageDispatch (c : Consts) (env : ImageEnv) (payload : ImageCompletionPayload)
    (taskPayload : String) : Run (Option GoError) :=
  if payload.Image ≠ "" ∧ payload.Prompt = "" ∧ env.imageToImageRecognitionProvider ≠ "" then
    let described :=
      imageToImagePrompt env.describeImage env.imageToImageRecognitionProvider payload.Image
    match described.out with
    | .panic v => ⟨described.trace, .panic v⟩
    | .ret prompt =>
      let payload := { payload with Prompt := prompt }
      Run.after described.trace (imageVendorSwitch c env payload.Vendor (env.marshal payload))
  else
    imageVendorSwitch c env payload.Vendor taskPayload

/-- Handler built by `BuildImageCompletionHandler`, run on a task with the given
payload bytes. -/
def BuildImageCompletionHandler (c : Consts) (env : ImageEnv) (taskPayload : String) :
    Run (Option GoError) :=
  match env.unmarshal taskPayload with
  | .error e => ⟨[], .ret (some e)⟩
  | .ok payload =>
    if expired payload.CreatedAt (5 * Minute) env.nowExpiry then
      ⟨[expiredWrite payload.ID env.queueUpdateExpired], .ret none⟩
    else
      imageDispatch c env payload taskPayload

/-! ## Observations on traces -/

def Call.isQuotaConsume : Call → Bool
  | .QuotaConsume _ _ _ => true
  | _ => false

def Call.isUnfreeze : Call → Bool
  | .UnfreezeUserQuota _ _ => true
  | _ => false

/-- The call writes the given status to a `QueueTask`. -/
def Call.isQueueWrite (status : QueueTaskStatus) : Call → Bool
  | .QueueUpdate _ s _ => decide (s = status)
  | _ => false

/-- The call writes a terminal status (Success or Failed) to a `QueueTask`. -/
def Call.isTerminalWrite (c : Call) : Bool :=
  c.isQueueWrite .Success || c.isQueueWrite .Failed

/-- The call updates the user-visible history record. -/
def Call.isHistoryWrite : Call → Bool
  | .UpdateRecordByTaskID _ _ _ => true
  | .UpdateRecordArgumentsByTaskID _ _ _ => true
  | _ => false

/-- The call goes to a vendor (AI provider) client. -/
def Call.isVendorCall : Call → Bool
  | .VendorSubmit _ => true
  | .ResolvePrompts _ => true
  | .ImageTaskStatus _ => true
  | .DescribeImage _ => true
  | .Chat _ _ => true
  | _ => false

/-- A ledger operation or a terminal `QueueTask` write. -/
def Call.isSettlement (c : Call) : Bool :=
  c.isUnfreeze || c.isQuotaConsume || c.isTerminalWrite

def Call.isCreatePendingTask : Call → Bool
  | .CreatePendingTask _ => true
  | _ => false

/-- Number of calls of a trace that satisfy `p`. -/
def countCalls (p : Call → Bool) (t : List Effect) : Nat :=
  (t.filter fun e => p e.call).length

/-! ## Sample runs -/

/-- A group-chat environment in which every call succeeds; the chat costs 3 coins. -/
def sampleGroupChatEnv (payload : GroupChatPayload) : GroupChatEnv where
  unmarshal := fun _ => .ok payload
  now := 0
  fix := fun req => .ok req
  chat := .ok { Text := "hi", InputTokens := 10, OutputTokens := 20 }
  freeChatRequestCounts := 0
  nanxianRel := "gpt-3.5-turbo"
  beichouRel := "gpt-4"
  getOpenAITextCoins := fun _ _ => 3
  updateChatMessageSucceed := none
  updateFreeChatCount := none
  quotaConsume := none
  queueUpdateSuccess := none
  updateChatMessageFailed := none
  queueUpdateFailed := none
  unfreezeUserQuota := none

def sampleGroupChatPayload : GroupChatPayload :=
  { ID := "t1", GroupID := 1, UserID := 7, MessageID := 9, ModelID := "gpt-4", CreatedAt := 0,
    FreezedCoins := 5 }

/-- A group-chat payload without frozen coins. -/
def sampleGroupChatPayloadUnfrozen : GroupChatPayload :=
  { sampleGroupChatPayload with FreezedCoins := 0 }

/-- A group-chat environment in which the chat call returns an error. -/
def sampleGroupChatEnvChatFails (payload : GroupChatPayload) : GroupChatEnv :=
  { sampleGroupChatEnv payload with chat := .fail ⟨"timeout"⟩ }

/-- Sample values for the constants of package `dashscope` and `queue`. -/
def sampleConsts : Consts where
  WordArtTextureModel := "wordart-texture"
  TypeDashscopeImageCompletion := "dashscope_image:completion"
  TaskStatusPending := "PENDING"
  TaskStatusRunning := "RUNNING"
  TaskStatusUnknown := "UNKNOWN"
  TaskStatusFailed := "FAILED"

/-- A dashscope payload: estimate 100 quota units, all of them frozen. -/
def samplePayload : DashscopeImageCompletionPayload :=
  { ID := "t1", Model := "stable-diffusion-xl", Quota := 100, UID := 7, Prompt := "a cat",
    ImageCount := 2, Width := 1024, Height := 1024, CreatedAt := 0, FreezedCoins := 100 }

def samplePendingPayload : DashscopeImagePendingTaskPayload :=
  { DashscopeImageTaskID := "job-1", Payload := samplePayload }

/-- A stored pending task in status Processing whose deadline is at minute 30. -/
def sampleTask : QueueTasksPending :=
  { TaskID := "t1", TaskType := "dashscope_image:completion", Payload := "raw",
    Status := .Processing, NextExecuteAt := 5 * Second, DeadlineAt := 30 * Minute,
    ExecuteTimes := 2 }

/-- A poll at minute 100 in which every store and ledger call succeeds; the unit
price of an image is 40. -/
def samplePollEnv (status : String) (urls : List String) : PollEnv where
  unmarshal := fun _ => .ok samplePendingPayload
  imageTaskStatus := .ok ⟨status, urls.map ImageTaskOutputImage.mk⟩
  nowRearm := 100 * Minute
  jsonMarshal := fun xs => .ok ("[" ++ ",".intercalate (xs.map fun x => "\"" ++ x ++ "\"") ++ "]")
  unifiedImageGenCoins := 40
  updateRecordSuccess := none
  quotaConsume := none
  nowDownload := 100 * Minute
  enqueue := none
  nowValidBefore := 100 * Minute
  queueUpdateSuccess := none
  updateRecordFailed := none
  queueUpdateFailed := none

/-- The same poll, except that the final `QueueTask` Success write returns an error. -/
def samplePollEnvSuccessWriteFails : PollEnv :=
  { samplePollEnv "SUCCEEDED" ["https://x/1.png"] with queueUpdateSuccess := some ⟨"db down"⟩ }

/-- A dispatch one minute after creation in which the vendor accepts the job and
every store call succeeds. -/
def sampleDispatchEnv (payload : DashscopeImageCompletionPayload) : DispatchEnv where
  unmarshal := fun _ => .ok payload
  nowExpiry := 1 * Minute
  nowNextExecute := 1 * Minute
  nowDeadline := 1 * Minute
  subStringRaw := fun s n => String.mk (s.toList.take n.toNat)
  wordCount := fun s => s.length
  randIntn2 := 0
  resolvePrompts := .ret (payload.Prompt, payload.NegativePrompt, payload.AIRewrite)
  wordArtTexture := .ok "job-1"
  imageGeneration := .ok "job-1"
  stableDiffusion := .ok "job-1"
  queueUpdateExpired := none
  updateRecordArguments := none
  createPendingTask := none
  queueUpdateRunning := none
  updateRecordFailed := none
  queueUpdateFailed := none

/-- The same dispatch, except that the vendor rejects the submission. -/
def sampleDispatchEnvVendorFails : DispatchEnv :=
  { sampleDispatchEnv samplePayload with stableDiffusion := .fail ⟨"quota exceeded"⟩ }

/-- An image-dispatcher environment for a dashscope payload. -/
def sampleImageEnv (payload : ImageCompletionPayload) : ImageEnv where
  unmarshal := fun _ => .ok payload
  marshal := fun _ => "raw"
  nowExpiry := 1 * Minute
  queueUpdateExpired := none
  imageToImageRecognitionProvider := ""
  describeImage := .ok "a cat"
  leapai := fun _ => ⟨[], .ret none⟩
  deepai := fun _ => ⟨[], .ret none⟩
  stabilityai := fun _ => ⟨[], .ret none⟩
  fromston := fun _ => ⟨[], .ret none⟩
  getimgai := fun _ => ⟨[], .ret none⟩
  dalle := fun _ => ⟨[], .ret none⟩
  dashscope := sampleDispatchEnv samplePayload

def sampleImagePayload : ImageCompletionPayload :=
  { ID := "t1", Quota := 100, UID := 7, Prompt := "a cat", Vendor := "dashscope", CreatedAt := 0 }

/-! ## Further observations and sample runs -/

/-- The call is `rep.Creative.UpdateRecordByTaskID`, the update of the status and
answer of the user-visible history record. -/
def Call.isRecordUpdate : Call → Bool
  | .UpdateRecordByTaskID _ _ _ => true
  | _ => false

/-- A dispatch in which the vendor client panics with a string. -/
def sampleDispatchEnvVendorPanics : DispatchEnv :=
  { sampleDispatchEnv samplePayload with stableDiffusion := .panics (.str "boom") }

/-- A dispatch in which the vendor accepts the job and the final `QueueTask`
Running write returns an error. -/
def sampleDispatchEnvRunningWriteFails : DispatchEnv :=
  { sampleDispatchEnv samplePayload with queueUpdateRunning := some ⟨"db down"⟩ }

/-- A dispatch in which the vendor accepts the job and the creation of the pending
task returns an error. -/
def sampleDispatchEnvPendingTaskFails : DispatchEnv :=
  { sampleDispatchEnv samplePayload with createPendingTask := some ⟨"db down"⟩ }

/-- A group-chat environment in which the chat client panics with a string. -/
def sampleGroupChatEnvChatPanics (payload : GroupChatPayload) : GroupChatEnv :=
  { sampleGroupChatEnv payload with chat := .panics (.str "boom") }

/-- A poll in which the vendor status query panics with an error value. -/
def samplePollEnvQueryPanics : PollEnv :=
  { samplePollEnv "RUNNING" [] with imageTaskStatus := .panics (.error ⟨"nil pointer"⟩) }

/-- The call is a `QueueTask` write, of any status. -/
def Call.isQueueUpdate : Call → Bool
  | .QueueUpdate _ _ _ => true
  | _ => false

/-- The outcome of the vendor submission that the dashscope dispatcher makes for a
payload: word-art texture, image generation (an input image is given) or stable
diffusion. -/
def submissionOutcome (c : Consts) (env : DispatchEnv)
    (payload : DashscopeImageCompletionPayload) : CallOutcome String :=
  if payload.Model = c.WordArtTextureModel then env.wordArtTexture
  else if payload.Image ≠ "" then env.imageGeneration
  else env.stableDiffusion

/-- The payload as the dashscope dispatcher holds it when it registers the pending
task: outside the word-art branch `AIRewrite` is the flag returned by
`resolvePrompts`. -/
def resolvedPayload (c : Consts) (env : DispatchEnv)
    (payload : DashscopeImageCompletionPayload) : DashscopeImageCompletionPayload :=
  if payload.Model = c.WordArtTextureModel then payload
  else
    match env.resolvePrompts with
    | .ret (_, _, aiRewrite) => { payload with AIRewrite := aiRewrite }
    | .panic _ => payload

/-! ## Chat messages (`pkg/ai/chat/chat.go`) -/

structure ImageURL where
  URL : String := ""
  Detail : String := ""
deriving DecidableEq

/-- Type `MultipartContent`; its field `Type` is named `PartType` here.  The field
`ImageURL` is a pointer (`*ImageURL`): nil, or the address of an image on the
heap. -/
structure MultipartContent where
  PartType : String := ""
  ImageURL : Option Nat := none
  Text : String := ""
deriving DecidableEq

/-- Type `Message`.  The field `MultipartContents` is a slice of pointers
(`[]*MultipartContent`): each element is nil or the address of a part on the
heap. -/
structure Message where
  Role : String
  Content : String
  MultipartContents : List (Option Nat) := []
deriving DecidableEq

/-- The objects that the pointers held by messages refer to: the part and the image
stored at each address.  Two pointers with the same address refer to the same
object. -/
@[ext]
structure Heap where
  parts : Nat → MultipartContent
  images : Nat → ImageURL

abbrev Messages := List Message

/-- The user message that `Messages.Fix` appends when the last message is not a
user message. -/
def continueMessage : Message :=
  { Role := "user", Content := "继续" }

/-- The loop of `Messages.Fix` (lines 94-101) over the messages still to visit, with
the current values of `lastRole` and `finalMessages`. -/
def fixLoop : List Message → String → List Message → List Message
  | [], _, finalMessages => finalMessages
  | m :: rest, lastRole, finalMessages =>
    if m.Role = lastRole then fixLoop rest lastRole finalMessages
    else fixLoop rest m.Role (finalMessages ++ [m])

/-- Method `Messages.Fix`.  Indexing `msgs[len(msgs)-1]` on an empty list and slicing
`finalMessages[:len(finalMessages)-1]` on an empty list are run-time panics. -/
def Messages.Fix (ms : Messages) : Res Messages :=
  match ms.getLast? with
  | none => .panic (.error ⟨"runtime error: index out of range [-1]"⟩)
  | some last =>
    let msgs := if last.Role ≠ "user" then ms ++ [continueMessage] else ms
    let systemMsgs := msgs.filter fun m => m.Role = "system"
    let msgs := if systemMsgs.length > 0 then msgs.filter fun m => m.Role ≠ "system" else msgs
    let finalMessages := fixLoop msgs.reverse "" []
    if finalMessages.length % 2 = 0 then
      if finalMessages.length = 0 then
        .panic (.error ⟨"runtime error: slice bounds out of range [:-1]"⟩)
      else
        .ret (systemMsgs ++ (finalMessages.take (finalMessages.length - 1)).reverse)
    else
      .ret (systemMsgs ++ finalMessages.reverse)

/-- The sequence that `Messages.Fix` collapses: the messages of the input that are
not system messages, followed by the appended user message when the input does not
end with a user message. -/
def nonSystemSequence (ms : Messages) : Messages :=
  (match ms.getLast? with
    | some last => if last.Role ≠ "user" then ms ++ [continueMessage] else ms
    | none => ms).filter fun m => m.Role ≠ "system"

/-- Collapse of consecutive same-role messages in the words of the specification:
of every run of adjacent messages with equal roles the last message is kept, in the
order of the list. -/
def lastOfRuns : List Message → List Message
  | [] => []
  | [m] => [m]
  | m :: n :: rest =>
    if m.Role = n.Role then lastOfRuns (n :: rest) else m :: lastOfRuns (n :: rest)

/-- The messages of `r` whose role differs from the role of the message before
them, `lastRole` standing for the role before the first message. -/
def dropRepeats : String → List Message → List Message
  | _, [] => []
  | lastRole, m :: rest =>
    if m.Role = lastRole then dropRepeats lastRole rest else m :: dropRepeats m.Role rest

/-- The role of the message visited before the next one: the role of the last
message of `xs`, or `lastRole` when `xs` is empty. -/
def roleBefore (lastRole : String) (xs : List Message) : String :=
  match xs.getLast? with
  | some z => z.Role
  | none => lastRole

/-- Sample conversation: two system messages around a dialogue with repeated
roles that ends with an assistant message. -/
def sampleMessages : Messages :=
  [⟨"system", "s1", []⟩, ⟨"user", "u1", []⟩, ⟨"user", "u2", []⟩, ⟨"assistant", "a1", []⟩,
    ⟨"system", "s2", []⟩, ⟨"user", "u3", []⟩, ⟨"assistant", "a2", []⟩, ⟨"assistant", "a3", []⟩]

/-- The non-system part of the result of `Messages.Fix`, in the words of the
specification: the last message of every run of equal roles of the non-system
sequence, without the first of them when their number is even. -/
def collapsed (ms : Messages) : Messages :=
  if (lastOfRuns (nonSystemSequence ms)).length % 2 = 0 then
    (lastOfRuns (nonSystemSequence ms)).tail
  else lastOfRuns (nonSystemSequence ms)

/-! ## Creative-island controller: image dimensions (`creative-island.go`) -/

/-- Type `repo.Dimension`. -/
structure Dimension where
  Width : Int
  Height : Int
deriving DecidableEq

/-- Type `VendorModel`; the map `RatioDimensions` is its lookup function (a nil map
and an empty map both have no entry). -/
structure VendorModel where
  ID : String := ""
  Name : String := ""
  Vendor : String := ""
  Model : String := ""
  Enabled : Bool := false
  Upscale : Bool := false
  ShowStyle : Bool := false
  ShowImageStrength : Bool := false
  IntroURL : String := ""
  RatioDimensions : String → Option Dimension := fun _ => none

/-- Method `VendorModel.defaultDimension`. -/
def VendorModel.defaultDimension (_vm : VendorModel) (ratio : String) : Dimension :=
  if ratio = "1:1" then ⟨512, 512⟩
  else if ratio = "4:3" then ⟨768, 576⟩
  else if ratio = "3:4" then ⟨576, 768⟩
  else if ratio = "3:2" then ⟨768, 512⟩
  else if ratio = "2:3" then ⟨512, 768⟩
  else if ratio = "16:9" then ⟨1024, 576⟩
  else ⟨512, 512⟩

/-- Method `VendorModel.GetDimension`. -/
def VendorModel.GetDimension (vm : VendorModel) (ratio : String) : Dimension :=
  match vm.RatioDimensions ratio with
  | none => vm.defaultDimension ratio
  | some dimension =>
    if dimension.Width = 0 ∨ dimension.Height = 0 then
      let d := vm.defaultDimension ratio
      let dimension : Dimension :=
        if dimension.Width ≤ 0 then { dimension with Width := d.Width } else dimension
      if dimension.Height ≤ 0 then { dimension with Height := d.Height } else dimension
    else dimension

/-- A vendor model that configures 1024x1024 for "1:1" and only the width for
"4:3". -/
def sampleVendorModel : VendorModel :=
  { ID := "sdxl", Name := "SDXL", Vendor := "dashscope", Model := "stable-diffusion-xl",
    RatioDimensions := fun r =>
      if r = "1:1" then some ⟨1024, 1024⟩ else if r = "4:3" then some ⟨1024, 0⟩ else none }

/-! ## Task status controller (`server/controllers/tasks.go`) -/

/-- Values of the fields of a JSON response body. -/
inductive JSONValue where
  | str (s : String)
  | strs (l : List String)
  | int (n : Int)
deriving DecidableEq

/-- Response of a controller: `webCtx.JSON(web.M{...})`, the fields of the map being
listed in the order in which the code writes them, or `webCtx.JSONError(message,
status)`. -/
inductive Response where
  | JSON (body : List (String × JSONValue))
  | JSONError (message : String) (status : Nat)
deriving DecidableEq

/-- Fields of a stored queue task (`model.QueueTasks`) read by `TaskStatus`. -/
structure QueueTasks where
  TaskID : String := ""
  Uid : Int := 0
  Status : String := ""
  Result : String := ""
deriving DecidableEq

/-- Fields of `queue.CompletionResult` read by `TaskStatus`. -/
structure CompletionResult where
  OriginImage : String := ""
  Resources : List String := []
  ValidBefore : Time := zeroTime
  Width : Int := 0
  Height : Int := 0
deriving DecidableEq

/-- Type `queue.ErrorResult`. -/
structure ErrorResult where
  Errors : List String := []
deriving DecidableEq

/-- Outcome of `ctl.queueRepo.Task(ctx, taskID)`: the task, an error that is
`repo.ErrNotFound`, or another error. -/
inductive TaskLookup where
  | found (task : QueueTasks)
  | notFound
  | failed (e : GoError)
deriving DecidableEq

/-- What one call of `TaskStatus` depends on besides the requesting user. -/
structure TaskStatusEnv where
  task : TaskLookup
  /-- Function `common.Text(webCtx, ctl.translater, ·)`. -/
  text : String → String
  /-- Constants `common.ErrNotFound` and `common.ErrInternalError`. -/
  ErrNotFound : String
  ErrInternalError : String
  /-- Constants `repo.QueueTaskStatusSuccess` and `repo.QueueTaskStatusFailed`. -/
  QueueTaskStatusSuccess : String
  QueueTaskStatusFailed : String
  /-- Result of `json.Unmarshal` into a `queue.CompletionResult`. -/
  unmarshalCompletion : String → Except GoError CompletionResult
  /-- Result of `json.Unmarshal` into a `queue.ErrorResult`. -/
  unmarshalError : String → Except GoError ErrorResult
  /-- Function `t.Format(time.RFC3339)`. -/
  formatRFC3339 : Time → String

/-- Method `TaskController.TaskStatus`, for the requesting user `userID`. -/
def TaskStatus (env : TaskStatusEnv) (userID : Int) : Response :=
  match env.task with
  | .notFound => .JSONError env.ErrNotFound 404
  | .failed _ => .JSONError (env.text env.ErrInternalError) 500
  | .found task =>
    if task.Uid ≠ userID then
      .JSONError (env.text env.ErrNotFound) 404
    else if task.Status = env.QueueTaskStatusSuccess then
      match env.unmarshalCompletion task.Result with
      | .error _ => .JSONError (env.text env.ErrInternalError) 500
      | .ok taskResult =>
        .JSON
          ([("status", .str task.Status),
            ("origin_image", .str taskResult.OriginImage),
            ("resources", .strs taskResult.Resources),
            ("valid_before", .str (env.formatRFC3339 taskResult.ValidBefore))] ++
            (if taskResult.Width > 0 then [("width", .int taskResult.Width)] else []) ++
            (if taskResult.Height > 0 then [("height", .int taskResult.Height)] else []))
    else if task.Status = env.QueueTaskStatusFailed then
      match env.unmarshalError task.Result with
      | .error _ => .JSONError (env.text env.ErrInternalError) 500
      | .ok errResult => .JSON [("status", .str task.Status), ("errors", .strs errResult.Errors)]
    else
      .JSON [("status", .str task.Status)]

/-- A task-status environment for a stored task. -/
def sampleTaskStatusEnv (task : QueueTasks) : TaskStatusEnv where
  task := .found task
  text := fun s => s
  ErrNotFound := "not found"
  ErrInternalError := "internal error"
  QueueTaskStatusSuccess := "success"
  QueueTaskStatusFailed := "failed"
  unmarshalCompletion := fun _ => .ok { OriginImage := "o.png", Resources := ["u1", "u2"] }
  unmarshalError := fun _ => .ok { Errors := ["boom"] }
  formatRFC3339 := fun _ => "0001-01-01T00:00:00Z"

/-! ## Chat requests (`pkg/ai/chat/chat.go`) -/

/-- Type `chat.Request`. -/
structure Request where
  Stream : Bool := false
  Model : String := ""
  Messages : Messages := []
  MaxTokens : Int := 0
  N : Int := 0
  RoomID : Int := 0
  WebSocket : Bool := false
deriving DecidableEq

/-- Function `strings.Split(s, sep)` for a separator of one character, on the
characters of `s`. -/
def splitOn (sep : Char) : List Char → List (List Char)
  | [] => [[]]
  | c :: cs =>
    if c = sep then [] :: splitOn sep cs
    else
      match splitOn sep cs with
      | [] => [[c]]
      | seg :: segs => (c :: seg) :: segs

/-- Function `strings.Join(segs, sep)` for a separator of one character. -/
def joinWith (sep : Char) : List (List Char) → List Char
  | [] => []
  | [seg] => seg
  | seg :: next :: segs => seg ++ sep :: joinWith sep (next :: segs)

/-- The text after the first occurrence of `sep`, in the words of the
specification. -/
def afterFirst (sep : Char) (cs : List Char) : List Char :=
  (cs.dropWhile fun c => c ≠ sep).drop 1


/-- Function `unicode.IsSpace`: the characters with the Unicode property
White_Space. -/
def isSpace (c : Char) : Bool :=
  c.toNat ∈ [0x09, 0x0A, 0x0B, 0x0C, 0x0D, 0x20, 0x85, 0xA0, 0x1680, 0x2028, 0x2029, 0x202F,
    0x205F, 0x3000] || (0x2000 ≤ c.toNat && c.toNat ≤ 0x200A)

/-- The text is blank: all its characters are white space. -/
def isBlank (s : String) : Bool :=
  s.toList.all isSpace

/-- Function `strings.TrimSpace`. -/
def TrimSpace (s : String) : String :=
  String.mk ((s.toList.dropWhile isSpace).reverse.dropWhile isSpace).reverse

/-- Method `Request.Init`; `geminiProVision` is the constant
`google.ModelGeminiProVision`. -/
def Request.Init (geminiProVision : String) (req : Request) : Request :=
  let modelSegs := splitOn ':' req.Model.toList
  let modelSegs := if modelSegs.length > 1 then modelSegs.drop 1 else modelSegs
  let model := String.mk (joinWith ':' modelSegs)
  let messages := req.Messages.filter fun item => TrimSpace item.Content ≠ ""
  let messages :=
    if model = geminiProVision ∧ messages.length > 1 then messages.drop (messages.length - 1)
    else messages
  { req with Model := model, RoomID := req.N, N := 0, Messages := messages }

/-- Helpers of package `chat` that `Request.Fix` calls and that are declared outside
the embedded file, and the method `MaxContextLength` of the chat client.  They read
the messages and the objects the messages point to. -/
structure FixEnv where
  /-- First result of `MessageTokenCount`; its error is dropped. -/
  messageTokenCount : Heap → Messages → String → Int
  maxContextLength : String → Int
  reduceMessageContextUpToContextWindow : Heap → Messages → Int → Messages
  reduceMessageContext : Heap → Messages → String → Int → Except GoError (Messages × Int)

/-- The panic raised when a nil pointer is dereferenced. -/
def nilDereference : PanicValue :=
  .error ⟨"runtime error: invalid memory address or nil pointer dereference"⟩

/-- The assignment `image.Detail = detail` for the image at address `a`. -/
def Heap.setDetail (heap : Heap) (a : Nat) (detail : String) : Heap :=
  { heap with
    images := fun b => if b = a then { heap.images a with Detail := detail } else heap.images b }

/-- The function mapped over the multipart contents in `Request.Fix` (lines
189-195), applied to the pointer `part`: reading `part.ImageURL` through a nil
pointer panics; an image with a URL and no detail level gets the detail level "low",
written through the pointer; the pointer itself is returned. -/
def lowDetailPart (heap : Heap) (part : Option Nat) : Heap × Res (Option Nat) :=
  match part with
  | none => (heap, .panic nilDereference)
  | some p =>
    match (heap.parts p).ImageURL with
    | some a =>
      if (heap.images a).URL ≠ "" ∧ (heap.images a).Detail = "" then
        (heap.setDetail a "low", .ret part)
      else (heap, .ret part)
    | none => (heap, .ret part)

/-- Function `array.Map` with `lowDetailPart`, over the parts of one message in
order (line 189). -/
def lowDetailParts (heap : Heap) : List (Option Nat) → Heap × Res (List (Option Nat))
  | [] => (heap, .ret [])
  | part :: rest =>
    match lowDetailPart heap part with
    | (heap, .panic v) => (heap, .panic v)
    | (heap, .ret part) =>
      match lowDetailParts heap rest with
      | (heap, .panic v) => (heap, .panic v)
      | (heap, .ret rest) => (heap, .ret (part :: rest))

/-- The function mapped over the messages in `Request.Fix` (lines 187-198). -/
def lowDetail (heap : Heap) (item : Message) : Heap × Res Message :=
  if item.MultipartContents.length > 0 then
    match lowDetailParts heap item.MultipartContents with
    | (heap, .panic v) => (heap, .panic v)
    | (heap, .ret parts) => (heap, .ret { item with MultipartContents := parts })
  else (heap, .ret item)

/-- Function `array.Map` with `lowDetail`, over the messages in order (line 187). -/
def lowDetailMessages (heap : Heap) : List Message → Heap × Res (List Message)
  | [] => (heap, .ret [])
  | item :: rest =>
    match lowDetail heap item with
    | (heap, .panic v) => (heap, .panic v)
    | (heap, .ret item) =>
      match lowDetailMessages heap rest with
      | (heap, .panic v) => (heap, .panic v)
      | (heap, .ret rest) => (heap, .ret (item :: rest))

/-- Method `Request.Fix`, run on the heap `heap`: the heap it leaves, and its
outcome, which is a panic or the triple of the request (nil or a pointer to the
fixed request), the number of input tokens and the error. -/
def Request.Fix (env : FixEnv) (heap : Heap) (req : Request) (maxContextLength : Int)
    (maxTokenCount : Int) : Heap × Res (Option Request × Int × Option GoError) :=
  let systemMessages := req.Messages.filter fun item => item.Role = "system"
  let systemMessageLen := env.messageTokenCount heap systemMessages req.Model
  let modelTokenLimit := env.maxContextLength req.Model - systemMessageLen
  let maxTokenCount := if modelTokenLimit < maxTokenCount then modelTokenLimit else maxTokenCount
  match env.reduceMessageContext heap
      (env.reduceMessageContextUpToContextWindow heap
        (req.Messages.filter fun item => item.Role ≠ "system") maxContextLength)
      req.Model maxTokenCount with
  | .error _ =>
    (heap,
      .ret (none, 0, some ⟨"超过模型最大允许的上下文长度限制，请尝试“新对话”或缩短输入内容长度"⟩))
  | .ok (messages, inputTokens) =>
    match lowDetailMessages heap (systemMessages ++ messages) with
    | (heap, .panic v) => (heap, .panic v)
    | (heap, .ret messages) => (heap, .ret (some { req with Messages := messages }, inputTokens, none))

/-- The addresses of the images that the parts at the given pointers refer to. -/
def partImages (heap : Heap) (parts : List (Option Nat)) : List Nat :=
  parts.filterMap fun part => part.bind fun p => (heap.parts p).ImageURL

/-- The addresses of the images of the parts of the given messages. -/
def messageImages (heap : Heap) (ms : Messages) : List Nat :=
  ms.flatMap fun m => partImages heap m.MultipartContents

/-- The heap in which every image at one of the addresses `addrs` that has a URL and
no detail level has the detail level "low", and nothing else is changed. -/
def Heap.defaultDetail (heap : Heap) (addrs : List Nat) : Heap :=
  { heap with
    images := fun a =>
      if a ∈ addrs ∧ (heap.images a).URL ≠ "" ∧ (heap.images a).Detail = "" then
        { heap.images a with Detail := "low" }
      else heap.images a }

/-- Helpers that keep every message and count one token per message, with a context
length of 100 tokens. -/
def sampleFixEnv : FixEnv where
  messageTokenCount := fun _ ms _ => ms.length
  maxContextLength := fun _ => 100
  reduceMessageContextUpToContextWindow := fun _ ms _ => ms
  reduceMessageContext := fun _ ms _ budget =>
    if (ms.length : Int) ≤ budget then .ok (ms, ms.length) else .error ⟨"too long"⟩

/-- A heap whose part at address 0 is an image part for the image at address 0, a
URL without detail level; every other part is empty. -/
def sampleHeap : Heap where
  parts := fun p => if p = 0 then { PartType := "image_url", ImageURL := some 0 } else {}
  images := fun a => if a = 0 then ⟨"https://x/1.png", ""⟩ else ⟨"", ""⟩

/-- A request with a system message and one user message that carries the image
part at address 0. -/
def sampleImageRequest : Request :=
  { Model := "gpt-4-vision",
    Messages := [⟨"system", "be brief", []⟩, ⟨"user", "what is this?", [some 0]⟩] }

/-- A request whose user message holds a nil part after the image part. -/
def sampleNilPartRequest : Request :=
  { Model := "gpt-4-vision",
    Messages := [⟨"system", "be brief", []⟩, ⟨"user", "what is this?", [some 0, none]⟩] }

/-- A request with a vendor prefix in the model name, a room id in `N` and blank
messages. -/
def sampleRequest : Request :=
  { Model := "openai:gpt-4:32k", N := 12,
    Messages := [⟨"system", "be brief", []⟩, ⟨"user", " \t\n", []⟩, ⟨"user", "hello", []⟩, ⟨"assistant", "", []⟩] }

/-- A group-chat environment whose clock reads 16 minutes after the creation time
of the sample payloads. -/
def sampleGroupChatEnvLate (payload : GroupChatPayload) : GroupChatEnv :=
  { sampleGroupChatEnv payload with now := 16 * Minute }

/-! ## Creative-island controller: submission endpoints (`creative-island.go`) -/

/-- Request parameters as read through `web.Context`.  A `float64` parameter is read
in thousandths (0.65 is 650). -/
structure WebContext where
  Input : String → String
  InputWithDefault : String → String → String
  Int64Input : String → Int → Int
  IntInput : String → Int → Int
  Float64Input : String → Int → Int

/-- Type `queue.ImageUpscalePayload`, the fields the controller sets. -/
structure ImageUpscalePayload where
  UserID : Int := 0
  Image : String := ""
  UpscaleBy : String := ""
  Quota : Int := 0
  CreatedAt : Time := zeroTime
deriving DecidableEq

/-- Type `queue.ImageColorizationPayload`, the fields the controller sets. -/
structure ImageColorizationPayload where
  UserID : Int := 0
  Image : String := ""
  Quota : Int := 0
  CreatedAt : Time := zeroTime
deriving DecidableEq

/-- Type `queue.ArtisticTextCompletionPayload`, the fields the controller sets; the
numeric generation settings `ControlImageRatio`, `ControlWeight`, `GuidanceStart`,
`GuidanceEnd` and `CfgScale` are left out, and the field `Type` is named
`OptType`. -/
structure ArtisticTextCompletionPayload where
  Quota : Int := 0
  CreatedAt : Time := zeroTime
  Text : String := ""
  OptType : String := ""
  ArtisticType : String := ""
  Prompt : String := ""
  NegativePrompt : String := ""
  AIRewrite : Bool := false
  UID : Int := 0
  FreezedCoins : Int := 0
  Seed : Int := 0
  Steps : Int := 0
  NumImages : Int := 0
  FontPath : String := ""
deriving DecidableEq

/-- Type `queue.ImageToVideoCompletionPayload`, the fields the controller sets; the
`float64` field `CfgScale` is left out. -/
structure ImageToVideoCompletionPayload where
  Quota : Int := 0
  CreatedAt : Time := zeroTime
  Image : String := ""
  UID : Int := 0
  Seed : Int := 0
  MotionBucketID : Int := 0
  Width : Int := 0
  Height : Int := 0
deriving DecidableEq

/-- Interface `queue.Payload`, as the payloads that the submission endpoints hand
to `ctl.queue.Enqueue`. -/
inductive Payload where
  | ImageCompletion (p : ImageCompletionPayload)
  | ImageUpscale (p : ImageUpscalePayload)
  | ImageColorization (p : ImageColorizationPayload)
  | DashscopeImageCompletion (p : DashscopeImageCompletionPayload)
  | ArtisticTextCompletion (p : ArtisticTextCompletionPayload)
  | ImageToVideoCompletion (p : ImageToVideoCompletionPayload)
deriving DecidableEq

/-- Field `Quota` of a payload, which is also the result of the method `GetQuota`
of `ImageCompletionPayload` and of `DashscopeImageCompletionPayload`; the method of
`ArtisticTextCompletionPayload` is declared outside the embedded files and is taken
to return the field as well. -/
def Payload.GetQuota : Payload → Int
  | .ImageCompletion p => p.Quota
  | .ImageUpscale p => p.Quota
  | .ImageColorization p => p.Quota
  | .DashscopeImageCompletion p => p.Quota
  | .ArtisticTextCompletion p => p.Quota
  | .ImageToVideoCompletion p => p.Quota

/-- Values `repo.IslandTypeImage`, `repo.IslandTypeUpscale`,
`repo.IslandTypeImageColorization`, `repo.IslandTypeArtisticText` and
`repo.IslandTypeVideo`. -/
inductive IslandType where
  | Image
  | Upscale
  | ImageColorization
  | ArtisticText
  | Video
deriving DecidableEq

/-- Type `repo.CreativeItem`, the fields the controller sets. -/
structure CreativeItem where
  IslandId : String := ""
  IslandType : IslandType
  IslandModel : String := ""
  Prompt : String := ""
  TaskId : String := ""
  Status : CreativeStatus := .Unset
deriving DecidableEq

/-- Type `repo.CreativeRecordArguments`, the fields the controller sets; the
`float64` field `CfgScale` is left out. -/
structure CreativeRecordArguments where
  NegativePrompt : String := ""
  PromptTags : List String := []
  Width : Int := 0
  Height : Int := 0
  Steps : Int := 0
  ImageCount : Int := 0
  ImageRatio : String := ""
  StylePreset : String := ""
  Mode : String := ""
  Image : String := ""
  UpscaleBy : String := ""
  AIRewrite : Bool := false
  ModelID : String := ""
  ModelName : String := ""
  FilterID : Int := 0
  FilterName : String := ""
  GalleryCopyID : Int := 0
  Seed : Int := 0
  ArtisticType : String := ""
  Text : String := ""
  MotionBucketID : Int := 0
deriving DecidableEq

/-- Calls a submission endpoint makes on its collaborators.  The key of `SetEx`,
`fmt.Sprintf("creative-island:%d:task:%s:quota-freeze", user.ID, taskID)`, is kept
as the pair of the user and the task id; `taskBuilder` is the name of the task
builder passed to `Enqueue`. -/
inductive WebCall where
  | Filters
  | Models
  | QueryImageInfo (image : String)
  | UserQuota (uid : Int)
  | PromptDetect (content : String)
  | Enqueue (payload : Payload) (taskBuilder : String)
  | FreezeUserQuota (uid : Int) (quota : Int)
  | SetEx (uid : Int) (taskID : String) (value : Int) (expiration : Int)
  | CreateRecordWithArguments (uid : Int) (item : CreativeItem) (arg : CreativeRecordArguments)
deriving DecidableEq

def CallResult.ofExcept {α : Type} : Except GoError α → CallResult
  | .ok _ => .ok
  | .error e => .failed e

structure WebEffect where
  call : WebCall
  result : CallResult
deriving DecidableEq

/-- One run of an endpoint: the calls made and the response returned. -/
structure WebRun where
  trace : List WebEffect
  response : Response
deriving DecidableEq

/-- Run `r` continued after the calls `pre` have been made. -/
def WebRun.after (pre : List WebEffect) (r : WebRun) : WebRun :=
  ⟨pre ++ r.trace, r.response⟩

/-- Type `repo.ImageModel`, the fields read by the controller; the fields of
`ImageMeta` are listed with the others. -/
structure ImageModel where
  ModelId : String := ""
  ModelName : String := ""
  Vendor : String := ""
  RealModel : String := ""
  Status : Int := 0
  Upscale : Bool := false
  ShowStyle : Bool := false
  ShowImageStrength : Bool := false
  IntroURL : String := ""
  RatioDimensions : String → Option Dimension := fun _ => none

/-- Type `repo.ImageFilter`, the fields read by the controller; the fields of
`ImageMeta` are listed with the others. -/
structure ImageFilter where
  Id : Int := 0
  Name : String := ""
  PreviewImage : String := ""
  Description : String := ""
  ModelId : String := ""
  Vendor : String := ""
  Mode : String := ""
  Prompt : String := ""
  NegativePrompt : String := ""
  Supports : List String := []
deriving DecidableEq

/-- Type `ImageStyle`. -/
structure ImageStyle where
  ID : Int := 0
  Name : String := ""
  PreviewImage : String := ""
  Description : String := ""
  Mode : String := ""
  ModelID : String := ""
  Vendor : String := ""
  Prompt : String := ""
  NegativePrompt : String := ""
  Supports : List String := []
deriving DecidableEq

/-- Type `service.UserQuota`, the fields read by the controller. -/
structure UserQuota where
  Rest : Int
  Freezed : Int
deriving DecidableEq

/-- Result of `ctl.securitySrv.PromptDetect` when it is not nil: the results of its
methods `IsReallyUnSafe` and `ReasonDetail`. -/
structure CheckResult where
  IsReallyUnSafe : Bool
  ReasonDetail : String
deriving DecidableEq

/-- Result of `uploader.QueryImageInfo`, the fields read by the controller. -/
structure ImageInfo where
  Width : Int
  Height : Int
deriving DecidableEq

/-- What one call of a submission endpoint depends on besides the request: the
configuration, the outcomes of the calls on the collaborators, and the functions of
other packages. -/
structure CreativeIslandEnv where
  /-- Fields of `ctl.conf`. -/
  StorageDomain : String
  DefaultImageToImageModel : String
  DefaultTextToImageModel : String
  FontPath : String
  EnableLeapAI : Bool
  EnableStabilityAI : Bool
  EnableFromstonAI : Bool
  EnableGetimgAI : Bool
  EnableDashScopeAI : Bool
  EnableOpenAIDalle : Bool
  /-- Result of `ctl.creativeRepo.Models(ctx)`; with an error the list is nil. -/
  models : Except GoError (List ImageModel)
  /-- Result of `ctl.creativeRepo.Filters(ctx)`. -/
  filters : Except GoError (List ImageFilter)
  /-- Result of `uploader.QueryImageInfo(image)`. -/
  queryImageInfo : Except GoError ImageInfo
  /-- Result of `ctl.userSvc.UserQuota(ctx, user.ID)`. -/
  userQuota : Except GoError UserQuota
  /-- Result of `ctl.securitySrv.PromptDetect(req.Prompt)`. -/
  promptDetect : Option CheckResult
  /-- Result of `ctl.queue.Enqueue`: the task id or an error. -/
  enqueue : Except GoError String
  freezeUserQuota : Option GoError
  setEx : Option GoError
  createRecordWithArguments : Option GoError
  /-- Reading of `time.Now()`. -/
  now : Time
  /-- Result of `rand.Intn(2147483647)`. -/
  randIntn : Int
  /-- Function `common.Text(webCtx, ctl.trans, ·)`. -/
  text : String → String
  /-- Constants `common.ErrInternalError` and `common.ErrQuotaNotEnough`. -/
  ErrInternalError : String
  ErrQuotaNotEnough : String
  /-- Functions `misc.WordCount`, `misc.WordTruncate`, `array.Uniq` (on texts),
  `uploader.BuildImageURLWithFilter`, `coins.GetUnifiedImageGenCoins` and
  `coins.GetUnifiedVideoGenCoins`. -/
  WordCount : String → Int
  WordTruncate : String → Int → String
  Uniq : List String → List String
  BuildImageURLWithFilter : String → String → String → String
  GetUnifiedImageGenCoins : String → Int
  GetUnifiedVideoGenCoins : String → Int

/-- Function `strings.HasPrefix`. -/
def HasPrefix (s p : String) : Bool :=
  p.toList.isPrefixOf s.toList

/-- Function `str.HasPrefixes`: the text starts with one of the given texts. -/
def HasPrefixes (s : String) (ps : List String) : Bool :=
  ps.any fun p => HasPrefix s p

/-- Function `strings.ReplaceAll` for texts of one character. -/
def ReplaceAll (s : String) (old new : Char) : String :=
  String.mk (s.toList.map fun c => if c = old then new else c)

/-- Function `strings.Trim` for a cutset of one character. -/
def Trim (s : String) (cut : Char) : String :=
  String.mk ((s.toList.dropWhile fun c => c = cut).reverse.dropWhile fun c => c = cut).reverse

/-- Function `strings.Split` for a separator of one character. -/
def Split (s : String) (sep : Char) : List String :=
  (splitOn sep s.toList).map String.mk

/-- Method `loadAllModels`, given the result of `ctl.creativeRepo.Models`. -/
def loadAllModels (env : CreativeIslandEnv) : List ImageModel :=
  let models := match env.models with
    | .ok models => models
    | .error _ => []
  models.filter fun m =>
    if m.Vendor = "leapai" then env.EnableLeapAI
    else if m.Vendor = "stabilityai" then env.EnableStabilityAI
    else if m.Vendor = "fromston" then env.EnableFromstonAI
    else if m.Vendor = "getimgai" then env.EnableGetimgAI
    else if m.Vendor = "dashscope" then env.EnableDashScopeAI
    else if m.Vendor = "dalle" then env.EnableOpenAIDalle
    else true

/-- Method `getAllModels`. -/
def getAllModels (env : CreativeIslandEnv) : List VendorModel :=
  (loadAllModels env).map fun (m : ImageModel) =>
    { ID := m.ModelId
      Name := m.ModelName
      Vendor := m.Vendor
      Model := m.RealModel
      Enabled := decide (m.Status = (1 : Int))
      Upscale := m.Upscale
      ShowStyle := m.ShowStyle
      ShowImageStrength := m.ShowImageStrength
      IntroURL := m.IntroURL
      RatioDimensions := m.RatioDimensions }

/-- Method `getVendorModel`: the first model with the given id. -/
def getVendorModel (env : CreativeIslandEnv) (modelID : String) : Option VendorModel :=
  (getAllModels env).find? fun m => m.ID = modelID

/-- Method `getAllImageStyles`. -/
def getAllImageStyles (env : CreativeIslandEnv) : List ImageStyle :=
  match env.filters with
  | .error _ => []
  | .ok filters =>
    filters.map fun f =>
      { ID := f.Id
        Name := f.Name
        PreviewImage := f.PreviewImage
        Description := f.Description
        ModelID := f.ModelId
        Mode := f.Mode
        Prompt := f.Prompt
        NegativePrompt := f.NegativePrompt
        Supports := f.Supports
        Vendor := f.Vendor }

/-- Method `getStyleByID`. -/
def getStyleByID (env : CreativeIslandEnv) (styleID : Int) : Option ImageStyle :=
  let filters := getAllImageStyles env
  if filters.length = 0 then none
  else filters.find? fun f => f.ID = styleID

/-- Method `getStyleByModelID`. -/
def getStyleByModelID (env : CreativeIslandEnv) (modelID : String) (mode : String) :
    Option ImageStyle :=
  let filters := getAllImageStyles env
  if filters.length = 0 then none
  else if filters.length = 1 then filters.head?
  else
    let matched := filters.filter fun item => item.ModelID = modelID ∧ mode ∈ item.Supports
    if matched.length = 1 then matched.head? else none

/-- The call of `ctl.creativeRepo.Filters` made by `getAllImageStyles`. -/
def filtersCall (env : CreativeIslandEnv) : WebEffect :=
  ⟨.Filters, CallResult.ofExcept env.filters⟩

/-- The call of `ctl.creativeRepo.Models` made by `loadAllModels`. -/
def modelsCall (env : CreativeIslandEnv) : WebEffect :=
  ⟨.Models, CallResult.ofExcept env.models⟩

/-- Lines 690-714 of `resolveImageCompletionRequest`: the model id, the filter id,
the filter name and the default mode that the style of the request gives, or
nothing when the filter id of the request names no style.  `modelID` is the model
of the request. -/
def resolveStyle (env : CreativeIslandEnv) (webCtx : WebContext) (image modelID : String) :
    Option (String × Int × String × String) :=
  let filterID := webCtx.Int64Input "filter_id" 0
  if filterID > 0 then
    match getStyleByID env filterID with
    | none => none
    | some filter => some (filter.ModelID, filterID, filter.Name, filter.Mode)
  else
    let mode := if image ≠ "" then "image-to-image" else "text-to-image"
    match getStyleByModelID env modelID mode with
    | some filter => some (modelID, filter.ID, filter.Name, filter.Mode)
    | none => some (modelID, filterID, "", "")

/-- Lines 721-794 of `resolveImageCompletionRequest`: the checks that follow the
lookup of the vendor model, and the payload.  `fields` holds the fields of the
payload that lines 648-688 settle.  The `float64` parameter `image_strength` is
only checked for its range, since the payload field it is stored in is left out
(lines 758-765 adjust the value alone). -/
def resolveDimensions (env : CreativeIslandEnv) (webCtx : WebContext)
    (fields : ImageCompletionPayload) (filterID : Int) (filterName defaultFilterMode : String)
    (vendorModel : VendorModel) : Except Response ImageCompletionPayload :=
  let imageRatio := webCtx.InputWithDefault "image_ratio" "1:1"
  if imageRatio ∉ ["1:1", "4:3", "3:4", "3:2", "2:3", "16:9"] then
    .error (.JSONError "invalid image ratio" 400)
  else
  let defaultFilterMode := if defaultFilterMode = "" then "canny" else defaultFilterMode
  let mode := webCtx.InputWithDefault "mode" defaultFilterMode
  let mode := if mode ∉ ["canny", "mlsd", "pose", "scribble"] then defaultFilterMode else mode
  let dimension := vendorModel.GetDimension imageRatio
  let width := webCtx.IntInput "width" dimension.Width
  let height := webCtx.IntInput "height" dimension.Height
  if width < 1 ∨ height < 1 ∨ width > 2048 ∨ height > 2048 then
    .error (.JSONError "invalid width or height" 400)
  else
  let imageStrength := webCtx.Float64Input "image_strength" 650
  if imageStrength < 0 ∨ imageStrength > 1000 then
    .error (.JSONError "invalid image_strength" 400)
  else
  let seed := webCtx.Int64Input "seed" env.randIntn
  if seed < 0 ∨ seed > 2147483647 then
    .error (.JSONError "invalid seed" 400)
  else
    .ok
      { fields with
        ImageRatio := imageRatio
        Width := width
        Height := height
        Mode := mode
        Seed := seed
        FilterID := filterID
        FilterName := filterName
        GalleryCopyID := webCtx.Int64Input "gallery_copy_id" 0
        Quota := env.GetUnifiedImageGenCoins vendorModel.Model * fields.ImageCount
        CreatedAt := env.now
        Vendor := vendorModel.Vendor
        Model := vendorModel.Model
        ModelName := vendorModel.Name }

/-- Method `resolveImageCompletionRequest` for the user `userID`: the calls made,
and the payload or the error response. -/
def resolveImageCompletionRequest (env : CreativeIslandEnv) (webCtx : WebContext) (userID : Int) :
    List WebEffect × Except Response ImageCompletionPayload :=
  let image := webCtx.Input "image"
  if image ≠ "" ∧ ¬ HasPrefixes image ["http://", "https://"] then
    ([], .error (.JSONError "invalid image" 400))
  else
  let promptTags := env.Uniq ((Split (webCtx.Input "prompt_tags") ',').filter fun tag => tag ≠ "")
  let prompt := Trim (ReplaceAll (TrimSpace (webCtx.Input "prompt")) '，' ',') ','
  if prompt = "" ∧ image = "" then
    ([], .error (.JSONError "prompt is required" 400))
  else
  let negativePrompt := ReplaceAll (TrimSpace (webCtx.Input "negative_prompt")) '，' ','
  if env.WordCount negativePrompt > 1000 then
    ([], .error (.JSONError "排除内容输入字数不能超过 1000" 400))
  else
  let imageCount := webCtx.Int64Input "image_count" 1
  if imageCount < 1 ∨ imageCount > 4 then
    ([], .error (.JSONError "invalid image count" 400))
  else
  let steps := webCtx.IntInput "steps" 30
  if steps ∉ [30, 50, 100, 150] then
    ([], .error (.JSONError "invalid steps" 400))
  else
  let aiRewrite : Bool := webCtx.InputWithDefault "ai_rewrite" "false" = "true"
  let aiRewrite : Bool := if image ≠ "" then false else aiRewrite
  let upscaleBy := webCtx.InputWithDefault "upscale_by" "x1"
  if upscaleBy ∉ ["x1", "x2", "x4"] then
    ([], .error (.JSONError "invalid upscale_by" 400))
  else
  let stylePreset := webCtx.Input "style_preset"
  let modelID := webCtx.InputWithDefault "model"
    (if image ≠ "" then env.DefaultImageToImageModel else env.DefaultTextToImageModel)
  match resolveStyle env webCtx image modelID with
  | none => ([filtersCall env], .error (.JSONError "invalid filter_id" 400))
  | some (modelID, filterID, filterName, defaultFilterMode) =>
    match getVendorModel env modelID with
    | none => ([filtersCall env, modelsCall env], .error (.JSONError "没有找到匹配的模型" 400))
    | some vendorModel =>
      ([filtersCall env, modelsCall env],
        resolveDimensions env webCtx
          { Prompt := prompt
            NegativePrompt := negativePrompt
            PromptTags := promptTags
            ImageCount := imageCount
            Steps := steps
            Image := image
            AIRewrite := aiRewrite
            UpscaleBy := upscaleBy
            StylePreset := stylePreset
            UID := userID }
          filterID filterName defaultFilterMode vendorModel)

/-- The closing steps that the five submission endpoints share (in `Completions`
lines 1318-1345): enqueue the payload, freeze the quota, note the frozen amount in
Redis for five minutes, save the history record, and answer with the task id.
`quota` is the amount passed to `FreezeUserQuota` and to `SetEx`, `record` builds
the history record from the task id, `wait` is the waiting time of the answer. -/
def submitTask (env : CreativeIslandEnv) (userID : Int) (payload : Payload) (taskBuilder : String)
    (quota : Int) (record : String → CreativeItem × CreativeRecordArguments) (wait : Int) :
    WebRun :=
  match env.enqueue with
  | .error e =>
    ⟨[⟨.Enqueue payload taskBuilder, .failed e⟩], .JSONError (env.text env.ErrInternalError) 500⟩
  | .ok taskID =>
    let calls : List WebEffect :=
      [⟨.Enqueue payload taskBuilder, .ok⟩,
        ⟨.FreezeUserQuota userID quota, CallResult.ofError env.freezeUserQuota⟩,
        ⟨.SetEx userID taskID quota (5 * Minute), CallResult.ofError env.setEx⟩,
        ⟨.CreateRecordWithArguments userID (record taskID).1 (record taskID).2,
          CallResult.ofError env.createRecordWithArguments⟩]
    match env.createRecordWithArguments with
    | some _ => ⟨calls, .JSONError (env.text env.ErrInternalError) 500⟩
    | none => ⟨calls, .JSON [("task_id", .str taskID), ("wait", .int wait)]⟩

/-- Constant `AllInOneIslandID`. -/
def AllInOneIslandID : String := "all-in-one"

/-- Method `buildHistorySaveRecord`. -/
def buildHistorySaveRecord (req : ImageCompletionPayload) (taskID : String) :
    CreativeItem × CreativeRecordArguments :=
  ({ IslandId := AllInOneIslandID
     IslandType := .Image
     IslandModel := req.Model
     Prompt := req.Prompt
     TaskId := taskID
     Status := .Pending },
   { NegativePrompt := req.NegativePrompt
     PromptTags := req.PromptTags
     Width := req.Width
     Height := req.Height
     Steps := req.Steps
     ImageCount := req.ImageCount
     ImageRatio := req.ImageRatio
     StylePreset := req.StylePreset
     Mode := req.Mode
     Image := req.Image
     UpscaleBy := req.UpscaleBy
     AIRewrite := req.AIRewrite
     ModelID := req.Model
     ModelName := req.ModelName
     FilterID := req.FilterID
     FilterName := req.FilterName
     GalleryCopyID := req.GalleryCopyID
     Seed := req.Seed })

/-- Method `Completions` from the quota check on (lines 1295-1345), for the
resolved payload. -/
def completionsCharge (env : CreativeIslandEnv) (userID : Int) (req : ImageCompletionPayload) :
    WebRun :=
  match env.userQuota with
  | .error e =>
    ⟨[⟨.UserQuota userID, .failed e⟩], .JSONError (env.text env.ErrInternalError) 500⟩
  | .ok quota =>
    if quota.Rest - quota.Freezed < req.Quota then
      ⟨[⟨.UserQuota userID, .ok⟩], .JSONError (env.text env.ErrQuotaNotEnough) 402⟩
    else
    match env.promptDetect with
    | some ⟨true, reasonDetail⟩ =>
      ⟨[⟨.UserQuota userID, .ok⟩, ⟨.PromptDetect req.Prompt, .ok⟩],
        .JSONError
          ("内容违规，已被系统拦截，如有疑问邮件联系：support@aicode.cc\n\n原因：" ++ reasonDetail)
          406⟩
    | _ =>
      WebRun.after [⟨.UserQuota userID, .ok⟩, ⟨.PromptDetect req.Prompt, .ok⟩]
        (submitTask env userID (.ImageCompletion req) "NewImageCompletionTask" req.Quota
          (buildHistorySaveRecord req) 60)

/-- Method `Completions` after the request has been resolved (lines 1285-1345): the
check of the image address and the square crop for two vendors (lines 1285-1293),
then the quota check and what follows it. -/
def completionsSubmit (env : CreativeIslandEnv) (userID : Int) (req : ImageCompletionPayload) :
    WebRun :=
  if req.Image ≠ "" ∧ ¬ HasPrefixes req.Image ["https://ssl.aicode.cc/", env.StorageDomain] then
    ⟨[], .JSONError "invalid image" 400⟩
  else
    completionsCharge env userID
      (if req.Image ≠ "" ∧ req.Vendor ∈ ["fromston", "stabilityai"] then
        { req with
          Image := env.BuildImageURLWithFilter req.Image "fix_square_1024" env.StorageDomain }
      else req)

/-- Method `CreativeIslandController.Completions` for the user `userID`. -/
def Completions (env : CreativeIslandEnv) (webCtx : WebContext) (userID : Int) : WebRun :=
  let resolved := resolveImageCompletionRequest env webCtx userID
  match resolved.2 with
  | .error errResp => ⟨resolved.1, errResp⟩
  | .ok req => WebRun.after resolved.1 (completionsSubmit env userID req)

/-- Method `CreativeIslandController.ImageUpscale` for the user `userID`. -/
def ImageUpscale (env : CreativeIslandEnv) (webCtx : WebContext) (userID : Int) : WebRun :=
  let image := webCtx.Input "image"
  if image ≠ "" ∧ ¬ HasPrefixes image ["http://", "https://"] then
    ⟨[], .JSONError "invalid image" 400⟩
  else if ¬ HasPrefix image env.StorageDomain then
    ⟨[], .JSONError "invalid image" 400⟩
  else
  match env.userQuota with
  | .error e =>
    ⟨[⟨.UserQuota userID, .failed e⟩], .JSONError (env.text env.ErrInternalError) 500⟩
  | .ok quota =>
    let quotaConsume := env.GetUnifiedImageGenCoins ""
    if quota.Rest - quota.Freezed < quotaConsume then
      ⟨[⟨.UserQuota userID, .ok⟩], .JSONError (env.text env.ErrQuotaNotEnough) 402⟩
    else
    let upscaleBy := "x4"
    let req : ImageUpscalePayload :=
      { UserID := userID
        Image := image
        UpscaleBy := upscaleBy
        Quota := quotaConsume
        CreatedAt := env.now }
    WebRun.after [⟨.UserQuota userID, .ok⟩]
      (submitTask env userID (.ImageUpscale req) "NewImageUpscaleTask" req.Quota
        (fun taskID =>
          ({ IslandId := AllInOneIslandID
             IslandType := .Upscale
             TaskId := taskID
             Status := .Pending },
           { Image := image
             UpscaleBy := upscaleBy }))
        60)

/-- Method `CreativeIslandController.ImageColorize` for the user `userID`. -/
def ImageColorize (env : CreativeIslandEnv) (webCtx : WebContext) (userID : Int) : WebRun :=
  let image := webCtx.Input "image"
  if image ≠ "" ∧ ¬ HasPrefixes image ["http://", "https://"] then
    ⟨[], .JSONError "invalid image" 400⟩
  else if ¬ HasPrefix image env.StorageDomain then
    ⟨[], .JSONError "invalid image" 400⟩
  else
  match env.userQuota with
  | .error e =>
    ⟨[⟨.UserQuota userID, .failed e⟩], .JSONError (env.text env.ErrInternalError) 500⟩
  | .ok quota =>
    let quotaConsume := env.GetUnifiedImageGenCoins ""
    if quota.Rest - quota.Freezed < quotaConsume then
      ⟨[⟨.UserQuota userID, .ok⟩], .JSONError (env.text env.ErrQuotaNotEnough) 402⟩
    else
    let req : ImageColorizationPayload :=
      { UserID := userID
        Image := image
        Quota := quotaConsume
        CreatedAt := env.now }
    WebRun.after [⟨.UserQuota userID, .ok⟩]
      (submitTask env userID (.ImageColorization req) "NewImageColorizationTask" req.Quota
        (fun taskID =>
          ({ IslandId := AllInOneIslandID
             IslandType := .ImageColorization
             TaskId := taskID
             Status := .Pending },
           { Image := image }))
        60)

/-- Method `CreativeIslandController.ArtisticText` for the user `userID`; `c` holds
the constant `dashscope.WordArtTextureModel`.  The `float64` parameters
`control_weight` and `control_image_ratio` are only checked for their range, since
the payload fields they are stored in are left out. -/
def ArtisticText (c : Consts) (env : CreativeIslandEnv) (webCtx : WebContext) (userID : Int) :
    WebRun :=
  let text := webCtx.Input "text"
  if text = "" then
    ⟨[], .JSONError "invalid text" 400⟩
  else
  let optType := webCtx.Input "type"
  if optType ∉ ["qr", "text", "word_art"] then
    ⟨[], .JSONError "invalid type" 400⟩
  else
  let prompt := env.WordTruncate (webCtx.Input "prompt") 500
  if prompt = "" then
    ⟨[], .JSONError "invalid prompt" 400⟩
  else
  let negativePrompt := env.WordTruncate (webCtx.Input "negative_prompt") 500
  let stylePreset := webCtx.Input "style_preset"
  let stylePreset :=
    if stylePreset = "" then (if optType = "word_art" then "material" else "realism")
    else stylePreset
  if stylePreset ∉ ["realism", "anime", "comics", "dream", "prime", "2.5d", "material", "scene"]
  then
    ⟨[], .JSONError "invalid stylePreset" 400⟩
  else
  let fontName := webCtx.Input "font_name"
  if fontName ≠ "" ∧ fontName ∉ ["dongfangdakai", "puhuiti_m", "shuheiti", "jinbuti", "kuheiti",
      "kuaileti", "wenyiti", "logoti", "cangeryuyangti_m", "siyuansongti_b", "siyuanheiti_m",
      "fangzhengkaiti"] then
    ⟨[], .JSONError "invalid fontName" 400⟩
  else
  let imageCount := webCtx.Int64Input "image_count" 1
  if imageCount < 1 ∨ imageCount > 4 then
    ⟨[], .JSONError "invalid image count" 400⟩
  else
  let steps := webCtx.IntInput "steps" 30
  if steps ∉ [30, 50, 100, 150] then
    ⟨[], .JSONError "invalid steps" 400⟩
  else
  match env.userQuota with
  | .error e =>
    ⟨[⟨.UserQuota userID, .failed e⟩], .JSONError (env.text env.ErrInternalError) 500⟩
  | .ok quota =>
    let quotaConsume := env.GetUnifiedImageGenCoins "" * imageCount
    if quota.Rest - quota.Freezed < quotaConsume then
      ⟨[⟨.UserQuota userID, .ok⟩], .JSONError (env.text env.ErrQuotaNotEnough) 402⟩
    else
    let controlWeight := webCtx.Float64Input "control_weight" 1350
    if controlWeight < 100 ∨ controlWeight > 3000 then
      ⟨[⟨.UserQuota userID, .ok⟩], .JSONError "invalid control_weight" 400⟩
    else
    let controlImageRatio := webCtx.Float64Input "control_image_ratio" 800
    if controlImageRatio < 100 ∨ controlImageRatio > 1000 then
      ⟨[⟨.UserQuota userID, .ok⟩], .JSONError "invalid control_image_ratio" 400⟩
    else
    let seed := webCtx.Int64Input "seed" (-1)
    let seed := if seed < 0 ∨ seed > 2147483647 then -1 else seed
    let req : Payload :=
      if optType = "word_art" then
        .DashscopeImageCompletion
          { Quota := quotaConsume
            CreatedAt := env.now
            TextureText := text
            Prompt := prompt
            TextureStyle := stylePreset
            UID := userID
            FreezedCoins := quotaConsume
            TextureFontName := fontName
            ImageCount := imageCount
            Steps := steps
            Seed := seed
            Model := c.WordArtTextureModel }
      else
        .ArtisticTextCompletion
          { Quota := quotaConsume
            CreatedAt := env.now
            Text := text
            OptType := optType
            ArtisticType := stylePreset
            Prompt := prompt
            NegativePrompt := negativePrompt
            AIRewrite := webCtx.Input "ai_rewrite" = "true"
            UID := userID
            FreezedCoins := quotaConsume
            Seed := seed
            Steps := steps
            NumImages := imageCount
            FontPath := env.FontPath }
    let taskBuilder :=
      if optType = "word_art" then "NewDashscopeImageCompletionTask"
      else "NewArtisticTextCompletionTask"
    WebRun.after [⟨.UserQuota userID, .ok⟩]
      (submitTask env userID req taskBuilder req.GetQuota
        (fun taskID =>
          ({ IslandId := AllInOneIslandID
             IslandType := .ArtisticText
             TaskId := taskID
             Status := .Pending
             Prompt := prompt },
           { NegativePrompt := negativePrompt
             ArtisticType := optType
             StylePreset := stylePreset
             Text := text }))
        30)

/-- Method `CreativeIslandController.ImageToVideo` for the user `userID`.  The
`float64` parameter `cfg_scale` is not read, since the fields it is stored in are
left out and no value of it rejects the request. -/
def ImageToVideo (env : CreativeIslandEnv) (webCtx : WebContext) (userID : Int) : WebRun :=
  let image := webCtx.Input "image"
  if image ≠ "" ∧ ¬ HasPrefixes image ["http://", "https://"] then
    ⟨[], .JSONError "invalid image" 400⟩
  else if ¬ HasPrefix image env.StorageDomain then
    ⟨[], .JSONError "invalid image" 400⟩
  else
  let info : WebEffect := ⟨.QueryImageInfo image, CallResult.ofExcept env.queryImageInfo⟩
  let size : Int × Int :=
    match env.queryImageInfo with
    | .ok info =>
      if info.Width = info.Height then (768, 768)
      else if info.Width > info.Height then (1024, 576)
      else (576, 1024)
    | .error _ => (1024, 576)
  let width := size.1
  let height := size.2
  let image := env.BuildImageURLWithFilter image
    ("resize" ++ toString width ++ "x" ++ toString height) env.StorageDomain
  match env.userQuota with
  | .error e =>
    ⟨[info, ⟨.UserQuota userID, .failed e⟩], .JSONError (env.text env.ErrInternalError) 500⟩
  | .ok quota =>
    let quotaConsume := env.GetUnifiedVideoGenCoins ""
    if quota.Rest - quota.Freezed < quotaConsume then
      ⟨[info, ⟨.UserQuota userID, .ok⟩], .JSONError (env.text env.ErrQuotaNotEnough) 402⟩
    else
    let seed := webCtx.Int64Input "seed" (-1)
    let seed := if seed < 0 ∨ seed > 2147483647 then -1 else seed
    let motionBucketID := webCtx.IntInput "motion_bucket_id" 40
    let motionBucketID := if motionBucketID < 1 ∨ motionBucketID > 255 then 40 else motionBucketID
    let req : ImageToVideoCompletionPayload :=
      { Quota := quotaConsume
        CreatedAt := env.now
        Image := image
        UID := userID
        Seed := seed
        MotionBucketID := motionBucketID
        Width := width
        Height := height }
    WebRun.after [info, ⟨.UserQuota userID, .ok⟩]
      (submitTask env userID (.ImageToVideoCompletion req) "NewImageToVideoCompletionTask"
        req.Quota
        (fun taskID =>
          ({ IslandId := AllInOneIslandID
             IslandType := .Video
             TaskId := taskID
             Status := .Pending },
           { Image := image
             Width := width
             Height := height
             Seed := seed
             MotionBucketID := motionBucketID }))
        30)

/-- The call is `ctl.queue.Enqueue`. -/
def WebCall.isEnqueue : WebCall → Bool
  | .Enqueue _ _ => true
  | _ => false

/-- The call is `ctl.userSvc.FreezeUserQuota`. -/
def WebCall.isFreeze : WebCall → Bool
  | .FreezeUserQuota _ _ => true
  | _ => false

/-- Number of calls in a trace that satisfy `p`. -/
def countWebCalls (p : WebCall → Bool) (t : List WebEffect) : Nat :=
  (t.filter fun x => p x.call).length

/-- The request parameters with the given texts, every other parameter taking its
default value. -/
def sampleWebContext (inputs : List (String × String)) : WebContext where
  Input := fun key => (inputs.lookup key).getD ""
  InputWithDefault := fun key value =>
    if (inputs.lookup key).getD "" = "" then value else (inputs.lookup key).getD ""
  Int64Input := fun _ value => value
  IntInput := fun _ value => value
  Float64Input := fun _ value => value

/-- An environment with one enabled model, no filters, 100 coins at rest of which
none is frozen, a price of 20 coins an image, and collaborators that all succeed. -/
def sampleCreativeIslandEnv : CreativeIslandEnv where
  StorageDomain := "https://cdn.example/"
  DefaultImageToImageModel := "sdxl"
  DefaultTextToImageModel := "sdxl"
  FontPath := "/fonts"
  EnableLeapAI := true
  EnableStabilityAI := true
  EnableFromstonAI := true
  EnableGetimgAI := true
  EnableDashScopeAI := true
  EnableOpenAIDalle := true
  models := .ok [{ ModelId := "sdxl", ModelName := "SDXL", Vendor := "dashscope",
                   RealModel := "stable-diffusion-xl", Status := 1 }]
  filters := .ok []
  queryImageInfo := .ok ⟨1024, 1024⟩
  userQuota := .ok ⟨100, 0⟩
  promptDetect := none
  enqueue := .ok "task-1"
  freezeUserQuota := none
  setEx := none
  createRecordWithArguments := none
  now := 0
  randIntn := 42
  text := fun s => s
  ErrInternalError := "internal error"
  ErrQuotaNotEnough := "quota not enough"
  WordCount := fun s => s.length
  WordTruncate := fun s _ => s
  Uniq := fun l => l
  BuildImageURLWithFilter := fun image filter _ => image ++ "-" ++ filter
  GetUnifiedImageGenCoins := fun _ => 20
  GetUnifiedVideoGenCoins := fun _ => 50

/-- The sample environment with a queue that refuses the payload. -/
def sampleCreativeIslandEnvQueueDown : CreativeIslandEnv :=
  { sampleCreativeIslandEnv with enqueue := .error ⟨"redis down"⟩ }

/-- The sample environment for a user with 10 coins at rest. -/
def sampleCreativeIslandEnvPoor : CreativeIslandEnv :=
  { sampleCreativeIslandEnv with userQuota := .ok ⟨10, 0⟩ }

/-- The run ends with an error response, or it continues with the closing steps of
a submission, for the quota of the payload, after calls that neither enqueue nor
freeze. -/
def SubmissionShape (env : CreativeIslandEnv) (userID : Int) (run : WebRun) : Prop :=
  (∃ pre msg status, run = ⟨pre, .JSONError msg status⟩)
    ∨ ∃ pre payload taskBuilder record wait,
        run = WebRun.after pre
          (submitTask env userID payload taskBuilder payload.GetQuota record wait)
        ∧ ∀ x ∈ pre, x.call.isEnqueue = false ∧ x.call.isFreeze = false

/-! ## Lemmas on traces -/

@[simp]
theorem countCalls_nil (p : Call → Bool) : countCalls p [] = 0 := rfl

@[simp]
theorem countCalls_cons (p : Call → Bool) (e : Effect) (t : List Effect) :
    countCalls p (e :: t) = (if p e.call = true then 1 else 0) + countCalls p t := by
  by_cases h : p e.call = true
  · simp [countCalls, List.filter_cons, h, Nat.add_comm]
  · simp [countCalls, List.filter_cons, h]

@[simp]
theorem countCalls_append (p : Call → Bool) (s t : List Effect) :
    countCalls p (s ++ t) = countCalls p s + countCalls p t := by
  simp [countCalls]

@[simp]
theorem Run.after_trace {α : Type} (pre : List Effect) (r : Run α) :
    (Run.after pre r).trace = pre ++ r.trace := rfl

@[simp]
theorem Run.after_out {α : Type} (pre : List Effect) (r : Run α) :
    (Run.after pre r).out = r.out := rfl

/-! ## C1: ledger calls of the group-chat handler -/

/-- C1, as amended.  In every run of the group-chat handler that writes a terminal
`QueueTask` status (Success or Failed): `UnfreezeUserQuota` is invoked exactly once
when the payload has `FreezedCoins > 0` and not at all otherwise, whatever the
outcome; `QuotaConsume` is invoked at most once, and only in a run that also makes
the `QueueTask` Success write. -/
theorem groupChat_ledger_calls (env : GroupChatEnv) (raw : String) (payload : GroupChatPayload)
    (hdec : env.unmarshal raw = .ok payload)
    (hterm : ∃ e ∈ (BuildGroupChatHandler env raw).trace, e.call.isTerminalWrite = true) :
    countCalls Call.isUnfreeze (BuildGroupChatHandler env raw).trace
        = (if payload.FreezedCoins > 0 then 1 else 0)
      ∧ countCalls Call.isQuotaConsume (BuildGroupChatHandler env raw).trace ≤ 1
      ∧ (countCalls Call.isQuotaConsume (BuildGroupChatHandler env raw).trace = 1 →
          ⟨.QueueUpdate payload.ID .Success .EmptyResult,
            CallResult.ofError env.queueUpdateSuccess⟩ ∈ (BuildGroupChatHandler env raw).trace) := by
  unfold BuildGroupChatHandler at hterm ⊢
  simp only [hdec] at hterm ⊢
  by_cases hx : expired payload.CreatedAt (15 * Minute) env.now = true
  · simp [hx] at hterm
  · simp only [hx, Bool.false_eq_true, ↓reduceIte] at hterm ⊢
    revert hterm
    unfold groupChatBody
    rcases hfix : env.fix ⟨payload.ModelID, payload.ContextMessages⟩ with req | e | v
    · rcases hchat : env.chat with resp | e | v
      · by_cases hcode : resp.ErrorCode = ""
        · rcases hupd : env.updateChatMessageSucceed with _ | e
          · rcases hq : env.queueUpdateSuccess with _ | e <;>
              by_cases hfree : payload.FreezedCoins > 0 <;>
              by_cases hcost : (if env.freeChatRequestCounts > 0 then (0 : Int)
                  else env.getOpenAITextCoins (ResolveCalFeeModel req env.nanxianRel env.beichouRel)
                    (resp.InputTokens + resp.OutputTokens)) > 0 <;>
              simp [Run.after, groupChatSettle, groupChatDeferred, groupChatFailed,
                groupChatRelease, countCalls, Call.isUnfreeze, Call.isQuotaConsume, hcode, hupd,
                hq, hfree, hcost, List.filter_cons, CallResult.ofError]
          · by_cases hfree : payload.FreezedCoins > 0 <;>
              simp [Run.after, groupChatSettle, groupChatDeferred, groupChatFailed,
                groupChatRelease, countCalls, Call.isUnfreeze, Call.isQuotaConsume, hcode, hupd,
                hfree, assertError, List.filter_cons]
        · by_cases hfree : payload.FreezedCoins > 0 <;>
            simp [groupChatDeferred, groupChatFailed, groupChatRelease, countCalls,
              Call.isUnfreeze, Call.isQuotaConsume, hcode, hfree, assertError, List.filter_cons,
              Run.after]
      · by_cases hfree : payload.FreezedCoins > 0 <;>
          simp [groupChatDeferred, groupChatFailed, groupChatRelease, countCalls,
            Call.isUnfreeze, Call.isQuotaConsume, hfree, assertError, List.filter_cons, Run.after]
      · rcases v with e | t <;> by_cases hfree : payload.FreezedCoins > 0 <;>
          simp [groupChatDeferred, groupChatFailed, groupChatRelease, countCalls,
            Call.isUnfreeze, Call.isQuotaConsume, Call.isTerminalWrite, Call.isQueueWrite, hfree,
            assertError, List.filter_cons, Run.after]
    · by_cases hfree : payload.FreezedCoins > 0 <;>
        simp [groupChatDeferred, groupChatFailed, groupChatRelease, countCalls,
          Call.isUnfreeze, Call.isQuotaConsume, hfree, assertError, List.filter_cons, Run.after]
    · rcases v with e | t <;> by_cases hfree : payload.FreezedCoins > 0 <;>
        simp [groupChatDeferred, groupChatFailed, groupChatRelease, countCalls,
          Call.isUnfreeze, Call.isQuotaConsume, Call.isTerminalWrite, Call.isQueueWrite, hfree,
          assertError, List.filter_cons, Run.after]

/-- Witness for `groupChat_ledger_calls`: a successful chat on a payload with 5
frozen coins. -/
theorem groupChat_ledger_calls_witness :
    (sampleGroupChatEnv sampleGroupChatPayload).unmarshal "raw" = .ok sampleGroupChatPayload
      ∧ (∃ e ∈ (BuildGroupChatHandler (sampleGroupChatEnv sampleGroupChatPayload) "raw").trace,
          e.call.isTerminalWrite = true)
      ∧ countCalls Call.isUnfreeze
          (BuildGroupChatHandler (sampleGroupChatEnv sampleGroupChatPayload) "raw").trace = 1
      ∧ countCalls Call.isQuotaConsume
          (BuildGroupChatHandler (sampleGroupChatEnv sampleGroupChatPayload) "raw").trace ≤ 1 :=
  have hterm : ∃ e ∈ (BuildGroupChatHandler (sampleGroupChatEnv sampleGroupChatPayload) "raw").trace,
      e.call.isTerminalWrite = true :=
    ⟨⟨.QueueUpdate "t1" .Success .EmptyResult, .ok⟩, by decide, by decide⟩
  have h := groupChat_ledger_calls (sampleGroupChatEnv sampleGroupChatPayload) "raw"
    sampleGroupChatPayload rfl hterm
  ⟨rfl, hterm, h.1, h.2.1⟩

/-- C1 fails as stated.  A successful group chat that costs 3 coins, on a payload
with 5 frozen coins, writes `QueueTask` Success and invokes both `QuotaConsume` and
`UnfreezeUserQuota`; a failed group chat on a payload without frozen coins writes
`QueueTask` Failed and invokes neither. -/
theorem groupChat_both_and_neither :
    (BuildGroupChatHandler (sampleGroupChatEnv sampleGroupChatPayload) "raw" =
        ⟨[⟨.Chat "gpt-4" [], .ok⟩,
          ⟨.FreeChatRequestCounts 7 "gpt-4", .ok⟩,
          ⟨.UpdateChatMessage 1 7 9
            { Message := "hi", TokenConsumed := 30, QuotaConsumed := 3, Status := .Succeed }, .ok⟩,
          ⟨.UpdateFreeChatCount 7 "gpt-4", .ok⟩,
          ⟨.QuotaConsume 7 3 ⟨"group_chat", ["gpt-4"]⟩, .ok⟩,
          ⟨.QueueUpdate "t1" .Success .EmptyResult, .ok⟩,
          ⟨.UnfreezeUserQuota 7 5, .ok⟩], .ret none⟩
      ∧ countCalls Call.isQuotaConsume
          (BuildGroupChatHandler (sampleGroupChatEnv sampleGroupChatPayload) "raw").trace = 1
      ∧ countCalls Call.isUnfreeze
          (BuildGroupChatHandler (sampleGroupChatEnv sampleGroupChatPayload) "raw").trace = 1)
    ∧ (BuildGroupChatHandler (sampleGroupChatEnvChatFails sampleGroupChatPayloadUnfrozen) "raw" =
        ⟨[⟨.Chat "gpt-4" [], .failed ⟨"timeout"⟩⟩,
          ⟨.UpdateChatMessage 1 7 9
            { Message := "chat failed: timeout", Status := .Failed,
              Error := "chat failed: timeout" }, .ok⟩,
          ⟨.QueueUpdate "t1" .Failed (.ErrorResult ["chat failed: timeout"]), .ok⟩],
         .ret (some ⟨"chat failed: timeout"⟩)⟩
      ∧ countCalls Call.isQuotaConsume
          (BuildGroupChatHandler (sampleGroupChatEnvChatFails sampleGroupChatPayloadUnfrozen)
            "raw").trace = 0
      ∧ countCalls Call.isUnfreeze
          (BuildGroupChatHandler (sampleGroupChatEnvChatFails sampleGroupChatPayloadUnfrozen)
            "raw").trace = 0) := by
  decide

/-! ## C2: amount consumed on success -/

/-- C2 at the spec scenario: estimate 100, two resources at unit price 40.  The
history record is written with `QuotaUsed` 80, but `QuotaConsume` is invoked with
the payload estimate 100. -/
theorem poll_success_consumes_estimate :
    dashscopeImageAsyncJobProcesser sampleConsts (samplePollEnv "SUCCEEDED" ["u1", "", "u2"])
        sampleTask =
      ⟨[⟨.ImageTaskStatus "job-1", .ok⟩,
        ⟨.UpdateRecordByTaskID 7 "t1"
          { Answer := "[\"u1\",\"u2\"]", QuotaUsed := 80, Status := .Success }, .ok⟩,
        ⟨.QuotaConsume 7 100 ⟨"fromston", ["stable-diffusion-xl", "upload"]⟩, .ok⟩,
        ⟨.Enqueue ⟨"t1", 7, 100 * Minute⟩, .ok⟩,
        ⟨.QueueUpdate "t1" .Success (.CompletionResult "" ["u1", "u2"] (100 * Minute + 7 * 24 * Hour)),
          .ok⟩],
       .ret (some { Status := .Success }, none)⟩ := by
  decide

/-- Every `QuotaConsume` call of `handleDashscopeImageTask` carries the payload's
estimate `GetQuota()`, whatever the number of resources and the unit price. -/
theorem handle_consume_amount (env : PollEnv) (payload : DashscopeImagePendingTaskPayload)
    (tasks : ImageTaskResponse) (e : Effect)
    (he : e ∈ (handleDashscopeImageTask env payload tasks).trace)
    (hc : e.call.isQuotaConsume = true) :
    e.call = .QuotaConsume payload.Payload.UID payload.Payload.Quota
      ⟨"fromston", [payload.Payload.Model, "upload"]⟩ := by
  by_cases hres : (resourcesOf tasks).length = 0
  · simp [handleDashscopeImageTask, hres] at he
  · rcases hj : env.jsonMarshal (resourcesOf tasks) with e1 | retJson
    · simp [handleDashscopeImageTask, hres, hj] at he
    · rcases hu : env.updateRecordSuccess with _ | e2
      · rcases hq : env.quotaConsume with _ | e3
        · simp [handleDashscopeImageTask, hres, hj, hu, hq] at he
          rcases he with he | he | he | he <;> subst he <;>
            simp_all [Call.isQuotaConsume, DashscopeImagePendingTaskPayload.GetUID,
              DashscopeImagePendingTaskPayload.GetQuota, DashscopeImagePendingTaskPayload.GetModel]
        · simp [handleDashscopeImageTask, hres, hj, hu, hq] at he
          rcases he with he | he <;> subst he <;>
            simp_all [Call.isQuotaConsume, DashscopeImagePendingTaskPayload.GetUID,
              DashscopeImagePendingTaskPayload.GetQuota, DashscopeImagePendingTaskPayload.GetModel]
      · simp [handleDashscopeImageTask, hres, hj, hu] at he
        subst he
        simp [Call.isQuotaConsume] at hc

/-! ## C3: quota release on failure of a dashscope task -/

/-- C3 at two failures of a task with 100 frozen coins.  In the poller, the vendor
reports the job failed: history and `QueueTask` are written Failed and
`UnfreezeUserQuota` is not invoked.  In the dispatcher, the vendor rejects the
submission: again both Failed writes are made and `UnfreezeUserQuota` is not
invoked. -/
theorem dashscope_failed_without_unfreeze :
    samplePayload.FreezedCoins = 100
    ∧ dashscopeImageAsyncJobProcesser sampleConsts (samplePollEnv "FAILED" []) sampleTask =
        ⟨[⟨.ImageTaskStatus "job-1", .ok⟩,
          ⟨.UpdateRecordByTaskID 7 "t1" { Answer := "task failed: FAILED", Status := .Failed }, .ok⟩,
          ⟨.QueueUpdate "t1" .Failed (.ErrorResult ["task failed: FAILED"]), .ok⟩],
         .ret (some { Status := .Failed }, some ⟨"task failed: FAILED"⟩)⟩
    ∧ countCalls Call.isUnfreeze
        (dashscopeImageAsyncJobProcesser sampleConsts (samplePollEnv "FAILED" []) sampleTask).trace = 0
    ∧ BuildDashscopeImageCompletionHandler sampleConsts sampleDispatchEnvVendorFails "raw" =
        ⟨[⟨.ResolvePrompts "stable-diffusion-xl", .ok⟩,
          ⟨.VendorSubmit (.StableDiffusion "stable-diffusion-xl" "a cat" "" "1024*1024" 2 0 0),
            .failed ⟨"quota exceeded"⟩⟩,
          ⟨.UpdateRecordByTaskID 7 "t1" { Answer := "quota exceeded", Status := .Failed }, .ok⟩,
          ⟨.QueueUpdate "t1" .Failed (.ErrorResult ["quota exceeded"]), .ok⟩],
         .ret (some ⟨"quota exceeded"⟩)⟩
    ∧ countCalls Call.isUnfreeze
        (BuildDashscopeImageCompletionHandler sampleConsts sampleDispatchEnvVendorFails "raw").trace
        = 0 := by
  decide

theorem handle_never_unfreezes (env : PollEnv) (payload : DashscopeImagePendingTaskPayload)
    (tasks : ImageTaskResponse) :
    countCalls Call.isUnfreeze (handleDashscopeImageTask env payload tasks).trace = 0 := by
  by_cases hres : (resourcesOf tasks).length = 0
  · simp [handleDashscopeImageTask, hres]
  · rcases hj : env.jsonMarshal (resourcesOf tasks) with e1 | retJson <;>
      rcases hu : env.updateRecordSuccess with _ | e2 <;>
      rcases hq : env.quotaConsume with _ | e3 <;>
      simp [handleDashscopeImageTask, hres, hj, hu, hq, Call.isUnfreeze]

/-! ### Unfolding lemmas for the pending-task handler -/

theorem pollBody_processing (c : Consts) (env : PollEnv) (task : QueueTasksPending)
    (payload : DashscopeImagePendingTaskPayload) (taskRes : ImageTaskResponse)
    (h1 : taskRes.TaskStatus = c.TaskStatusPending ∨ taskRes.TaskStatus = c.TaskStatusRunning ∨
      taskRes.TaskStatus = c.TaskStatusUnknown) :
    pollBody c env task payload taskRes = ⟨[], .ret (some (rearm env task), none)⟩ := by
  rw [pollBody, if_pos h1]

theorem pollBody_failed (c : Consts) (env : PollEnv) (task : QueueTasksPending)
    (payload : DashscopeImagePendingTaskPayload) (taskRes : ImageTaskResponse)
    (h1 : ¬ (taskRes.TaskStatus = c.TaskStatusPending ∨ taskRes.TaskStatus = c.TaskStatusRunning ∨
      taskRes.TaskStatus = c.TaskStatusUnknown))
    (h2 : taskRes.TaskStatus = c.TaskStatusFailed) :
    pollBody c env task payload taskRes =
      ⟨[], .panic (.error ⟨"task failed: " ++ taskRes.TaskStatus⟩)⟩ := by
  rw [pollBody, if_neg h1, if_pos h2]

theorem pollBody_finished (c : Consts) (env : PollEnv) (task : QueueTasksPending)
    (payload : DashscopeImagePendingTaskPayload) (taskRes : ImageTaskResponse)
    (h1 : ¬ (taskRes.TaskStatus = c.TaskStatusPending ∨ taskRes.TaskStatus = c.TaskStatusRunning ∨
      taskRes.TaskStatus = c.TaskStatusUnknown))
    (h2 : ¬ taskRes.TaskStatus = c.TaskStatusFailed) :
    pollBody c env task payload taskRes =
      match (handleDashscopeImageTask env payload taskRes).out with
      | .panic v => ⟨(handleDashscopeImageTask env payload taskRes).trace, .panic v⟩
      | .ret (some err) => ⟨(handleDashscopeImageTask env payload taskRes).trace, .ret (none, some err)⟩
      | .ret none =>
        ⟨(handleDashscopeImageTask env payload taskRes).trace,
          .ret (some { Status := .Success }, none)⟩ := by
  rw [pollBody, if_neg h1, if_neg h2]

theorem processer_queried (c : Consts) (env : PollEnv) (task : QueueTasksPending)
    (payload : DashscopeImagePendingTaskPayload) (taskRes : ImageTaskResponse)
    (hdec : env.unmarshal task.Payload = .ok payload)
    (hq : env.imageTaskStatus = .ok taskRes) :
    dashscopeImageAsyncJobProcesser c env task =
      Run.after (⟨.ImageTaskStatus payload.DashscopeImageTaskID, .ok⟩ ::
          (pollBody c env task payload taskRes).trace)
        (pollDeferred env payload (pollBody c env task payload taskRes).out) := by
  simp only [dashscopeImageAsyncJobProcesser, hdec, hq]

/-- No run of the dashscope pending-task handler invokes `UnfreezeUserQuota`. -/
theorem poll_never_unfreezes (c : Consts) (env : PollEnv) (task : QueueTasksPending) :
    countCalls Call.isUnfreeze (dashscopeImageAsyncJobProcesser c env task).trace = 0 := by
  rcases hdec : env.unmarshal task.Payload with e | payload
  · simp [dashscopeImageAsyncJobProcesser, hdec]
  · rcases hq : env.imageTaskStatus with taskRes | e | v
    · rw [processer_queried c env task payload taskRes hdec hq]
      have hh := handle_never_unfreezes env payload taskRes
      by_cases h1 : taskRes.TaskStatus = c.TaskStatusPending ∨
          taskRes.TaskStatus = c.TaskStatusRunning ∨ taskRes.TaskStatus = c.TaskStatusUnknown
      · rw [pollBody_processing c env task payload taskRes h1]
        simp [pollDeferred, Call.isUnfreeze]
      · by_cases h2 : taskRes.TaskStatus = c.TaskStatusFailed
        · rw [pollBody_failed c env task payload taskRes h1 h2]
          simp [pollDeferred, Call.isUnfreeze, assertError]
        · rw [pollBody_finished c env task payload taskRes h1 h2]
          rcases hout : (handleDashscopeImageTask env payload taskRes).out with r | v
          · rcases r with _ | err <;> simp [pollDeferred, Call.isUnfreeze, hh]
          · rcases v with err | t <;> simp [pollDeferred, Call.isUnfreeze, hh, assertError]
    · simp [dashscopeImageAsyncJobProcesser, hdec, hq, Call.isUnfreeze]
    · simp [dashscopeImageAsyncJobProcesser, hdec, hq, Call.isUnfreeze]

/-! ### The dashscope dispatcher makes no ledger call and no Failed write in its body -/

theorem dispatchRegister_no_settlement (c : Consts) (env : DispatchEnv)
    (payload : DashscopeImageCompletionPayload) (prompt negativePrompt taskID : String) :
    countCalls Call.isSettlement
      (dispatchRegister c env payload prompt negativePrompt taskID).trace = 0 := by
  unfold dispatchRegister
  by_cases h : prompt ≠ payload.Prompt ∨ negativePrompt ≠ payload.NegativePrompt <;>
    rcases hc : env.createPendingTask with _ | e <;>
    simp [h, Call.isSettlement, Call.isUnfreeze, Call.isQuotaConsume, Call.isTerminalWrite,
      Call.isQueueWrite]

theorem submit_no_settlement (req : VendorRequest) (outcome : CallOutcome String)
    (k : String → Run (Option GoError))
    (hk : ∀ taskID, countCalls Call.isSettlement (k taskID).trace = 0) :
    countCalls Call.isSettlement (submit req outcome k).trace = 0 := by
  rcases outcome with taskID | e | v <;>
    simp [submit, hk, Call.isSettlement, Call.isUnfreeze, Call.isQuotaConsume,
      Call.isTerminalWrite, Call.isQueueWrite]

theorem dispatchBody_no_settlement (c : Consts) (env : DispatchEnv)
    (payload : DashscopeImageCompletionPayload) :
    countCalls Call.isSettlement (dispatchBody c env payload).trace = 0 := by
  unfold dispatchBody
  by_cases hm : payload.Model = c.WordArtTextureModel
  · simp only [hm, if_true]
    exact submit_no_settlement _ _ _ (fun _ => dispatchRegister_no_settlement _ _ _ _ _ _)
  · simp only [hm, if_false]
    rcases hr : env.resolvePrompts with ⟨prompt, negativePrompt, aiRewrite⟩ | v
    · by_cases hi : payload.Image = ""
      · simp [hi, Call.isSettlement, Call.isUnfreeze, Call.isQuotaConsume, Call.isTerminalWrite,
          Call.isQueueWrite]
        exact submit_no_settlement _ _ _ (fun _ => dispatchRegister_no_settlement _ _ _ _ _ _)
      · simp [hi, Call.isSettlement, Call.isUnfreeze, Call.isQuotaConsume, Call.isTerminalWrite,
          Call.isQueueWrite]
        exact submit_no_settlement _ _ _ (fun _ => dispatchRegister_no_settlement _ _ _ _ _ _)
    · simp [Call.isSettlement, Call.isUnfreeze, Call.isQuotaConsume, Call.isTerminalWrite,
        Call.isQueueWrite]

/-- No run of the dashscope dispatcher invokes a ledger operation. -/
theorem dispatch_no_ledger_call (c : Consts) (env : DispatchEnv) (raw : String) :
    countCalls Call.isUnfreeze (BuildDashscopeImageCompletionHandler c env raw).trace = 0
      ∧ countCalls Call.isQuotaConsume (BuildDashscopeImageCompletionHandler c env raw).trace = 0 := by
  rcases hp : env.unmarshal raw with e | p
  · simp [BuildDashscopeImageCompletionHandler, hp]
  · by_cases hx : expired p.CreatedAt (5 * Minute) env.nowExpiry = true
    · simp [BuildDashscopeImageCompletionHandler, hp, hx, expiredWrite, Call.isUnfreeze,
        Call.isQuotaConsume]
    · have hbody := dispatchBody_no_settlement c env p
      simp only [countCalls, List.length_eq_zero, List.filter_eq_nil_iff] at hbody
      have hu : countCalls Call.isUnfreeze (dispatchBody c env p).trace = 0 := by
        simp only [countCalls, List.length_eq_zero, List.filter_eq_nil_iff]
        intro x hxm hw
        exact hbody x hxm (by simp [Call.isSettlement, hw])
      have hq : countCalls Call.isQuotaConsume (dispatchBody c env p).trace = 0 := by
        simp only [countCalls, List.length_eq_zero, List.filter_eq_nil_iff]
        intro x hxm hw
        exact hbody x hxm (by simp [Call.isSettlement, hw])
      rcases hout : (dispatchBody c env p).out with r | v
      · rcases r with _ | err <;>
          simp [BuildDashscopeImageCompletionHandler, hp, hx, hout, dispatchDeferred, hu, hq,
            Call.isUnfreeze, Call.isQuotaConsume]
      · rcases v with err | t <;>
          simp [BuildDashscopeImageCompletionHandler, hp, hx, hout, dispatchDeferred, hu, hq,
            Call.isUnfreeze, Call.isQuotaConsume, assertError]

/-! ## C4: no Failed write after a successful consume -/

/-- C4 fails as stated.  The vendor reports success with one image, `QuotaConsume`
succeeds, and the `QueueTask` Success write that follows returns an error: the
handler then writes `QueueTask` Failed. -/
theorem poll_consumed_then_failed :
    dashscopeImageAsyncJobProcesser sampleConsts samplePollEnvSuccessWriteFails sampleTask =
      ⟨[⟨.ImageTaskStatus "job-1", .ok⟩,
        ⟨.UpdateRecordByTaskID 7 "t1"
          { Answer := "[\"https://x/1.png\"]", QuotaUsed := 40, Status := .Success }, .ok⟩,
        ⟨.QuotaConsume 7 100 ⟨"fromston", ["stable-diffusion-xl", "upload"]⟩, .ok⟩,
        ⟨.Enqueue ⟨"t1", 7, 100 * Minute⟩, .ok⟩,
        ⟨.QueueUpdate "t1" .Success
          (.CompletionResult "" ["https://x/1.png"] (100 * Minute + 7 * 24 * Hour)),
          .failed ⟨"db down"⟩⟩,
        ⟨.QueueUpdate "t1" .Failed (.ErrorResult ["db down"]), .ok⟩],
       .ret (none, some ⟨"db down"⟩)⟩ := by
  decide

/-- C4, as amended.  In every run of the dashscope pending-task handler in which
`QuotaConsume` was invoked and succeeded and no `QueueTask` Success write returned
an error, the handler writes no `QueueTask` Failed status and returns the update
Success with a nil error. -/
theorem poll_consumed_not_failed (c : Consts) (env : PollEnv) (task : QueueTasksPending)
    (hconsume : ∃ e ∈ (dashscopeImageAsyncJobProcesser c env task).trace,
      e.call.isQuotaConsume = true ∧ e.result = .ok)
    (hwrite : ∀ e ∈ (dashscopeImageAsyncJobProcesser c env task).trace,
      e.call.isQueueWrite .Success = true → e.result = .ok) :
    countCalls (Call.isQueueWrite .Failed) (dashscopeImageAsyncJobProcesser c env task).trace = 0
      ∧ (dashscopeImageAsyncJobProcesser c env task).out =
          .ret (some { Status := .Success }, none) := by
  revert hconsume hwrite
  rcases hdec : env.unmarshal task.Payload with e | payload
  · simp [dashscopeImageAsyncJobProcesser, hdec]
  · rcases hq : env.imageTaskStatus with taskRes | e | v
    · rw [processer_queried c env task payload taskRes hdec hq]
      by_cases h1 : taskRes.TaskStatus = c.TaskStatusPending ∨
          taskRes.TaskStatus = c.TaskStatusRunning ∨ taskRes.TaskStatus = c.TaskStatusUnknown
      · rw [pollBody_processing c env task payload taskRes h1]
        simp [pollDeferred, Call.isQuotaConsume]
      · by_cases h2 : taskRes.TaskStatus = c.TaskStatusFailed
        · rw [pollBody_failed c env task payload taskRes h1 h2]
          simp [pollDeferred, Call.isQuotaConsume, assertError]
        · rw [pollBody_finished c env task payload taskRes h1 h2]
          by_cases hres : (resourcesOf taskRes).length = 0
          · simp [handleDashscopeImageTask, hres, pollDeferred, Call.isQuotaConsume, assertError]
          · rcases hj : env.jsonMarshal (resourcesOf taskRes) with e1 | retJson
            · simp [handleDashscopeImageTask, hres, hj, pollDeferred, Call.isQuotaConsume,
                assertError]
            · rcases hu : env.updateRecordSuccess with _ | e2
              · rcases hc : env.quotaConsume with _ | e3
                · rcases hs : env.queueUpdateSuccess with _ | e4 <;>
                    simp [handleDashscopeImageTask, hres, hj, hu, hc, hs, pollDeferred,
                      Call.isQuotaConsume, Call.isQueueWrite, CallResult.ofError]
                · simp [handleDashscopeImageTask, hres, hj, hu, hc, pollDeferred,
                    Call.isQuotaConsume]
              · simp [handleDashscopeImageTask, hres, hj, hu, pollDeferred, Call.isQuotaConsume,
                  assertError]
    · simp [dashscopeImageAsyncJobProcesser, hdec, hq, Call.isQuotaConsume]
    · simp [dashscopeImageAsyncJobProcesser, hdec, hq, Call.isQuotaConsume]

/-- Witness for `poll_consumed_not_failed`: vendor success with two images, every
store and ledger call succeeding. -/
theorem poll_consumed_not_failed_witness :
    (∃ e ∈ (dashscopeImageAsyncJobProcesser sampleConsts (samplePollEnv "SUCCEEDED" ["u1", "u2"])
          sampleTask).trace, e.call.isQuotaConsume = true ∧ e.result = .ok)
      ∧ (∀ e ∈ (dashscopeImageAsyncJobProcesser sampleConsts
            (samplePollEnv "SUCCEEDED" ["u1", "u2"]) sampleTask).trace,
          e.call.isQueueWrite .Success = true → e.result = .ok)
      ∧ countCalls (Call.isQueueWrite .Failed)
          (dashscopeImageAsyncJobProcesser sampleConsts (samplePollEnv "SUCCEEDED" ["u1", "u2"])
            sampleTask).trace = 0
      ∧ (dashscopeImageAsyncJobProcesser sampleConsts (samplePollEnv "SUCCEEDED" ["u1", "u2"])
          sampleTask).out = .ret (some { Status := .Success }, none) :=
  have hconsume : ∃ e ∈ (dashscopeImageAsyncJobProcesser sampleConsts
      (samplePollEnv "SUCCEEDED" ["u1", "u2"]) sampleTask).trace,
      e.call.isQuotaConsume = true ∧ e.result = .ok :=
    ⟨⟨.QuotaConsume 7 100 ⟨"fromston", ["stable-diffusion-xl", "upload"]⟩, .ok⟩,
      by decide, by decide, by decide⟩
  have hwrite : ∀ e ∈ (dashscopeImageAsyncJobProcesser sampleConsts
      (samplePollEnv "SUCCEEDED" ["u1", "u2"]) sampleTask).trace,
      e.call.isQueueWrite .Success = true → e.result = .ok := by decide
  ⟨hconsume, hwrite,
    poll_consumed_not_failed sampleConsts (samplePollEnv "SUCCEEDED" ["u1", "u2"]) sampleTask
      hconsume hwrite⟩

/-! ## C5: vendor success without any image -/

theorem resourcesOf_eq_nil (tasks : ImageTaskResponse)
    (h : ∀ item ∈ tasks.Results, item.URL = "") : resourcesOf tasks = [] := by
  simp only [resourcesOf, List.filter_eq_nil_iff, List.mem_map]
  rintro url ⟨item, hitem, rfl⟩
  simp [h item hitem]

/-- C5.  When the vendor response has a finished status other than Failed and its
result list holds no non-empty URL, the pending-task handler returns the update
Failed together with the error "没有生成任何图片"; it writes the history record and
the `QueueTask` Failed with that text as the only error string, makes no `QueueTask`
Success write and does not invoke `QuotaConsume`. -/
theorem poll_success_without_images (c : Consts) (env : PollEnv) (task : QueueTasksPending)
    (payload : DashscopeImagePendingTaskPayload) (taskRes : ImageTaskResponse)
    (hdec : env.unmarshal task.Payload = .ok payload)
    (hq : env.imageTaskStatus = .ok taskRes)
    (h1 : ¬ (taskRes.TaskStatus = c.TaskStatusPending ∨ taskRes.TaskStatus = c.TaskStatusRunning ∨
      taskRes.TaskStatus = c.TaskStatusUnknown))
    (h2 : taskRes.TaskStatus ≠ c.TaskStatusFailed)
    (hurls : ∀ item ∈ taskRes.Results, item.URL = "") :
    dashscopeImageAsyncJobProcesser c env task =
        ⟨[⟨.ImageTaskStatus payload.DashscopeImageTaskID, .ok⟩,
          ⟨.UpdateRecordByTaskID payload.Payload.UID payload.Payload.ID
            { Answer := "没有生成任何图片", Status := .Failed },
            CallResult.ofError env.updateRecordFailed⟩,
          ⟨.QueueUpdate payload.Payload.ID .Failed (.ErrorResult ["没有生成任何图片"]),
            CallResult.ofError env.queueUpdateFailed⟩],
         .ret (some { Status := .Failed }, some ⟨"没有生成任何图片"⟩)⟩
      ∧ countCalls (Call.isQueueWrite .Failed) (dashscopeImageAsyncJobProcesser c env task).trace = 1
      ∧ countCalls (Call.isQueueWrite .Success) (dashscopeImageAsyncJobProcesser c env task).trace = 0
      ∧ countCalls Call.isQuotaConsume (dashscopeImageAsyncJobProcesser c env task).trace = 0 := by
  have hrun : dashscopeImageAsyncJobProcesser c env task =
        ⟨[⟨.ImageTaskStatus payload.DashscopeImageTaskID, .ok⟩,
          ⟨.UpdateRecordByTaskID payload.Payload.UID payload.Payload.ID
            { Answer := "没有生成任何图片", Status := .Failed },
            CallResult.ofError env.updateRecordFailed⟩,
          ⟨.QueueUpdate payload.Payload.ID .Failed (.ErrorResult ["没有生成任何图片"]),
            CallResult.ofError env.queueUpdateFailed⟩],
         .ret (some { Status := .Failed }, some ⟨"没有生成任何图片"⟩)⟩ := by
    rw [processer_queried c env task payload taskRes hdec hq,
      pollBody_finished c env task payload taskRes h1 h2]
    simp [handleDashscopeImageTask, resourcesOf_eq_nil taskRes hurls, pollDeferred, assertError,
      Run.after]
  rw [hrun]
  simp [Call.isQueueWrite, Call.isQuotaConsume]

/-- Witness for `poll_success_without_images`: status SUCCEEDED, one result with an
empty URL. -/
theorem poll_success_without_images_witness :
    (samplePollEnv "SUCCEEDED" [""]).unmarshal sampleTask.Payload = .ok samplePendingPayload
      ∧ (samplePollEnv "SUCCEEDED" [""]).imageTaskStatus = .ok ⟨"SUCCEEDED", [⟨""⟩]⟩
      ∧ (dashscopeImageAsyncJobProcesser sampleConsts (samplePollEnv "SUCCEEDED" [""]) sampleTask =
          ⟨[⟨.ImageTaskStatus "job-1", .ok⟩,
            ⟨.UpdateRecordByTaskID 7 "t1" { Answer := "没有生成任何图片", Status := .Failed }, .ok⟩,
            ⟨.QueueUpdate "t1" .Failed (.ErrorResult ["没有生成任何图片"]), .ok⟩],
           .ret (some { Status := .Failed }, some ⟨"没有生成任何图片"⟩)⟩) :=
  ⟨rfl, rfl,
    (poll_success_without_images sampleConsts (samplePollEnv "SUCCEEDED" [""]) sampleTask
      samplePendingPayload ⟨"SUCCEEDED", [⟨""⟩]⟩ rfl rfl (by decide) (by decide) (by decide)).1⟩

/-! ## C6: vendor failure -/

/-- C6.  When the vendor reports status Failed, the pending-task handler returns the
update Failed with the error "task failed: <status>"; its only store calls are the
history update to Failed with that text as answer and the `QueueTask` Failed write
whose error list is exactly that text; it writes no Success status. -/
theorem poll_vendor_failed (c : Consts) (env : PollEnv) (task : QueueTasksPending)
    (payload : DashscopeImagePendingTaskPayload) (taskRes : ImageTaskResponse)
    (hdec : env.unmarshal task.Payload = .ok payload)
    (hq : env.imageTaskStatus = .ok taskRes)
    (h1 : ¬ (taskRes.TaskStatus = c.TaskStatusPending ∨ taskRes.TaskStatus = c.TaskStatusRunning ∨
      taskRes.TaskStatus = c.TaskStatusUnknown))
    (h2 : taskRes.TaskStatus = c.TaskStatusFailed) :
    dashscopeImageAsyncJobProcesser c env task =
        ⟨[⟨.ImageTaskStatus payload.DashscopeImageTaskID, .ok⟩,
          ⟨.UpdateRecordByTaskID payload.Payload.UID payload.Payload.ID
            { Answer := "task failed: " ++ c.TaskStatusFailed, Status := .Failed },
            CallResult.ofError env.updateRecordFailed⟩,
          ⟨.QueueUpdate payload.Payload.ID .Failed
            (.ErrorResult ["task failed: " ++ c.TaskStatusFailed]),
            CallResult.ofError env.queueUpdateFailed⟩],
         .ret (some { Status := .Failed }, some ⟨"task failed: " ++ c.TaskStatusFailed⟩)⟩
      ∧ countCalls (Call.isQueueWrite .Success) (dashscopeImageAsyncJobProcesser c env task).trace = 0
      ∧ (∀ e ∈ (dashscopeImageAsyncJobProcesser c env task).trace,
          ∀ uid id req, e.call = .UpdateRecordByTaskID uid id req → req.Status = .Failed) := by
  have hrun : dashscopeImageAsyncJobProcesser c env task =
        ⟨[⟨.ImageTaskStatus payload.DashscopeImageTaskID, .ok⟩,
          ⟨.UpdateRecordByTaskID payload.Payload.UID payload.Payload.ID
            { Answer := "task failed: " ++ c.TaskStatusFailed, Status := .Failed },
            CallResult.ofError env.updateRecordFailed⟩,
          ⟨.QueueUpdate payload.Payload.ID .Failed
            (.ErrorResult ["task failed: " ++ c.TaskStatusFailed]),
            CallResult.ofError env.queueUpdateFailed⟩],
         .ret (some { Status := .Failed }, some ⟨"task failed: " ++ c.TaskStatusFailed⟩)⟩ := by
    rw [processer_queried c env task payload taskRes hdec hq,
      pollBody_failed c env task payload taskRes h1 h2, h2]
    simp [pollDeferred, assertError, Run.after]
  rw [hrun]
  refine ⟨rfl, by simp [Call.isQueueWrite], ?_⟩
  intro e he uid id req hcall
  simp at he
  rcases he with he | he | he <;> subst he <;> simp at hcall
  rcases hcall with ⟨_, _, rfl⟩
  rfl

/-- Witness for `poll_vendor_failed`: the vendor reports FAILED. -/
theorem poll_vendor_failed_witness :
    (samplePollEnv "FAILED" []).unmarshal sampleTask.Payload = .ok samplePendingPayload
      ∧ (samplePollEnv "FAILED" []).imageTaskStatus = .ok ⟨sampleConsts.TaskStatusFailed, []⟩
      ∧ (dashscopeImageAsyncJobProcesser sampleConsts (samplePollEnv "FAILED" []) sampleTask =
          ⟨[⟨.ImageTaskStatus "job-1", .ok⟩,
            ⟨.UpdateRecordByTaskID 7 "t1" { Answer := "task failed: FAILED", Status := .Failed },
              .ok⟩,
            ⟨.QueueUpdate "t1" .Failed (.ErrorResult ["task failed: FAILED"]), .ok⟩],
           .ret (some { Status := .Failed }, some ⟨"task failed: FAILED"⟩)⟩) :=
  ⟨rfl, rfl,
    (poll_vendor_failed sampleConsts (samplePollEnv "FAILED" []) sampleTask samplePendingPayload
      ⟨"FAILED", []⟩ rfl rfl (by decide) rfl).1⟩

/-! ## C7: re-arming -/

/-- C7.  When the vendor status query returns an error, or reports the status
Pending, Running or Unknown, the pending-task handler returns a nil error and the
update with status Processing, `NextExecuteAt = now + 5 s` and
`ExecuteTimes = task.ExecuteTimes + 1`; the status query is the only call of the
run, so there is no `QueueTask` write, no history write and no ledger operation. -/
theorem poll_rearms (c : Consts) (env : PollEnv) (task : QueueTasksPending)
    (payload : DashscopeImagePendingTaskPayload)
    (hdec : env.unmarshal task.Payload = .ok payload)
    (hq : (∃ e, env.imageTaskStatus = .fail e) ∨
      (∃ taskRes, env.imageTaskStatus = .ok taskRes ∧
        (taskRes.TaskStatus = c.TaskStatusPending ∨ taskRes.TaskStatus = c.TaskStatusRunning ∨
          taskRes.TaskStatus = c.TaskStatusUnknown))) :
    (dashscopeImageAsyncJobProcesser c env task).out =
        .ret (some { NextExecuteAt := env.nowRearm + 5 * Second
                     Status := .Processing
                     ExecuteTimes := task.ExecuteTimes + 1 }, none)
      ∧ (dashscopeImageAsyncJobProcesser c env task).trace =
          [⟨.ImageTaskStatus payload.DashscopeImageTaskID,
            CallResult.ofOutcome env.imageTaskStatus⟩]
      ∧ countCalls Call.isTerminalWrite (dashscopeImageAsyncJobProcesser c env task).trace = 0
      ∧ countCalls (Call.isQueueWrite .Running)
          (dashscopeImageAsyncJobProcesser c env task).trace = 0
      ∧ countCalls Call.isHistoryWrite (dashscopeImageAsyncJobProcesser c env task).trace = 0
      ∧ countCalls Call.isQuotaConsume (dashscopeImageAsyncJobProcesser c env task).trace = 0
      ∧ countCalls Call.isUnfreeze (dashscopeImageAsyncJobProcesser c env task).trace = 0 := by
  rcases hq with ⟨e, he⟩ | ⟨taskRes, hres, h1⟩
  · simp [dashscopeImageAsyncJobProcesser, hdec, he, rearm, CallResult.ofOutcome,
      Call.isTerminalWrite, Call.isQueueWrite, Call.isHistoryWrite, Call.isQuotaConsume,
      Call.isUnfreeze]
  · rw [processer_queried c env task payload taskRes hdec hres,
      pollBody_processing c env task payload taskRes h1]
    simp [pollDeferred, rearm, hres, CallResult.ofOutcome, Run.after,
      Call.isTerminalWrite, Call.isQueueWrite, Call.isHistoryWrite, Call.isQuotaConsume,
      Call.isUnfreeze]

/-- Witness for `poll_rearms`: the vendor reports RUNNING on the third poll. -/
theorem poll_rearms_witness :
    (samplePollEnv "RUNNING" []).unmarshal sampleTask.Payload = .ok samplePendingPayload
      ∧ (samplePollEnv "RUNNING" []).imageTaskStatus = .ok ⟨sampleConsts.TaskStatusRunning, []⟩
      ∧ (dashscopeImageAsyncJobProcesser sampleConsts (samplePollEnv "RUNNING" []) sampleTask).out =
          .ret (some { NextExecuteAt := 100 * Minute + 5 * Second
                       Status := .Processing
                       ExecuteTimes := 3 }, none) :=
  ⟨rfl, rfl,
    (poll_rearms sampleConsts (samplePollEnv "RUNNING" []) sampleTask samplePendingPayload rfl
      (Or.inr ⟨⟨"RUNNING", []⟩, rfl, by decide⟩)).1⟩

/-! ## C8: the deadline of a pending task -/

/-- C8 fails as stated.  A pending task in status Processing whose deadline (minute
30) lies before the time of the poll (minute 100) is polled while the vendor reports
success with one image: the handler returns the update Success with a nil error and
writes `QueueTask` Success, not Failed. -/
theorem poll_past_deadline_succeeds :
    sampleTask.Status = .Processing
      ∧ sampleTask.DeadlineAt < (samplePollEnv "SUCCEEDED" ["u1"]).nowRearm
      ∧ dashscopeImageAsyncJobProcesser sampleConsts (samplePollEnv "SUCCEEDED" ["u1"]) sampleTask =
        ⟨[⟨.ImageTaskStatus "job-1", .ok⟩,
          ⟨.UpdateRecordByTaskID 7 "t1"
            { Answer := "[\"u1\"]", QuotaUsed := 40, Status := .Success }, .ok⟩,
          ⟨.QuotaConsume 7 100 ⟨"fromston", ["stable-diffusion-xl", "upload"]⟩, .ok⟩,
          ⟨.Enqueue ⟨"t1", 7, 100 * Minute⟩, .ok⟩,
          ⟨.QueueUpdate "t1" .Success (.CompletionResult "" ["u1"] (100 * Minute + 7 * 24 * Hour)),
            .ok⟩],
         .ret (some { Status := .Success }, none)⟩ := by
  decide

/-- C8, as amended.  The pending-task handler has no deadline check: the run on a
pending task is the same for every value of `DeadlineAt` (and of the stored status
and `NextExecuteAt`), so for a task whose deadline has passed the report of the
vendor decides as for any other task.  When the status query returns an error or the
vendor reports Pending, Running or Unknown, the task is re-armed: the status query is
the only call and the update is Processing with the next poll in 5 seconds.  When
the vendor reports Failed, the poll ends Failed with the error "task failed:
<status>", which is the only error text of its `QueueTask` Failed write.  When the
vendor reports another finished status with at least one non-empty URL and the JSON
encoding, the history update, `QuotaConsume` and the `QueueTask` Success write
succeed, the poll ends Success: it writes `QueueTask` Success once and makes no
Failed write. -/
theorem poll_ignores_deadline (c : Consts) (env : PollEnv) (task : QueueTasksPending)
    (payload : DashscopeImagePendingTaskPayload)
    (hdec : env.unmarshal task.Payload = .ok payload) :
    (∀ (deadlineAt nextExecuteAt : Time) (status : PendingTaskStatus),
        dashscopeImageAsyncJobProcesser c env
            { task with DeadlineAt := deadlineAt, NextExecuteAt := nextExecuteAt,
                        Status := status } =
          dashscopeImageAsyncJobProcesser c env task)
      ∧ (((∃ e, env.imageTaskStatus = .fail e) ∨
            (∃ taskRes, env.imageTaskStatus = .ok taskRes ∧
              (taskRes.TaskStatus = c.TaskStatusPending ∨ taskRes.TaskStatus = c.TaskStatusRunning ∨
                taskRes.TaskStatus = c.TaskStatusUnknown))) →
          dashscopeImageAsyncJobProcesser c env task =
            ⟨[⟨.ImageTaskStatus payload.DashscopeImageTaskID,
                CallResult.ofOutcome env.imageTaskStatus⟩],
              .ret (some { NextExecuteAt := env.nowRearm + 5 * Second
                           Status := .Processing
                           ExecuteTimes := task.ExecuteTimes + 1 }, none)⟩)
      ∧ (∀ taskRes, env.imageTaskStatus = .ok taskRes →
          ¬ (taskRes.TaskStatus = c.TaskStatusPending ∨ taskRes.TaskStatus = c.TaskStatusRunning ∨
            taskRes.TaskStatus = c.TaskStatusUnknown) →
          taskRes.TaskStatus = c.TaskStatusFailed →
          dashscopeImageAsyncJobProcesser c env task =
            ⟨[⟨.ImageTaskStatus payload.DashscopeImageTaskID, .ok⟩,
              ⟨.UpdateRecordByTaskID payload.Payload.UID payload.Payload.ID
                { Answer := "task failed: " ++ c.TaskStatusFailed, Status := .Failed },
                CallResult.ofError env.updateRecordFailed⟩,
              ⟨.QueueUpdate payload.Payload.ID .Failed
                (.ErrorResult ["task failed: " ++ c.TaskStatusFailed]),
                CallResult.ofError env.queueUpdateFailed⟩],
             .ret (some { Status := .Failed }, some ⟨"task failed: " ++ c.TaskStatusFailed⟩)⟩)
      ∧ (∀ taskRes retJson, env.imageTaskStatus = .ok taskRes →
          ¬ (taskRes.TaskStatus = c.TaskStatusPending ∨ taskRes.TaskStatus = c.TaskStatusRunning ∨
            taskRes.TaskStatus = c.TaskStatusUnknown) →
          taskRes.TaskStatus ≠ c.TaskStatusFailed →
          (∃ item ∈ taskRes.Results, item.URL ≠ "") →
          env.jsonMarshal ((taskRes.Results.map fun item => item.URL).filter fun u => u ≠ "") =
            .ok retJson →
          env.updateRecordSuccess = none → env.quotaConsume = none →
          env.queueUpdateSuccess = none →
          (dashscopeImageAsyncJobProcesser c env task).out = .ret (some { Status := .Success }, none)
            ∧ countCalls (Call.isQueueWrite .Success)
                (dashscopeImageAsyncJobProcesser c env task).trace = 1
            ∧ countCalls (Call.isQueueWrite .Failed)
                (dashscopeImageAsyncJobProcesser c env task).trace = 0) := by
  refine ⟨fun _ _ _ => rfl, ?_, ?_, ?_⟩
  · rintro (⟨e, he⟩ | ⟨taskRes, hres, h1⟩)
    · simp [dashscopeImageAsyncJobProcesser, hdec, he, rearm, CallResult.ofOutcome]
    · rw [processer_queried c env task payload taskRes hdec hres,
        pollBody_processing c env task payload taskRes h1]
      simp [pollDeferred, rearm, hres, CallResult.ofOutcome, Run.after]
  · intro taskRes hq h1 h2
    rw [processer_queried c env task payload taskRes hdec hq,
      pollBody_failed c env task payload taskRes h1 h2, h2]
    simp [pollDeferred, assertError, Run.after]
  · intro taskRes retJson hq h1 h2 hres hj hu hc hs
    have hlen : ¬ (resourcesOf taskRes).length = 0 := by
      rcases hres with ⟨item, hitem, hurl⟩
      have hmem : item.URL ∈ resourcesOf taskRes := by
        simp only [resourcesOf, List.mem_filter, List.mem_map]
        exact ⟨⟨item, hitem, rfl⟩, by simpa using hurl⟩
      intro h0
      rw [List.length_eq_zero] at h0
      rw [h0] at hmem
      exact absurd hmem (List.not_mem_nil _)
    have hj2 : env.jsonMarshal (resourcesOf taskRes) = .ok retJson := hj
    have key : dashscopeImageAsyncJobProcesser c env task =
        ⟨[⟨.ImageTaskStatus payload.DashscopeImageTaskID, .ok⟩,
          ⟨.UpdateRecordByTaskID payload.Payload.UID payload.Payload.ID
            { Answer := retJson
              QuotaUsed := env.unifiedImageGenCoins * (resourcesOf taskRes).length
              Status := .Success }, .ok⟩,
          ⟨.QuotaConsume payload.Payload.UID payload.Payload.Quota
            ⟨"fromston", [payload.Payload.Model, "upload"]⟩, .ok⟩,
          ⟨.Enqueue ⟨payload.Payload.ID, payload.Payload.UID, env.nowDownload⟩,
            CallResult.ofError env.enqueue⟩,
          ⟨.QueueUpdate payload.Payload.ID .Success
            (.CompletionResult payload.Payload.Image (resourcesOf taskRes)
              (env.nowValidBefore + 7 * 24 * Hour)), .ok⟩],
         .ret (some { Status := .Success }, none)⟩ := by
      rw [processer_queried c env task payload taskRes hdec hq,
        pollBody_finished c env task payload taskRes h1 h2]
      simp [handleDashscopeImageTask, hlen, hj2, hu, hc, hs, pollDeferred, Run.after,
        CallResult.ofError, DashscopeImagePendingTaskPayload.GetUID,
        DashscopeImagePendingTaskPayload.GetID, DashscopeImagePendingTaskPayload.GetQuota,
        DashscopeImagePendingTaskPayload.GetModel, DashscopeImagePendingTaskPayload.GetImage]
    rw [key]
    simp [Call.isQueueWrite]

/-- Witness of `poll_ignores_deadline`: a task in status Processing whose deadline
(minute 30) lies before the time of the poll (minute 100), polled while the vendor
reports success with two images. -/
theorem poll_ignores_deadline_witness :
    sampleTask.Status = .Processing
      ∧ sampleTask.DeadlineAt < (samplePollEnv "SUCCEEDED" ["u1", "u2"]).nowRearm
      ∧ (samplePollEnv "SUCCEEDED" ["u1", "u2"]).unmarshal sampleTask.Payload
          = .ok samplePendingPayload
      ∧ (dashscopeImageAsyncJobProcesser sampleConsts (samplePollEnv "SUCCEEDED" ["u1", "u2"])
          sampleTask).out = .ret (some { Status := .Success }, none)
      ∧ countCalls (Call.isQueueWrite .Failed)
          (dashscopeImageAsyncJobProcesser sampleConsts (samplePollEnv "SUCCEEDED" ["u1", "u2"])
            sampleTask).trace = 0 :=
  have h := (poll_ignores_deadline sampleConsts (samplePollEnv "SUCCEEDED" ["u1", "u2"]) sampleTask
    samplePendingPayload rfl).2.2.2 ⟨"SUCCEEDED", [⟨"u1"⟩, ⟨"u2"⟩]⟩ "[\"u1\",\"u2\"]" rfl
      (by decide) (by decide) ⟨⟨"u1"⟩, by decide, by decide⟩ rfl rfl rfl rfl
  ⟨rfl, by decide, rfl, h.1, h.2.2⟩

/-! ## C9: submission expiry in the image dispatchers -/

theorem expired_iff (createdAt : Time) (d : Int) (now : Time) :
    expired createdAt d now = true ↔ createdAt + d < now := by
  simp [expired]

/-- C9.  For a payload with `CreatedAt + 5 min` strictly before the time of the
expiry check, each of the two image dispatchers makes exactly one call, the
`QueueTask` Failed write with "任务处理超时" as the only error string, and returns nil:
no vendor call is made and no pending task is created.  For a payload with
`now <= CreatedAt + 5 min` the expiry branch is not taken: the run is the run of the
rest of the handler. -/
theorem dispatch_expiry (c : Consts) (env : DispatchEnv) (ienv : ImageEnv) (raw iraw : String)
    (p : DashscopeImageCompletionPayload) (q : ImageCompletionPayload)
    (hp : env.unmarshal raw = .ok p) (hq : ienv.unmarshal iraw = .ok q) :
    (p.CreatedAt + 5 * Minute < env.nowExpiry →
        BuildDashscopeImageCompletionHandler c env raw =
          ⟨[⟨.QueueUpdate p.ID .Failed (.ErrorResult ["任务处理超时"]),
              CallResult.ofError env.queueUpdateExpired⟩], .ret none⟩)
      ∧ (env.nowExpiry ≤ p.CreatedAt + 5 * Minute →
        BuildDashscopeImageCompletionHandler c env raw =
          Run.after (dispatchBody c env p).trace (dispatchDeferred env p (dispatchBody c env p).out))
      ∧ (q.CreatedAt + 5 * Minute < ienv.nowExpiry →
        BuildImageCompletionHandler c ienv iraw =
          ⟨[⟨.QueueUpdate q.ID .Failed (.ErrorResult ["任务处理超时"]),
              CallResult.ofError ienv.queueUpdateExpired⟩], .ret none⟩)
      ∧ (ienv.nowExpiry ≤ q.CreatedAt + 5 * Minute →
        BuildImageCompletionHandler c ienv iraw = imageDispatch c ienv q iraw) := by
  refine ⟨fun h => ?_, fun h => ?_, fun h => ?_, fun h => ?_⟩
  · have hx : expired p.CreatedAt (5 * Minute) env.nowExpiry = true := (expired_iff _ _ _).2 h
    simp [BuildDashscopeImageCompletionHandler, hp, hx, expiredWrite]
  · have hx : ¬ expired p.CreatedAt (5 * Minute) env.nowExpiry = true :=
      fun hx => absurd ((expired_iff _ _ _).1 hx) (not_lt.2 h)
    simp [BuildDashscopeImageCompletionHandler, hp, hx]
  · have hx : expired q.CreatedAt (5 * Minute) ienv.nowExpiry = true := (expired_iff _ _ _).2 h
    simp [BuildImageCompletionHandler, hq, hx, expiredWrite]
  · have hx : ¬ expired q.CreatedAt (5 * Minute) ienv.nowExpiry = true :=
      fun hx => absurd ((expired_iff _ _ _).1 hx) (not_lt.2 h)
    simp [BuildImageCompletionHandler, hq, hx]

/-- Witness for `dispatch_expiry`: payloads created at time 0, dispatched at minute 1. -/
theorem dispatch_expiry_witness :
    (sampleDispatchEnv samplePayload).unmarshal "raw" = .ok samplePayload
      ∧ (sampleImageEnv sampleImagePayload).unmarshal "raw" = .ok sampleImagePayload
      ∧ ((sampleDispatchEnv samplePayload).nowExpiry ≤ samplePayload.CreatedAt + 5 * Minute →
        BuildDashscopeImageCompletionHandler sampleConsts (sampleDispatchEnv samplePayload) "raw" =
          Run.after (dispatchBody sampleConsts (sampleDispatchEnv samplePayload) samplePayload).trace
            (dispatchDeferred (sampleDispatchEnv samplePayload) samplePayload
              (dispatchBody sampleConsts (sampleDispatchEnv samplePayload) samplePayload).out)) :=
  ⟨rfl, rfl,
    (dispatch_expiry sampleConsts (sampleDispatchEnv samplePayload)
      (sampleImageEnv sampleImagePayload) "raw" "raw" samplePayload sampleImagePayload rfl rfl).2.1⟩

/-! ## C10: a panic with an error value in the dashscope dispatcher -/

theorem no_failed_write_of_no_settlement (t : List Effect)
    (h : countCalls Call.isSettlement t = 0) :
    t.filter (fun x => x.call.isQueueWrite .Failed) = [] := by
  simp only [countCalls, List.length_eq_zero, List.filter_eq_nil_iff] at h
  simp only [List.filter_eq_nil_iff]
  intro x hx hw
  apply h x hx
  simp [Call.isSettlement, Call.isTerminalWrite, hw]

/-- C10.  When the body of the dashscope dispatcher, entered after the expiry check,
panics with an error value `e`, the handler returns `e` as its error; after the
calls of the body it updates the history record to Failed with `e`'s message and
writes `QueueTask` Failed, and that is the only `QueueTask` Failed write of the run,
with `e`'s message as the only element of its error list. -/
theorem dispatch_panic_with_error (c : Consts) (env : DispatchEnv) (raw : String)
    (p : DashscopeImageCompletionPayload) (e : GoError)
    (hp : env.unmarshal raw = .ok p)
    (hlive : ¬ (p.CreatedAt + 5 * Minute < env.nowExpiry))
    (hpanic : (dispatchBody c env p).out = .panic (.error e)) :
    (BuildDashscopeImageCompletionHandler c env raw).out = .ret (some e)
      ∧ (BuildDashscopeImageCompletionHandler c env raw).trace =
          (dispatchBody c env p).trace ++
            [⟨.UpdateRecordByTaskID p.UID p.ID { Answer := e.msg, Status := .Failed },
                CallResult.ofError env.updateRecordFailed⟩,
              ⟨.QueueUpdate p.ID .Failed (.ErrorResult [e.msg]),
                CallResult.ofError env.queueUpdateFailed⟩]
      ∧ (BuildDashscopeImageCompletionHandler c env raw).trace.filter
            (fun x => x.call.isQueueWrite .Failed) =
          [⟨.QueueUpdate p.ID .Failed (.ErrorResult [e.msg]),
            CallResult.ofError env.queueUpdateFailed⟩] := by
  have hx : ¬ expired p.CreatedAt (5 * Minute) env.nowExpiry = true :=
    fun hx => hlive ((expired_iff _ _ _).1 hx)
  have hbody := no_failed_write_of_no_settlement _ (dispatchBody_no_settlement c env p)
  have hrun : BuildDashscopeImageCompletionHandler c env raw =
      ⟨(dispatchBody c env p).trace ++
          [⟨.UpdateRecordByTaskID p.UID p.ID { Answer := e.msg, Status := .Failed },
              CallResult.ofError env.updateRecordFailed⟩,
            ⟨.QueueUpdate p.ID .Failed (.ErrorResult [e.msg]),
              CallResult.ofError env.queueUpdateFailed⟩], .ret (some e)⟩ := by
    simp [BuildDashscopeImageCompletionHandler, hp, hx, hpanic, dispatchDeferred, assertError,
      Run.after]
  rw [hrun]
  refine ⟨rfl, rfl, ?_⟩
  rw [List.filter_append, hbody]
  simp [Call.isQueueWrite]

/-- Witness for `dispatch_panic_with_error`: one minute after creation the vendor
rejects the submission with the error "quota exceeded", which the handler raises as
a panic. -/
theorem dispatch_panic_with_error_witness :
    sampleDispatchEnvVendorFails.unmarshal "raw" = .ok samplePayload
      ∧ ¬ (samplePayload.CreatedAt + 5 * Minute < sampleDispatchEnvVendorFails.nowExpiry)
      ∧ (dispatchBody sampleConsts sampleDispatchEnvVendorFails samplePayload).out =
        .panic (.error ⟨"quota exceeded"⟩)
      ∧ (BuildDashscopeImageCompletionHandler sampleConsts sampleDispatchEnvVendorFails "raw").out =
          .ret (some ⟨"quota exceeded"⟩)
      ∧ (BuildDashscopeImageCompletionHandler sampleConsts sampleDispatchEnvVendorFails
            "raw").trace.filter (fun x => x.call.isQueueWrite .Failed) =
          [⟨.QueueUpdate "t1" .Failed (.ErrorResult ["quota exceeded"]), .ok⟩] :=
  have h := dispatch_panic_with_error sampleConsts sampleDispatchEnvVendorFails "raw" samplePayload
    ⟨"quota exceeded"⟩ rfl (by decide) (by decide)
  ⟨rfl, by decide, by decide, h.1, h.2.2⟩

/-! ## C11: panics that are not caught -/

/-- C11 at three panics.  In the dashscope dispatcher and in the group-chat handler
the vendor client panics with the string "boom": the type assertion of the deferred
function panics in turn, no Failed write is made and the panic escapes the handler.
In the pending-task handler the status query, which precedes the `defer` statement,
panics with an error value: the panic escapes as it is. -/
theorem panic_escapes_handlers :
    BuildDashscopeImageCompletionHandler sampleConsts sampleDispatchEnvVendorPanics "raw" =
        ⟨[⟨.ResolvePrompts "stable-diffusion-xl", .ok⟩,
          ⟨.VendorSubmit (.StableDiffusion "stable-diffusion-xl" "a cat" "" "1024*1024" 2 0 0),
            .panicked (.str "boom")⟩],
         .panic (.error ⟨"interface conversion: string is not error: missing method Error"⟩)⟩
    ∧ BuildGroupChatHandler (sampleGroupChatEnvChatPanics sampleGroupChatPayload) "raw" =
        ⟨[⟨.Chat "gpt-4" [], .panicked (.str "boom")⟩],
         .panic (.error ⟨"interface conversion: string is not error: missing method Error"⟩)⟩
    ∧ dashscopeImageAsyncJobProcesser sampleConsts samplePollEnvQueryPanics sampleTask =
        ⟨[⟨.ImageTaskStatus "job-1", .panicked (.error ⟨"nil pointer"⟩)⟩],
         .panic (.error ⟨"nil pointer"⟩)⟩ := by
  decide

/-- What the three deferred functions make of a panic in flight: an error value is
returned as the handler's error, a string makes the type assertion panic. -/
theorem deferred_on_panic (denv : DispatchEnv) (p : DashscopeImageCompletionPayload)
    (penv : PollEnv) (pp : DashscopeImagePendingTaskPayload)
    (genv : GroupChatEnv) (gp : GroupChatPayload) (e : GoError) (s : String) :
    (dispatchDeferred denv p (.panic (.error e))).out = .ret (some e)
      ∧ (pollDeferred penv pp (.panic (.error e))).out = .ret (some { Status := .Failed }, some e)
      ∧ (groupChatDeferred genv gp (.panic (.error e))).out = .ret (some e)
      ∧ (dispatchDeferred denv p (.panic (.str s))) = ⟨[], .panic (.error
          ⟨"interface conversion: string is not error: missing method Error"⟩)⟩
      ∧ (pollDeferred penv pp (.panic (.str s))) = ⟨[], .panic (.error
          ⟨"interface conversion: string is not error: missing method Error"⟩)⟩
      ∧ (groupChatDeferred genv gp (.panic (.str s))) = ⟨[], .panic (.error
          ⟨"interface conversion: string is not error: missing method Error"⟩)⟩ :=
  ⟨rfl, rfl, rfl, rfl, rfl, rfl⟩

/-! ## C12: the history record on a handler error of the dashscope dispatcher -/

/-- The body of the dashscope dispatcher makes no `UpdateRecordByTaskID` call. -/
theorem dispatchBody_no_record_update (c : Consts) (env : DispatchEnv)
    (payload : DashscopeImageCompletionPayload) :
    countCalls Call.isRecordUpdate (dispatchBody c env payload).trace = 0 := by
  have hreg : ∀ (q : DashscopeImageCompletionPayload) (a b t : String),
      countCalls Call.isRecordUpdate (dispatchRegister c env q a b t).trace = 0 := by
    intro q a b t
    unfold dispatchRegister
    by_cases h : a ≠ q.Prompt ∨ b ≠ q.NegativePrompt <;>
      rcases hc : env.createPendingTask with _ | e <;>
      simp [h, Call.isRecordUpdate]
  have hsub : ∀ (req : VendorRequest) (o : CallOutcome String) (k : String → Run (Option GoError)),
      (∀ t, countCalls Call.isRecordUpdate (k t).trace = 0) →
      countCalls Call.isRecordUpdate (submit req o k).trace = 0 := by
    intro req o k hk
    rcases o with t | e | v <;> simp [submit, hk, Call.isRecordUpdate]
  unfold dispatchBody
  by_cases hm : payload.Model = c.WordArtTextureModel
  · simp only [hm, if_true]
    exact hsub _ _ _ (fun _ => hreg _ _ _ _)
  · simp only [hm, if_false]
    rcases hr : env.resolvePrompts with ⟨prompt, negativePrompt, aiRewrite⟩ | v
    · by_cases hi : payload.Image = ""
      · simp [hi, Call.isRecordUpdate]
        exact hsub _ _ _ (fun _ => hreg _ _ _ _)
      · simp [hi, Call.isRecordUpdate]
        exact hsub _ _ _ (fun _ => hreg _ _ _ _)
    · simp [Call.isRecordUpdate]

/-- C12 fails as stated.  The vendor accepts the job, the pending task is created
and the final `QueueTask` Running write returns the error "db down": the handler
returns that error and writes `QueueTask` Failed, but makes no update of the history
record. -/
theorem dispatch_returned_error_no_history :
    BuildDashscopeImageCompletionHandler sampleConsts sampleDispatchEnvRunningWriteFails "raw" =
        ⟨[⟨.ResolvePrompts "stable-diffusion-xl", .ok⟩,
          ⟨.VendorSubmit (.StableDiffusion "stable-diffusion-xl" "a cat" "" "1024*1024" 2 0 0),
            .ok⟩,
          ⟨.CreatePendingTask
            { TaskID := "t1", TaskType := "dashscope_image:completion",
              NextExecuteAt := 1 * Minute + 5 * Second, DeadlineAt := 31 * Minute,
              Status := .Processing, Payload := samplePendingPayload }, .ok⟩,
          ⟨.QueueUpdate "t1" .Running .Nil, .failed ⟨"db down"⟩⟩,
          ⟨.QueueUpdate "t1" .Failed (.ErrorResult ["db down"]), .ok⟩],
         .ret (some ⟨"db down"⟩)⟩
      ∧ countCalls Call.isRecordUpdate
          (BuildDashscopeImageCompletionHandler sampleConsts sampleDispatchEnvRunningWriteFails
            "raw").trace = 0 := by
  decide

/-- C12, as amended.  In the dashscope dispatcher, entered after the expiry check:
when the body panics with an error value `e`, the history record is updated exactly
once, to Failed with `e`'s message as answer; when the body returns an error `e`
normally, the handler returns `e` and writes `QueueTask` Failed with `e`'s message,
and the history record is not updated. -/
theorem dispatch_history_on_error (c : Consts) (env : DispatchEnv) (raw : String)
    (p : DashscopeImageCompletionPayload) (e : GoError)
    (hp : env.unmarshal raw = .ok p)
    (hlive : ¬ (p.CreatedAt + 5 * Minute < env.nowExpiry)) :
    ((dispatchBody c env p).out = .panic (.error e) →
        (BuildDashscopeImageCompletionHandler c env raw).trace.filter
            (fun x => x.call.isRecordUpdate) =
          [⟨.UpdateRecordByTaskID p.UID p.ID { Answer := e.msg, Status := .Failed },
            CallResult.ofError env.updateRecordFailed⟩])
      ∧ ((dispatchBody c env p).out = .ret (some e) →
        (BuildDashscopeImageCompletionHandler c env raw).out = .ret (some e)
          ∧ (BuildDashscopeImageCompletionHandler c env raw).trace =
              (dispatchBody c env p).trace ++
                [⟨.QueueUpdate p.ID .Failed (.ErrorResult [e.msg]),
                  CallResult.ofError env.queueUpdateFailed⟩]
          ∧ countCalls Call.isRecordUpdate
              (BuildDashscopeImageCompletionHandler c env raw).trace = 0) := by
  have hx : ¬ expired p.CreatedAt (5 * Minute) env.nowExpiry = true :=
    fun hx => hlive ((expired_iff _ _ _).1 hx)
  have hbody := dispatchBody_no_record_update c env p
  have hnil : (dispatchBody c env p).trace.filter (fun x => x.call.isRecordUpdate) = [] := by
    simpa [countCalls] using hbody
  refine ⟨fun hpanic => ?_, fun hret => ?_⟩
  · have hrun : BuildDashscopeImageCompletionHandler c env raw =
        ⟨(dispatchBody c env p).trace ++
            [⟨.UpdateRecordByTaskID p.UID p.ID { Answer := e.msg, Status := .Failed },
                CallResult.ofError env.updateRecordFailed⟩,
              ⟨.QueueUpdate p.ID .Failed (.ErrorResult [e.msg]),
                CallResult.ofError env.queueUpdateFailed⟩], .ret (some e)⟩ := by
      simp [BuildDashscopeImageCompletionHandler, hp, hx, hpanic, dispatchDeferred, assertError,
        Run.after]
    rw [hrun]
    show List.filter _ (_ ++ _) = _
    rw [List.filter_append, hnil]
    simp [Call.isRecordUpdate]
  · have hrun : BuildDashscopeImageCompletionHandler c env raw =
        ⟨(dispatchBody c env p).trace ++
            [⟨.QueueUpdate p.ID .Failed (.ErrorResult [e.msg]),
                CallResult.ofError env.queueUpdateFailed⟩], .ret (some e)⟩ := by
      simp [BuildDashscopeImageCompletionHandler, hp, hx, hret, dispatchDeferred, Run.after]
    rw [hrun]
    refine ⟨rfl, rfl, ?_⟩
    simp [hbody, Call.isRecordUpdate]

/-- Witness for `dispatch_history_on_error`: the vendor rejects the submission, the
handler panics with that error and updates the history record to Failed. -/
theorem dispatch_history_on_error_witness :
    sampleDispatchEnvVendorFails.unmarshal "raw" = .ok samplePayload
      ∧ ¬ (samplePayload.CreatedAt + 5 * Minute < sampleDispatchEnvVendorFails.nowExpiry)
      ∧ (BuildDashscopeImageCompletionHandler sampleConsts sampleDispatchEnvVendorFails
            "raw").trace.filter (fun x => x.call.isRecordUpdate) =
          [⟨.UpdateRecordByTaskID 7 "t1" { Answer := "quota exceeded", Status := .Failed }, .ok⟩] :=
  ⟨rfl, by decide,
    (dispatch_history_on_error sampleConsts sampleDispatchEnvVendorFails "raw" samplePayload
      ⟨"quota exceeded"⟩ rfl (by decide)).1 (by decide)⟩

/-! ## C13: a repeated poll -/

/-- C13 fails as stated.  The pending task is polled while the vendor reports
success with one image, and polled again, with the stored status now Success, on the
same vendor response: each of the two runs invokes `QuotaConsume` for the 100 units. -/
theorem poll_twice_consumes_twice :
    ((dashscopeImageAsyncJobProcesser sampleConsts (samplePollEnv "SUCCEEDED" ["u1"])
          sampleTask).trace.filter (fun x => x.call.isQuotaConsume) =
        [⟨.QuotaConsume 7 100 ⟨"fromston", ["stable-diffusion-xl", "upload"]⟩, .ok⟩]
      ∧ (dashscopeImageAsyncJobProcesser sampleConsts (samplePollEnv "SUCCEEDED" ["u1"])
          sampleTask).out = .ret (some { Status := .Success }, none))
    ∧ (dashscopeImageAsyncJobProcesser sampleConsts (samplePollEnv "SUCCEEDED" ["u1"])
          { sampleTask with Status := .Success }).trace.filter (fun x => x.call.isQuotaConsume) =
        [⟨.QuotaConsume 7 100 ⟨"fromston", ["stable-diffusion-xl", "upload"]⟩, .ok⟩] := by
  decide

/-- C13, as amended.  The pending-task handler settles in every run: whatever the
stored status of the pending task, a run that observes a finished vendor status
other than Failed with at least one non-empty URL, and in which the JSON encoding
and the history update succeed, invokes `QuotaConsume` exactly once. -/
theorem poll_success_consumes_every_run (c : Consts) (env : PollEnv) (task : QueueTasksPending)
    (payload : DashscopeImagePendingTaskPayload) (taskRes : ImageTaskResponse)
    (retJson : String) (status : PendingTaskStatus)
    (hdec : env.unmarshal task.Payload = .ok payload)
    (hq : env.imageTaskStatus = .ok taskRes)
    (h1 : ¬ (taskRes.TaskStatus = c.TaskStatusPending ∨ taskRes.TaskStatus = c.TaskStatusRunning ∨
      taskRes.TaskStatus = c.TaskStatusUnknown))
    (h2 : taskRes.TaskStatus ≠ c.TaskStatusFailed)
    (hres : resourcesOf taskRes ≠ [])
    (hj : env.jsonMarshal (resourcesOf taskRes) = .ok retJson)
    (hu : env.updateRecordSuccess = none) :
    countCalls Call.isQuotaConsume
      (dashscopeImageAsyncJobProcesser c env { task with Status := status }).trace = 1 := by
  have hdec2 : env.unmarshal ({ task with Status := status } : QueueTasksPending).Payload =
      .ok payload := hdec
  rw [processer_queried c env _ payload taskRes hdec2 hq,
    pollBody_finished c env _ payload taskRes h1 h2]
  have hlen : ¬ (resourcesOf taskRes).length = 0 := by
    simpa [List.length_eq_zero] using hres
  rcases hc : env.quotaConsume with _ | e3
  · rcases hs : env.queueUpdateSuccess with _ | e4 <;>
      simp [handleDashscopeImageTask, hlen, hj, hu, hc, hs, pollDeferred, Call.isQuotaConsume]
  · simp [handleDashscopeImageTask, hlen, hj, hu, hc, pollDeferred, Call.isQuotaConsume]

/-- Witness for `poll_success_consumes_every_run`: the second poll of the sample
task, stored status Success, vendor success with one image. -/
theorem poll_success_consumes_every_run_witness :
    (samplePollEnv "SUCCEEDED" ["u1"]).unmarshal sampleTask.Payload = .ok samplePendingPayload
      ∧ (samplePollEnv "SUCCEEDED" ["u1"]).imageTaskStatus = .ok ⟨"SUCCEEDED", [⟨"u1"⟩]⟩
      ∧ resourcesOf ⟨"SUCCEEDED", [⟨"u1"⟩]⟩ ≠ []
      ∧ countCalls Call.isQuotaConsume
          (dashscopeImageAsyncJobProcesser sampleConsts (samplePollEnv "SUCCEEDED" ["u1"])
            { sampleTask with Status := .Success }).trace = 1 :=
  ⟨rfl, rfl, by decide,
    poll_success_consumes_every_run sampleConsts (samplePollEnv "SUCCEEDED" ["u1"]) sampleTask
      samplePendingPayload ⟨"SUCCEEDED", [⟨"u1"⟩]⟩ "[\"u1\"]" .Success rfl rfl (by decide)
      (by decide) (by decide) rfl rfl⟩

/-! ## C14: an accepted job in the dashscope dispatcher -/

/-- C14 fails as stated.  The vendor accepts the job "job-1" and the creation of the
pending task returns the error "db down": the handler panics with that error, which
the deferred function turns into the history update to Failed and the `QueueTask`
Failed write; there is no `QueueTask` Running write. -/
theorem dispatch_pending_task_fails_no_running :
    submissionOutcome sampleConsts sampleDispatchEnvPendingTaskFails samplePayload = .ok "job-1"
      ∧ BuildDashscopeImageCompletionHandler sampleConsts sampleDispatchEnvPendingTaskFails "raw" =
        ⟨[⟨.ResolvePrompts "stable-diffusion-xl", .ok⟩,
          ⟨.VendorSubmit (.StableDiffusion "stable-diffusion-xl" "a cat" "" "1024*1024" 2 0 0),
            .ok⟩,
          ⟨.CreatePendingTask
            { TaskID := "t1", TaskType := "dashscope_image:completion",
              NextExecuteAt := 1 * Minute + 5 * Second, DeadlineAt := 31 * Minute,
              Status := .Processing, Payload := samplePendingPayload }, .failed ⟨"db down"⟩⟩,
          ⟨.UpdateRecordByTaskID 7 "t1" { Answer := "db down", Status := .Failed }, .ok⟩,
          ⟨.QueueUpdate "t1" .Failed (.ErrorResult ["db down"]), .ok⟩],
         .ret (some ⟨"db down"⟩)⟩
      ∧ countCalls (Call.isQueueWrite .Running)
          (BuildDashscopeImageCompletionHandler sampleConsts sampleDispatchEnvPendingTaskFails
            "raw").trace = 0 :=
  ⟨rfl, by decide, by decide⟩

/-- C14, as amended.  When prompt resolution returns and the vendor accepts the job
with id `taskID`, the dashscope dispatcher makes exactly one `CreatePendingTask`
call, for the task id of the payload, status Processing, `NextExecuteAt = now + 5 s`,
`DeadlineAt = now + 30 min` and the vendor job id stored together with the payload.
When the pending task is created, the next store write is `QueueTask` Running, whose
result the handler returns (a Failed write follows only when the Running write
returns an error).  When the creation returns an error `e`, no Running write is
made: the only `QueueTask` write is Failed with `e`'s message, and the handler
returns `e`.  No run invokes `QuotaConsume` or `UnfreezeUserQuota`. -/
theorem dispatch_accepted_job (c : Consts) (env : DispatchEnv) (raw : String)
    (p : DashscopeImageCompletionPayload) (taskID : String)
    (hp : env.unmarshal raw = .ok p)
    (hlive : ¬ (p.CreatedAt + 5 * Minute < env.nowExpiry))
    (hprompt : p.Model = c.WordArtTextureModel ∨ ∃ r, env.resolvePrompts = .ret r)
    (hacc : submissionOutcome c env p = .ok taskID) :
    (BuildDashscopeImageCompletionHandler c env raw).trace.filter
          (fun x => x.call.isCreatePendingTask) =
        [⟨.CreatePendingTask
            { TaskID := p.ID
              TaskType := c.TypeDashscopeImageCompletion
              NextExecuteAt := env.nowNextExecute + 5 * Second
              DeadlineAt := env.nowDeadline + 30 * Minute
              Status := .Processing
              Payload := ⟨taskID, resolvedPayload c env p⟩ },
          CallResult.ofError env.createPendingTask⟩]
      ∧ (env.createPendingTask = none →
          (BuildDashscopeImageCompletionHandler c env raw).trace.filter
              (fun x => x.call.isCreatePendingTask || x.call.isQueueUpdate) =
            [⟨.CreatePendingTask
                { TaskID := p.ID
                  TaskType := c.TypeDashscopeImageCompletion
                  NextExecuteAt := env.nowNextExecute + 5 * Second
                  DeadlineAt := env.nowDeadline + 30 * Minute
                  Status := .Processing
                  Payload := ⟨taskID, resolvedPayload c env p⟩ }, .ok⟩,
              ⟨.QueueUpdate p.ID .Running .Nil, CallResult.ofError env.queueUpdateRunning⟩] ++
              (match env.queueUpdateRunning with
                | none => []
                | some e => [⟨.QueueUpdate p.ID .Failed (.ErrorResult [e.msg]),
                    CallResult.ofError env.queueUpdateFailed⟩])
          ∧ (BuildDashscopeImageCompletionHandler c env raw).out = .ret env.queueUpdateRunning)
      ∧ countCalls Call.isQuotaConsume (BuildDashscopeImageCompletionHandler c env raw).trace = 0
      ∧ countCalls Call.isUnfreeze (BuildDashscopeImageCompletionHandler c env raw).trace = 0
      ∧ (∀ e, env.createPendingTask = some e →
          (BuildDashscopeImageCompletionHandler c env raw).trace.filter
              (fun x => x.call.isCreatePendingTask || x.call.isQueueUpdate) =
            [⟨.CreatePendingTask
                { TaskID := p.ID
                  TaskType := c.TypeDashscopeImageCompletion
                  NextExecuteAt := env.nowNextExecute + 5 * Second
                  DeadlineAt := env.nowDeadline + 30 * Minute
                  Status := .Processing
                  Payload := ⟨taskID, resolvedPayload c env p⟩ }, .failed e⟩,
              ⟨.QueueUpdate p.ID .Failed (.ErrorResult [e.msg]),
                CallResult.ofError env.queueUpdateFailed⟩]
          ∧ (BuildDashscopeImageCompletionHandler c env raw).out = .ret (some e)) := by
  have hx : ¬ expired p.CreatedAt (5 * Minute) env.nowExpiry = true :=
    fun hx => hlive ((expired_iff _ _ _).1 hx)
  refine ⟨?_, ?_, (dispatch_no_ledger_call c env raw).2, (dispatch_no_ledger_call c env raw).1,
    ?_⟩
  rotate_left 2
  · intro e hc
    by_cases hm : p.Model = c.WordArtTextureModel
    · have hw : env.wordArtTexture = .ok taskID := by simpa [submissionOutcome, hm] using hacc
      by_cases hargs : env.subStringRaw p.Prompt 200 ≠ p.Prompt ∨ "" ≠ p.NegativePrompt <;>
        simp [BuildDashscopeImageCompletionHandler, hp, hx, dispatchBody, hm, hw, submit,
          dispatchRegister, hargs, hc, dispatchDeferred, assertError, resolvedPayload,
          Call.isCreatePendingTask, Call.isQueueUpdate, CallResult.ofError, Run.after,
          List.filter_cons]
    · rcases hprompt with hprompt | ⟨⟨prompt, negativePrompt, aiRewrite⟩, hres⟩
      · exact absurd hprompt hm
      · by_cases hi : p.Image = ""
        · have hw : env.stableDiffusion = .ok taskID := by
            simpa [submissionOutcome, hm, hi] using hacc
          by_cases hargs : prompt ≠ p.Prompt ∨ negativePrompt ≠ p.NegativePrompt <;>
            simp [BuildDashscopeImageCompletionHandler, hp, hx, dispatchBody, hm, hw, hi, hres,
              submit, dispatchRegister, hargs, hc, dispatchDeferred, assertError,
              resolvedPayload, Call.isCreatePendingTask, Call.isQueueUpdate, CallResult.ofError,
              Run.after, List.filter_cons]
        · have hw : env.imageGeneration = .ok taskID := by
            simpa [submissionOutcome, hm, hi] using hacc
          by_cases hargs : prompt ≠ p.Prompt ∨ negativePrompt ≠ p.NegativePrompt <;>
            simp [BuildDashscopeImageCompletionHandler, hp, hx, dispatchBody, hm, hw, hi, hres,
              submit, dispatchRegister, hargs, hc, dispatchDeferred, assertError,
              resolvedPayload, Call.isCreatePendingTask, Call.isQueueUpdate, CallResult.ofError,
              Run.after, List.filter_cons]
  · by_cases hm : p.Model = c.WordArtTextureModel
    · have hw : env.wordArtTexture = .ok taskID := by simpa [submissionOutcome, hm] using hacc
      by_cases hargs : env.subStringRaw p.Prompt 200 ≠ p.Prompt ∨ "" ≠ p.NegativePrompt <;>
        rcases hc : env.createPendingTask with _ | e1 <;>
        rcases hr : env.queueUpdateRunning with _ | e2 <;>
        simp [BuildDashscopeImageCompletionHandler, hp, hx, dispatchBody, hm, hw, submit,
          dispatchRegister, hargs, hc, hr, dispatchDeferred, assertError, resolvedPayload,
          Call.isCreatePendingTask, CallResult.ofError, Run.after, List.filter_cons]
    · rcases hprompt with hprompt | ⟨⟨prompt, negativePrompt, aiRewrite⟩, hres⟩
      · exact absurd hprompt hm
      · by_cases hi : p.Image = ""
        · have hw : env.stableDiffusion = .ok taskID := by
            simpa [submissionOutcome, hm, hi] using hacc
          by_cases hargs : prompt ≠ p.Prompt ∨ negativePrompt ≠ p.NegativePrompt <;>
            rcases hc : env.createPendingTask with _ | e1 <;>
            rcases hr : env.queueUpdateRunning with _ | e2 <;>
            simp [BuildDashscopeImageCompletionHandler, hp, hx, dispatchBody, hm, hw, hi, hres,
              submit, dispatchRegister, hargs, hc, hr, dispatchDeferred, assertError,
              resolvedPayload, Call.isCreatePendingTask, CallResult.ofError, Run.after,
              List.filter_cons]
        · have hw : env.imageGeneration = .ok taskID := by
            simpa [submissionOutcome, hm, hi] using hacc
          by_cases hargs : prompt ≠ p.Prompt ∨ negativePrompt ≠ p.NegativePrompt <;>
            rcases hc : env.createPendingTask with _ | e1 <;>
            rcases hr : env.queueUpdateRunning with _ | e2 <;>
            simp [BuildDashscopeImageCompletionHandler, hp, hx, dispatchBody, hm, hw, hi, hres,
              submit, dispatchRegister, hargs, hc, hr, dispatchDeferred, assertError,
              resolvedPayload, Call.isCreatePendingTask, CallResult.ofError, Run.after,
              List.filter_cons]
  · intro hc
    by_cases hm : p.Model = c.WordArtTextureModel
    · have hw : env.wordArtTexture = .ok taskID := by simpa [submissionOutcome, hm] using hacc
      by_cases hargs : env.subStringRaw p.Prompt 200 ≠ p.Prompt ∨ "" ≠ p.NegativePrompt <;>
        rcases hr : env.queueUpdateRunning with _ | e2 <;>
        simp [BuildDashscopeImageCompletionHandler, hp, hx, dispatchBody, hm, hw, submit,
          dispatchRegister, hargs, hc, hr, dispatchDeferred, assertError, resolvedPayload,
          Call.isCreatePendingTask, Call.isQueueUpdate, CallResult.ofError, Run.after,
          List.filter_cons]
    · rcases hprompt with hprompt | ⟨⟨prompt, negativePrompt, aiRewrite⟩, hres⟩
      · exact absurd hprompt hm
      · by_cases hi : p.Image = ""
        · have hw : env.stableDiffusion = .ok taskID := by
            simpa [submissionOutcome, hm, hi] using hacc
          by_cases hargs : prompt ≠ p.Prompt ∨ negativePrompt ≠ p.NegativePrompt <;>
            rcases hr : env.queueUpdateRunning with _ | e2 <;>
            simp [BuildDashscopeImageCompletionHandler, hp, hx, dispatchBody, hm, hw, hi, hres,
              submit, dispatchRegister, hargs, hc, hr, dispatchDeferred, assertError,
              resolvedPayload, Call.isCreatePendingTask, Call.isQueueUpdate, CallResult.ofError,
              Run.after, List.filter_cons]
        · have hw : env.imageGeneration = .ok taskID := by
            simpa [submissionOutcome, hm, hi] using hacc
          by_cases hargs : prompt ≠ p.Prompt ∨ negativePrompt ≠ p.NegativePrompt <;>
            rcases hr : env.queueUpdateRunning with _ | e2 <;>
            simp [BuildDashscopeImageCompletionHandler, hp, hx, dispatchBody, hm, hw, hi, hres,
              submit, dispatchRegister, hargs, hc, hr, dispatchDeferred, assertError,
              resolvedPayload, Call.isCreatePendingTask, Call.isQueueUpdate, CallResult.ofError,
              Run.after, List.filter_cons]

/-- Witness for `dispatch_accepted_job`: the vendor accepts the stable-diffusion
job "job-1" one minute after creation. -/
theorem dispatch_accepted_job_witness :
    (sampleDispatchEnv samplePayload).unmarshal "raw" = .ok samplePayload
      ∧ ¬ (samplePayload.CreatedAt + 5 * Minute < (sampleDispatchEnv samplePayload).nowExpiry)
      ∧ submissionOutcome sampleConsts (sampleDispatchEnv samplePayload) samplePayload = .ok "job-1"
      ∧ (BuildDashscopeImageCompletionHandler sampleConsts (sampleDispatchEnv samplePayload)
            "raw").trace.filter (fun x => x.call.isCreatePendingTask) =
          [⟨.CreatePendingTask
              { TaskID := "t1"
                TaskType := "dashscope_image:completion"
                NextExecuteAt := 1 * Minute + 5 * Second
                DeadlineAt := 1 * Minute + 30 * Minute
                Status := .Processing
                Payload := ⟨"job-1", samplePayload⟩ }, .ok⟩] :=
  ⟨rfl, by decide, rfl,
    (dispatch_accepted_job sampleConsts (sampleDispatchEnv samplePayload) "raw" samplePayload
      "job-1" rfl (by decide) (Or.inr ⟨_, rfl⟩) rfl).1⟩

/-! ## C15: the successful poll -/

/-- C15.  When the vendor reports a finished status other than Failed with at least
one non-empty URL, the JSON encoding of the URL list succeeds and the history
update, `QuotaConsume` and the `QueueTask` Success write succeed, the run of the
pending-task handler is: the status query; the history update to Success with the
JSON-encoded list as answer; `QuotaConsume`; the enqueue of the download task; the
`QueueTask` Success write with the payload's origin image, exactly the non-empty
vendor URLs in vendor order and `ValidBefore = now + 7 days`.  It returns the update
Success and a nil error. -/
theorem poll_success (c : Consts) (env : PollEnv) (task : QueueTasksPending)
    (payload : DashscopeImagePendingTaskPayload) (taskRes : ImageTaskResponse)
    (retJson : String)
    (hdec : env.unmarshal task.Payload = .ok payload)
    (hq : env.imageTaskStatus = .ok taskRes)
    (h1 : ¬ (taskRes.TaskStatus = c.TaskStatusPending ∨ taskRes.TaskStatus = c.TaskStatusRunning ∨
      taskRes.TaskStatus = c.TaskStatusUnknown))
    (h2 : taskRes.TaskStatus ≠ c.TaskStatusFailed)
    (hres : ∃ item ∈ taskRes.Results, item.URL ≠ "")
    (hj : env.jsonMarshal ((taskRes.Results.map fun item => item.URL).filter fun u => u ≠ "") =
      .ok retJson)
    (hu : env.updateRecordSuccess = none)
    (hc : env.quotaConsume = none)
    (hs : env.queueUpdateSuccess = none) :
    dashscopeImageAsyncJobProcesser c env task =
      ⟨[⟨.ImageTaskStatus payload.DashscopeImageTaskID, .ok⟩,
        ⟨.UpdateRecordByTaskID payload.Payload.UID payload.Payload.ID
          { Answer := retJson
            QuotaUsed := env.unifiedImageGenCoins *
              ((taskRes.Results.map fun item => item.URL).filter fun u => u ≠ "").length
            Status := .Success }, .ok⟩,
        ⟨.QuotaConsume payload.Payload.UID payload.Payload.Quota
          ⟨"fromston", [payload.Payload.Model, "upload"]⟩, .ok⟩,
        ⟨.Enqueue ⟨payload.Payload.ID, payload.Payload.UID, env.nowDownload⟩,
          CallResult.ofError env.enqueue⟩,
        ⟨.QueueUpdate payload.Payload.ID .Success
          (.CompletionResult payload.Payload.Image
            ((taskRes.Results.map fun item => item.URL).filter fun u => u ≠ "")
            (env.nowValidBefore + 7 * 24 * Hour)), .ok⟩],
       .ret (some { Status := .Success }, none)⟩ := by
  have hlen : ¬ (resourcesOf taskRes).length = 0 := by
    rcases hres with ⟨item, hitem, hurl⟩
    have hmem : item.URL ∈ resourcesOf taskRes := by
      simp only [resourcesOf, List.mem_filter, List.mem_map]
      exact ⟨⟨item, hitem, rfl⟩, by simpa using hurl⟩
    intro h0
    rw [List.length_eq_zero] at h0
    rw [h0] at hmem
    exact absurd hmem (List.not_mem_nil _)
  have hj2 : env.jsonMarshal (resourcesOf taskRes) = .ok retJson := hj
  have key : dashscopeImageAsyncJobProcesser c env task =
      ⟨[⟨.ImageTaskStatus payload.DashscopeImageTaskID, .ok⟩,
        ⟨.UpdateRecordByTaskID payload.Payload.UID payload.Payload.ID
          { Answer := retJson
            QuotaUsed := env.unifiedImageGenCoins * (resourcesOf taskRes).length
            Status := .Success }, .ok⟩,
        ⟨.QuotaConsume payload.Payload.UID payload.Payload.Quota
          ⟨"fromston", [payload.Payload.Model, "upload"]⟩, .ok⟩,
        ⟨.Enqueue ⟨payload.Payload.ID, payload.Payload.UID, env.nowDownload⟩,
          CallResult.ofError env.enqueue⟩,
        ⟨.QueueUpdate payload.Payload.ID .Success
          (.CompletionResult payload.Payload.Image (resourcesOf taskRes)
            (env.nowValidBefore + 7 * 24 * Hour)), .ok⟩],
       .ret (some { Status := .Success }, none)⟩ := by
    rw [processer_queried c env task payload taskRes hdec hq,
      pollBody_finished c env task payload taskRes h1 h2]
    simp [handleDashscopeImageTask, hlen, hj2, hu, hc, hs, pollDeferred, Run.after,
      CallResult.ofError, DashscopeImagePendingTaskPayload.GetUID,
      DashscopeImagePendingTaskPayload.GetID, DashscopeImagePendingTaskPayload.GetQuota,
      DashscopeImagePendingTaskPayload.GetModel, DashscopeImagePendingTaskPayload.GetImage]
  exact key

/-- Witness for `poll_success`: the vendor reports SUCCEEDED with the results
"u1", "" and "u2". -/
theorem poll_success_witness :
    (samplePollEnv "SUCCEEDED" ["u1", "", "u2"]).unmarshal sampleTask.Payload =
        .ok samplePendingPayload
      ∧ (samplePollEnv "SUCCEEDED" ["u1", "", "u2"]).imageTaskStatus =
        .ok ⟨"SUCCEEDED", [⟨"u1"⟩, ⟨""⟩, ⟨"u2"⟩]⟩
      ∧ dashscopeImageAsyncJobProcesser sampleConsts (samplePollEnv "SUCCEEDED" ["u1", "", "u2"])
          sampleTask =
        ⟨[⟨.ImageTaskStatus "job-1", .ok⟩,
          ⟨.UpdateRecordByTaskID 7 "t1"
            { Answer := "[\"u1\",\"u2\"]", QuotaUsed := 80, Status := .Success }, .ok⟩,
          ⟨.QuotaConsume 7 100 ⟨"fromston", ["stable-diffusion-xl", "upload"]⟩, .ok⟩,
          ⟨.Enqueue ⟨"t1", 7, 100 * Minute⟩, .ok⟩,
          ⟨.QueueUpdate "t1" .Success
            (.CompletionResult "" ["u1", "u2"] (100 * Minute + 7 * 24 * Hour)), .ok⟩],
         .ret (some { Status := .Success }, none)⟩ :=
  ⟨rfl, rfl,
    poll_success sampleConsts (samplePollEnv "SUCCEEDED" ["u1", "", "u2"]) sampleTask
      samplePendingPayload ⟨"SUCCEEDED", [⟨"u1"⟩, ⟨""⟩, ⟨"u2"⟩]⟩ "[\"u1\",\"u2\"]" rfl rfl
      (by decide) (by decide) ⟨⟨"u1"⟩, by decide, by decide⟩ rfl rfl rfl rfl⟩

/-! ## C16: the two failure writes are independent -/

/-- C16.  Take any run of the dashscope dispatcher whose body panics with an error
value `e`, and any run of the group-chat handler whose body ends with the error `ge`
(raised as a panic or returned).  Whatever results `r1`, `r2` (`g1`, `g2`) the
history (chat-message) update and the `QueueTask` Failed write return, both calls
are made, in this order, after the calls of the body, and the handler returns `e`
(`ge`). -/
theorem failure_writes_independent (c : Consts) (env : DispatchEnv) (raw : String)
    (p : DashscopeImageCompletionPayload) (e : GoError) (r1 r2 : Option GoError)
    (genv : GroupChatEnv) (graw : String) (gp : GroupChatPayload) (ge : GoError)
    (g1 g2 : Option GoError)
    (hp : env.unmarshal raw = .ok p)
    (hlive : ¬ (p.CreatedAt + 5 * Minute < env.nowExpiry))
    (hpanic : (dispatchBody c env p).out = .panic (.error e))
    (hgp : genv.unmarshal graw = .ok gp)
    (hglive : ¬ (gp.CreatedAt + 15 * Minute < genv.now))
    (hgerr : (groupChatBody genv gp).out = .panic (.error ge) ∨
      (groupChatBody genv gp).out = .ret (some ge)) :
    BuildDashscopeImageCompletionHandler c
        { env with updateRecordFailed := r1, queueUpdateFailed := r2 } raw =
      ⟨(dispatchBody c env p).trace ++
          [⟨.UpdateRecordByTaskID p.UID p.ID { Answer := e.msg, Status := .Failed },
              CallResult.ofError r1⟩,
            ⟨.QueueUpdate p.ID .Failed (.ErrorResult [e.msg]), CallResult.ofError r2⟩],
        .ret (some e)⟩
    ∧ BuildGroupChatHandler
        { genv with updateChatMessageFailed := g1, queueUpdateFailed := g2 } graw =
      ⟨(groupChatBody genv gp).trace ++
          [⟨.UpdateChatMessage gp.GroupID gp.UserID gp.MessageID
                { Message := ge.msg, Status := .Failed, Error := ge.msg },
              CallResult.ofError g1⟩,
            ⟨.QueueUpdate gp.ID .Failed (.ErrorResult [ge.msg]), CallResult.ofError g2⟩] ++
          groupChatRelease genv gp,
        .ret (some ge)⟩ := by
  have hx : ¬ expired p.CreatedAt (5 * Minute) env.nowExpiry = true :=
    fun hx => hlive ((expired_iff _ _ _).1 hx)
  have hgx : ¬ expired gp.CreatedAt (15 * Minute) genv.now = true :=
    fun hx => hglive ((expired_iff _ _ _).1 hx)
  have hb : dispatchBody c { env with updateRecordFailed := r1, queueUpdateFailed := r2 } p =
      dispatchBody c env p := rfl
  have hgb : groupChatBody { genv with updateChatMessageFailed := g1, queueUpdateFailed := g2 } gp =
      groupChatBody genv gp := rfl
  have hgr : groupChatRelease { genv with updateChatMessageFailed := g1, queueUpdateFailed := g2 }
      gp = groupChatRelease genv gp := rfl
  constructor
  · simp [BuildDashscopeImageCompletionHandler, hp, hx, hb, hpanic, dispatchDeferred, assertError,
      Run.after]
  · rcases hgerr with hg | hg <;>
      simp [BuildGroupChatHandler, hgp, hgx, hgb, hgr, hg, groupChatDeferred, groupChatFailed,
        assertError, Run.after]

/-- Witness for `failure_writes_independent`: the vendor rejects the submission and
the chat call fails, while both failure writes of either handler return errors. -/
theorem failure_writes_independent_witness :
    (dispatchBody sampleConsts sampleDispatchEnvVendorFails samplePayload).out =
        .panic (.error ⟨"quota exceeded"⟩)
      ∧ (groupChatBody (sampleGroupChatEnvChatFails sampleGroupChatPayload)
          sampleGroupChatPayload).out = .panic (.error ⟨"chat failed: timeout"⟩)
      ∧ (BuildDashscopeImageCompletionHandler sampleConsts
          { sampleDispatchEnvVendorFails with
            updateRecordFailed := some ⟨"db down"⟩, queueUpdateFailed := some ⟨"db down"⟩ }
          "raw").out = .ret (some ⟨"quota exceeded"⟩)
      ∧ (BuildGroupChatHandler
          { sampleGroupChatEnvChatFails sampleGroupChatPayload with
            updateChatMessageFailed := some ⟨"db down"⟩, queueUpdateFailed := some ⟨"db down"⟩ }
          "raw").out = .ret (some ⟨"chat failed: timeout"⟩) :=
  have h := failure_writes_independent sampleConsts sampleDispatchEnvVendorFails "raw"
    samplePayload ⟨"quota exceeded"⟩ (some ⟨"db down"⟩) (some ⟨"db down"⟩)
    (sampleGroupChatEnvChatFails sampleGroupChatPayload) "raw" sampleGroupChatPayload
    ⟨"chat failed: timeout"⟩ (some ⟨"db down"⟩) (some ⟨"db down"⟩)
    rfl (by decide) (by decide) rfl (by decide) (Or.inl (by decide))
  ⟨by decide, by decide, congrArg Run.out h.1, congrArg Run.out h.2⟩

/-! ## C17: the chained download task -/

/-- C17.  For every run of `handleDashscopeImageTask`, replacing the result of
`que.Enqueue` by any other result changes neither the returned error (or panic) nor
the `QueueTask` writes of the run; the calls of the run are the same, and only the
result recorded for the enqueue call differs. -/
theorem enqueue_result_irrelevant (env : PollEnv) (payload : DashscopeImagePendingTaskPayload)
    (tasks : ImageTaskResponse) (r1 r2 : Option GoError) :
    (handleDashscopeImageTask { env with enqueue := r1 } payload tasks).out =
        (handleDashscopeImageTask { env with enqueue := r2 } payload tasks).out
      ∧ (handleDashscopeImageTask { env with enqueue := r1 } payload tasks).trace.filter
            (fun x => x.call.isQueueUpdate) =
          (handleDashscopeImageTask { env with enqueue := r2 } payload tasks).trace.filter
            (fun x => x.call.isQueueUpdate)
      ∧ (handleDashscopeImageTask { env with enqueue := r1 } payload tasks).trace.map
            (fun x => x.call) =
          (handleDashscopeImageTask { env with enqueue := r2 } payload tasks).trace.map
            (fun x => x.call) := by
  by_cases hres : (resourcesOf tasks).length = 0
  · simp [handleDashscopeImageTask, hres]
  · rcases hj : env.jsonMarshal (resourcesOf tasks) with e1 | retJson <;>
      rcases hu : env.updateRecordSuccess with _ | e2 <;>
      rcases hq : env.quotaConsume with _ | e3 <;>
      simp [handleDashscopeImageTask, hres, hj, hu, hq, Call.isQueueUpdate, List.filter_cons]

/-! ## `Messages.Fix`: the loop and the collapse of runs -/

theorem fixLoop_eq (r : List Message) (lastRole : String) (acc : List Message) :
    fixLoop r lastRole acc = acc ++ dropRepeats lastRole r := by
  induction r generalizing lastRole acc with
  | nil => simp [fixLoop, dropRepeats]
  | cons m rest ih =>
    by_cases h : m.Role = lastRole
    · simp [fixLoop, dropRepeats, h, ih]
    · simp [fixLoop, dropRepeats, h, ih]

theorem roleBefore_cons (lastRole : String) (x : Message) (xs : List Message) :
    roleBefore lastRole (x :: xs) = roleBefore x.Role xs := by
  cases xs with
  | nil => simp [roleBefore]
  | cons y ys =>
    have h1 : (x :: y :: ys).getLast? = (y :: ys).getLast? := List.getLast?_cons_cons
    rcases hz : (y :: ys).getLast? with _ | z
    · simp at hz
    · simp [roleBefore, h1, hz]

theorem dropRepeats_append_singleton (lastRole : String) (xs : List Message) (y : Message) :
    dropRepeats lastRole (xs ++ [y]) =
      dropRepeats lastRole xs ++ (if y.Role = roleBefore lastRole xs then [] else [y]) := by
  induction xs generalizing lastRole with
  | nil => simp [dropRepeats, roleBefore]
  | cons x xs ih =>
    rw [roleBefore_cons]
    by_cases h : x.Role = lastRole
    · have hr : roleBefore x.Role xs = roleBefore lastRole xs := by rw [h]
      simp [dropRepeats, h, ih, hr]
    · simp [dropRepeats, h, ih]

theorem reverse_dropRepeats_reverse (lastRole : String) (ys : List Message)
    (hlast : ∀ z, ys.getLast? = some z → z.Role ≠ lastRole) :
    (dropRepeats lastRole ys.reverse).reverse = lastOfRuns ys := by
  induction ys with
  | nil => simp [dropRepeats, lastOfRuns]
  | cons y ys ih =>
    rw [List.reverse_cons, dropRepeats_append_singleton, List.reverse_append]
    cases ys with
    | nil =>
      have hy : y.Role ≠ lastRole := hlast y rfl
      simp [roleBefore, dropRepeats, lastOfRuns, hy]
    | cons n rest =>
      have ih2 := ih (fun z hz => hlast z (by simpa [List.getLast?_cons_cons] using hz))
      rw [ih2]
      have hb : roleBefore lastRole (n :: rest).reverse = n.Role := by
        simp [roleBefore]
      rw [hb]
      by_cases h : y.Role = n.Role
      · simp [lastOfRuns, h]
      · simp [lastOfRuns, h]

theorem lastOfRuns_cons_cons (m n : Message) (rest : List Message) :
    lastOfRuns (m :: n :: rest) =
      if m.Role = n.Role then lastOfRuns (n :: rest) else m :: lastOfRuns (n :: rest) := by
  simp [lastOfRuns]

theorem lastOfRuns_sublist (l : List Message) : (lastOfRuns l).Sublist l := by
  induction l with
  | nil => simp [lastOfRuns]
  | cons m rest ih =>
    cases rest with
    | nil => simp [lastOfRuns]
    | cons n rest =>
      rw [lastOfRuns_cons_cons]
      by_cases h : m.Role = n.Role
      · simp only [h, if_true]
        exact ih.trans (List.sublist_cons_self _ _)
      · simp only [h, if_false]
        exact ih.cons₂ _

theorem lastOfRuns_head_role (n : Message) (rest : List Message) :
    ∃ k tl, lastOfRuns (n :: rest) = k :: tl ∧ k.Role = n.Role := by
  induction rest generalizing n with
  | nil => exact ⟨n, [], by simp [lastOfRuns], rfl⟩
  | cons n2 rest ih =>
    rw [lastOfRuns_cons_cons]
    by_cases h : n.Role = n2.Role
    · simp only [h, if_true]
      obtain ⟨k, tl, hk, hr⟩ := ih n2
      exact ⟨k, tl, hk, by simp [hr, h]⟩
    · simp only [h, if_false]
      exact ⟨n, _, rfl, rfl⟩

theorem lastOfRuns_chain (l : List Message) :
    (lastOfRuns l).Chain' (fun a b => a.Role ≠ b.Role) := by
  induction l with
  | nil => simp [lastOfRuns]
  | cons m rest ih =>
    cases rest with
    | nil => simp [lastOfRuns]
    | cons n rest =>
      rw [lastOfRuns_cons_cons]
      by_cases h : m.Role = n.Role
      · simp only [h, if_true]
        exact ih
      · simp only [h, if_false]
        obtain ⟨k, tl, hk, hr⟩ := lastOfRuns_head_role n rest
        rw [hk] at ih ⊢
        exact List.Chain'.cons (by rw [hr]; exact h) ih

theorem lastOfRuns_getLast? (l : List Message) : (lastOfRuns l).getLast? = l.getLast? := by
  induction l with
  | nil => simp [lastOfRuns]
  | cons m rest ih =>
    cases rest with
    | nil => simp [lastOfRuns]
    | cons n rest =>
      rw [lastOfRuns_cons_cons, List.getLast?_cons_cons]
      by_cases h : m.Role = n.Role
      · simp only [h, if_true]
        exact ih
      · simp only [h, if_false]
        obtain ⟨k, tl, hk, _⟩ := lastOfRuns_head_role n rest
        rw [hk, List.getLast?_cons_cons, ← hk]
        exact ih

/-- Every message kept by `lastOfRuns` closes a run of the list: the message after
it, if any, has another role. -/
theorem lastOfRuns_closes_run (l : List Message) (m : Message) (hm : m ∈ lastOfRuns l) :
    ∃ pre post, l = pre ++ m :: post ∧ ∀ n, post.head? = some n → n.Role ≠ m.Role := by
  induction l with
  | nil => simp [lastOfRuns] at hm
  | cons x rest ih =>
    cases rest with
    | nil =>
      simp [lastOfRuns] at hm
      subst hm
      exact ⟨[], [], rfl, by simp⟩
    | cons n rest =>
      rw [lastOfRuns_cons_cons] at hm
      by_cases h : x.Role = n.Role
      · simp only [h, if_true] at hm
        obtain ⟨pre, post, hl, hp⟩ := ih hm
        exact ⟨x :: pre, post, by rw [hl]; rfl, hp⟩
      · simp only [h, if_false, List.mem_cons] at hm
        rcases hm with hm | hm
        · subst hm
          exact ⟨[], n :: rest, rfl, by
            intro k hk
            simp at hk
            subst hk
            exact fun hh => h hh.symm⟩
        · obtain ⟨pre, post, hl, hp⟩ := ih hm
          exact ⟨x :: pre, post, by rw [hl]; rfl, hp⟩

/-- The list that `Messages.Fix` works on after its first step ends with a user
message and has the system messages of the input. -/
theorem fix_appended (ms : Messages) (last : Message) (hlast : ms.getLast? = some last) :
    ∃ init u, (if last.Role ≠ "user" then ms ++ [continueMessage] else ms) = init ++ [u]
      ∧ u.Role = "user"
      ∧ (last.Role ≠ "user" → u = continueMessage)
      ∧ (last.Role = "user" → u = last)
      ∧ (init ++ [u]).filter (fun m => m.Role = "system") = ms.filter (fun m => m.Role = "system") := by
  by_cases h : last.Role = "user"
  · obtain ⟨init, hinit⟩ := List.getLast?_eq_some_iff.1 hlast
    refine ⟨init, last, by simp [h, hinit], h, fun hn => absurd h hn, fun _ => rfl, by rw [hinit]⟩
  · refine ⟨ms, continueMessage, by simp [h], rfl, fun _ => rfl, fun hu => absurd hu h, ?_⟩
    simp [continueMessage]

/-- Characterisation of `Messages.Fix` on a non-empty list: it returns the system
messages of the input followed by the collapsed non-system sequence. -/
theorem fix_eq (ms : Messages) (hne : ms ≠ []) :
    Messages.Fix ms = .ret (ms.filter (fun m => m.Role = "system") ++ collapsed ms) := by
  obtain ⟨last, hlast⟩ : ∃ last, ms.getLast? = some last := by
    rcases h : ms.getLast? with _ | last
    · exact absurd (List.getLast?_eq_none_iff.1 h) hne
    · exact ⟨last, rfl⟩
  obtain ⟨init, u, hmsgs, hu, -, -, hsys⟩ := fix_appended ms last hlast
  have hseq : nonSystemSequence ms = init.filter (fun m => m.Role ≠ "system") ++ [u] := by
    simp only [nonSystemSequence, hlast, hmsgs, List.filter_append]
    simp [hu]
  have hsel : (if (ms.filter (fun m => m.Role = "system")).length > 0
      then (init ++ [u]).filter (fun m => m.Role ≠ "system") else init ++ [u]) =
      nonSystemSequence ms := by
    have hfu : (init ++ [u]).filter (fun m => m.Role ≠ "system") =
        init.filter (fun m => m.Role ≠ "system") ++ [u] := by
      rw [List.filter_append]
      simp [hu]
    rw [hseq, ← hsys]
    by_cases hz : ((init ++ [u]).filter (fun m => m.Role = "system")).length > 0
    · rw [if_pos hz, hfu]
    · rw [if_neg hz]
      have hnil : (init ++ [u]).filter (fun m => m.Role = "system") = [] := by
        simpa [List.length_eq_zero] using hz
      have hall : ∀ a ∈ init, ¬ a.Role = "system" := by
        intro a ha hrole
        have : a ∈ (init ++ [u]).filter (fun m => m.Role = "system") := by
          simp [List.mem_filter, ha, hrole]
        rw [hnil] at this
        exact absurd this (List.not_mem_nil _)
      have hfil : init.filter (fun m => m.Role ≠ "system") = init := by
        rw [List.filter_eq_self]
        intro a ha
        simpa using hall a ha
      rw [hfil]
  have hloop : fixLoop (nonSystemSequence ms).reverse "" [] =
      (lastOfRuns (nonSystemSequence ms)).reverse := by
    rw [fixLoop_eq, List.nil_append, ← reverse_dropRepeats_reverse "" (nonSystemSequence ms),
      List.reverse_reverse]
    intro z hz
    rw [hseq, List.getLast?_concat] at hz
    injection hz with hz
    subst hz
    rw [hu]
    decide
  have hkept : lastOfRuns (nonSystemSequence ms) ≠ [] := by
    intro h0
    have h1 := lastOfRuns_getLast? (nonSystemSequence ms)
    rw [h0, hseq, List.getLast?_concat] at h1
    simp at h1
  simp only [Messages.Fix, hlast, hmsgs, hsel, hloop, hsys, collapsed, List.length_reverse]
  by_cases hpar : (lastOfRuns (nonSystemSequence ms)).length % 2 = 0
  · have hlen : ¬ (lastOfRuns (nonSystemSequence ms)).length = 0 := by
      simpa [List.length_eq_zero] using hkept
    simp only [hpar, if_true, hlen, if_false]
    rw [← List.length_reverse (lastOfRuns (nonSystemSequence ms)), ← List.dropLast_eq_take,
      ← List.tail_reverse, List.reverse_reverse]
  · simp only [hpar, if_false, List.reverse_reverse]

theorem nonSystemSequence_eq (ms : Messages) (last : Message) (hlast : ms.getLast? = some last) :
    nonSystemSequence ms =
      ms.filter (fun m => m.Role ≠ "system") ++
        (if last.Role ≠ "user" then [continueMessage] else []) := by
  by_cases h : last.Role = "user"
  · simp [nonSystemSequence, hlast, h]
  · simp [nonSystemSequence, hlast, h, continueMessage]

theorem nonSystemSequence_getLast? (ms : Messages) (last : Message)
    (hlast : ms.getLast? = some last) :
    (nonSystemSequence ms).getLast? =
      some (if last.Role ≠ "user" then continueMessage else last) := by
  by_cases h : last.Role = "user"
  · obtain ⟨init, hinit⟩ := List.getLast?_eq_some_iff.1 hlast
    rw [nonSystemSequence_eq ms last hlast, hinit]
    simp [h, List.filter_append]
  · rw [nonSystemSequence_eq ms last hlast]
    simp [h]

theorem collapsed_getLast? (ms : Messages) (last : Message) (hlast : ms.getLast? = some last) :
    (collapsed ms).getLast? = some (if last.Role ≠ "user" then continueMessage else last) := by
  have h1 : (lastOfRuns (nonSystemSequence ms)).getLast? =
      some (if last.Role ≠ "user" then continueMessage else last) := by
    rw [lastOfRuns_getLast?, nonSystemSequence_getLast? ms last hlast]
  unfold collapsed
  by_cases hpar : (lastOfRuns (nonSystemSequence ms)).length % 2 = 0
  · rw [if_pos hpar]
    rcases hl : lastOfRuns (nonSystemSequence ms) with _ | ⟨a, _ | ⟨b, rest⟩⟩
    · rw [hl] at h1
      simp at h1
    · rw [hl] at hpar
      simp at hpar
    · rw [hl, List.getLast?_cons_cons] at h1
      exact h1
  · rw [if_neg hpar]
    exact h1

theorem collapsed_suffix (ms : Messages) :
    collapsed ms <:+ lastOfRuns (nonSystemSequence ms) := by
  unfold collapsed
  by_cases hpar : (lastOfRuns (nonSystemSequence ms)).length % 2 = 0
  · rw [if_pos hpar]
    exact List.tail_suffix _
  · rw [if_neg hpar]

/-! ## C18: the result of `Messages.Fix` ends with a user message -/

/-- C18.  For every non-empty message list `Messages.Fix` returns a list whose last
message has role "user": the last message of the input when that is a user message,
and otherwise the synthesized user message "继续". -/
theorem fix_ends_with_user (ms : Messages) (hne : ms ≠ []) :
    ∃ res u, Messages.Fix ms = .ret res ∧ res.getLast? = some u ∧ u.Role = "user"
      ∧ (∀ last, ms.getLast? = some last → last.Role ≠ "user" → u = continueMessage)
      ∧ (∀ last, ms.getLast? = some last → last.Role = "user" → u = last) := by
  obtain ⟨last, hlast⟩ : ∃ last, ms.getLast? = some last := by
    rcases h : ms.getLast? with _ | last
    · exact absurd (List.getLast?_eq_none_iff.1 h) hne
    · exact ⟨last, rfl⟩
  have hc := collapsed_getLast? ms last hlast
  refine ⟨_, if last.Role ≠ "user" then continueMessage else last, fix_eq ms hne, ?_, ?_, ?_, ?_⟩
  · rw [List.getLast?_append, hc]
    rfl
  · by_cases h : last.Role = "user"
    · simp [h]
    · simp [h, continueMessage]
  · intro l hl hrole
    rw [hlast] at hl
    injection hl with hl
    subst hl
    simp [hrole]
  · intro l hl hrole
    rw [hlast] at hl
    injection hl with hl
    subst hl
    simp [hrole]

/-- Witness for `fix_ends_with_user`: the sample conversation ends with an assistant
message and its fixed form ends with the synthesized user message. -/
theorem fix_ends_with_user_witness :
    sampleMessages ≠ []
      ∧ ∃ res u, Messages.Fix sampleMessages = .ret res ∧ res.getLast? = some u
        ∧ u.Role = "user"
        ∧ (∀ last, sampleMessages.getLast? = some last → last.Role ≠ "user" →
            u = continueMessage)
        ∧ (∀ last, sampleMessages.getLast? = some last → last.Role = "user" → u = last) :=
  ⟨by decide, fix_ends_with_user sampleMessages (by decide)⟩

/-! ## C19: the system messages -/

/-- C19.  For every non-empty message list the result of `Messages.Fix` is the list
of the system messages of the input, unchanged and in their order, followed by
messages none of which is a system message. -/
theorem fix_keeps_system (ms : Messages) (hne : ms ≠ []) :
    ∃ rest, Messages.Fix ms = .ret (ms.filter (fun m => m.Role = "system") ++ rest)
      ∧ ∀ m ∈ rest, m.Role ≠ "system" := by
  refine ⟨collapsed ms, fix_eq ms hne, ?_⟩
  intro m hm
  have h1 : m ∈ lastOfRuns (nonSystemSequence ms) := (collapsed_suffix ms).subset hm
  have h2 : m ∈ nonSystemSequence ms := (lastOfRuns_sublist _).subset h1
  simp only [nonSystemSequence, List.mem_filter] at h2
  simpa using h2.2

/-- Witness for `fix_keeps_system`: the two system messages of the sample
conversation head the result. -/
theorem fix_keeps_system_witness :
    sampleMessages ≠ []
      ∧ ∃ rest, Messages.Fix sampleMessages =
          .ret (sampleMessages.filter (fun m => m.Role = "system") ++ rest)
        ∧ ∀ m ∈ rest, m.Role ≠ "system" :=
  ⟨by decide, fix_keeps_system sampleMessages (by decide)⟩

/-! ## C20: consecutive messages of the same role -/

/-- C20.  For every non-empty message list the non-system part `kept` of the result
of `Messages.Fix` is obtained from the non-system sequence (the non-system messages
of the input, followed by the user message "继续" when the input does not end with a
user message) by keeping the last message of each run of equal roles, and dropping
the first kept message when their number is even.  So no two adjacent messages of
`kept` share a role, every message of `kept` is followed in the non-system sequence
by a message of another role or by nothing, and `kept` is a subsequence of the
non-system sequence. -/
theorem fix_collapses_runs (ms : Messages) (hne : ms ≠ []) :
    ∃ kept, Messages.Fix ms = .ret (ms.filter (fun m => m.Role = "system") ++ kept)
      ∧ kept = collapsed ms
      ∧ (∀ last, ms.getLast? = some last →
          nonSystemSequence ms = ms.filter (fun m => m.Role ≠ "system") ++
            (if last.Role ≠ "user" then [continueMessage] else []))
      ∧ kept.Chain' (fun a b => a.Role ≠ b.Role)
      ∧ (∀ m ∈ kept, ∃ pre post, nonSystemSequence ms = pre ++ m :: post
          ∧ ∀ n, post.head? = some n → n.Role ≠ m.Role)
      ∧ kept.Sublist (nonSystemSequence ms) := by
  refine ⟨collapsed ms, fix_eq ms hne, rfl, fun last hlast => nonSystemSequence_eq ms last hlast,
    ?_, ?_, ?_⟩
  · unfold collapsed
    by_cases hpar : (lastOfRuns (nonSystemSequence ms)).length % 2 = 0
    · rw [if_pos hpar]
      exact (lastOfRuns_chain _).tail
    · rw [if_neg hpar]
      exact lastOfRuns_chain _
  · intro m hm
    exact lastOfRuns_closes_run _ m ((collapsed_suffix ms).subset hm)
  · exact (collapsed_suffix ms).sublist.trans (lastOfRuns_sublist _)

/-- Witness for `fix_collapses_runs`: in the sample conversation the runs "u1 u2"
and "a2 a3" are collapsed to "u2" and "a3". -/
theorem fix_collapses_runs_witness :
    sampleMessages ≠ []
      ∧ Messages.Fix sampleMessages =
        .ret [⟨"system", "s1", []⟩, ⟨"system", "s2", []⟩, ⟨"user", "u2", []⟩,
          ⟨"assistant", "a1", []⟩, ⟨"user", "u3", []⟩, ⟨"assistant", "a3", []⟩,
          ⟨"user", "继续", []⟩]
      ∧ ∃ kept, Messages.Fix sampleMessages =
          .ret (sampleMessages.filter (fun m => m.Role = "system") ++ kept)
        ∧ kept = collapsed sampleMessages :=
  have h := fix_collapses_runs sampleMessages (by decide)
  ⟨by decide, by decide, h.choose, h.choose_spec.1, h.choose_spec.2.1⟩

/-! ## `Messages.Fix`: shape of the result -/

theorem lastOfRuns_of_chain (l : List Message)
    (h : l.Chain' (fun a b => a.Role ≠ b.Role)) : lastOfRuns l = l := by
  induction l with
  | nil => simp [lastOfRuns]
  | cons m rest ih =>
    cases rest with
    | nil => simp [lastOfRuns]
    | cons n rest =>
      rw [List.chain'_cons] at h
      rw [lastOfRuns_cons_cons, if_neg h.1, ih h.2]

theorem lastOfRuns_ne_nil (ms : Messages) (hne : ms ≠ []) :
    lastOfRuns (nonSystemSequence ms) ≠ [] := by
  obtain ⟨last, hlast⟩ : ∃ last, ms.getLast? = some last := by
    rcases h : ms.getLast? with _ | last
    · exact absurd (List.getLast?_eq_none_iff.1 h) hne
    · exact ⟨last, rfl⟩
  intro h0
  have h1 := lastOfRuns_getLast? (nonSystemSequence ms)
  rw [h0, nonSystemSequence_getLast? ms last hlast] at h1
  simp at h1

theorem collapsed_length_odd (ms : Messages) (hne : ms ≠ []) :
    (collapsed ms).length % 2 = 1 := by
  have hk := lastOfRuns_ne_nil ms hne
  have hpos : 0 < (lastOfRuns (nonSystemSequence ms)).length := List.length_pos.2 hk
  unfold collapsed
  by_cases hpar : (lastOfRuns (nonSystemSequence ms)).length % 2 = 0
  · rw [if_pos hpar, List.length_tail]
    omega
  · rw [if_neg hpar]
    omega

theorem collapsed_chain (ms : Messages) :
    (collapsed ms).Chain' (fun a b => a.Role ≠ b.Role) := by
  unfold collapsed
  by_cases hpar : (lastOfRuns (nonSystemSequence ms)).length % 2 = 0
  · rw [if_pos hpar]
    exact (lastOfRuns_chain _).tail
  · rw [if_neg hpar]
    exact lastOfRuns_chain _

theorem collapsed_no_system (ms : Messages) : ∀ m ∈ collapsed ms, m.Role ≠ "system" := by
  intro m hm
  have h1 : m ∈ lastOfRuns (nonSystemSequence ms) := (collapsed_suffix ms).subset hm
  have h2 : m ∈ nonSystemSequence ms := (lastOfRuns_sublist _).subset h1
  simp only [nonSystemSequence, List.mem_filter] at h2
  simpa using h2.2

/-- On a list made of system messages followed by an odd number of non-system
messages with alternating roles that ends with a user message, `Messages.Fix`
changes nothing. -/
theorem fix_fixed_point (sys kept : Messages) (u : Message)
    (hsys : ∀ m ∈ sys, m.Role = "system")
    (hkept : ∀ m ∈ kept, m.Role ≠ "system")
    (hchain : kept.Chain' (fun a b => a.Role ≠ b.Role))
    (hodd : kept.length % 2 = 1)
    (hlast : kept.getLast? = some u) (hu : u.Role = "user") :
    Messages.Fix (sys ++ kept) = .ret (sys ++ kept) := by
  have hkne : kept ≠ [] := by
    intro h0
    rw [h0] at hlast
    simp at hlast
  have hne : sys ++ kept ≠ [] := by simp [hkne]
  have hl : (sys ++ kept).getLast? = some u := by
    rw [List.getLast?_append, hlast]
    rfl
  have hfs : (sys ++ kept).filter (fun m => m.Role = "system") = sys := by
    rw [List.filter_append]
    have h1 : sys.filter (fun m => m.Role = "system") = sys := by
      rw [List.filter_eq_self]
      intro a ha
      simpa using hsys a ha
    have h2 : kept.filter (fun m => m.Role = "system") = [] := by
      rw [List.filter_eq_nil_iff]
      intro a ha
      simpa using hkept a ha
    rw [h1, h2, List.append_nil]
  have hfn : (sys ++ kept).filter (fun m => m.Role ≠ "system") = kept := by
    rw [List.filter_append]
    have h1 : sys.filter (fun m => m.Role ≠ "system") = [] := by
      rw [List.filter_eq_nil_iff]
      intro a ha
      simpa using hsys a ha
    have h2 : kept.filter (fun m => m.Role ≠ "system") = kept := by
      rw [List.filter_eq_self]
      intro a ha
      simpa using hkept a ha
    rw [h1, h2, List.nil_append]
  have hseq : nonSystemSequence (sys ++ kept) = kept := by
    rw [nonSystemSequence_eq _ u hl, hfn]
    simp [hu]
  have hcol : collapsed (sys ++ kept) = kept := by
    unfold collapsed
    rw [hseq, lastOfRuns_of_chain kept hchain]
    have : ¬ kept.length % 2 = 0 := by omega
    rw [if_neg this]
  rw [fix_eq _ hne, hfs, hcol]

/-! ## C27: idempotence of `Messages.Fix` -/

/-- C27.  For every non-empty message list `ms`, `Messages.Fix` returns a list `r`,
and applied to `r` it returns `r` again. -/
theorem fix_idempotent (ms : Messages) (hne : ms ≠ []) :
    ∃ r, Messages.Fix ms = .ret r ∧ Messages.Fix r = .ret r := by
  obtain ⟨last, hlast⟩ : ∃ last, ms.getLast? = some last := by
    rcases h : ms.getLast? with _ | last
    · exact absurd (List.getLast?_eq_none_iff.1 h) hne
    · exact ⟨last, rfl⟩
  refine ⟨_, fix_eq ms hne, ?_⟩
  refine fix_fixed_point _ _ (if last.Role ≠ "user" then continueMessage else last) ?_
    (collapsed_no_system ms) (collapsed_chain ms) (collapsed_length_odd ms hne)
    (collapsed_getLast? ms last hlast) ?_
  · intro m hm
    simpa using (List.mem_filter.1 hm).2
  · by_cases h : last.Role = "user"
    · simp [h]
    · simp [h, continueMessage]

/-- Witness for `fix_idempotent`: the sample conversation. -/
theorem fix_idempotent_witness :
    sampleMessages ≠ []
      ∧ ∃ r, Messages.Fix sampleMessages = .ret r ∧ Messages.Fix r = .ret r :=
  ⟨by decide, fix_idempotent sampleMessages (by decide)⟩

/-! ## C28: faults of `Messages.Fix` -/

/-- C28.  `Messages.Fix` panics exactly on the empty list, with the run-time error
of indexing `msgs[len(msgs)-1]`; on every non-empty list it returns a non-empty
list whose non-system part has odd length. -/
theorem fix_faults_iff_empty (ms : Messages) :
    ((∃ v, Messages.Fix ms = .panic v) ↔ ms = [])
      ∧ (ms = [] →
          Messages.Fix ms = .panic (.error ⟨"runtime error: index out of range [-1]"⟩))
      ∧ (ms ≠ [] → ∃ r, Messages.Fix ms = .ret r ∧ r ≠ []
          ∧ (r.filter (fun m => m.Role ≠ "system")).length % 2 = 1) := by
  have hempty : Messages.Fix [] = .panic (.error ⟨"runtime error: index out of range [-1]"⟩) :=
    rfl
  refine ⟨⟨?_, ?_⟩, ?_, ?_⟩
  · rintro ⟨v, hv⟩
    by_contra hne
    rw [fix_eq ms hne] at hv
    exact absurd hv (by simp)
  · intro h
    subst h
    exact ⟨_, hempty⟩
  · intro h
    subst h
    exact hempty
  · intro hne
    refine ⟨_, fix_eq ms hne, ?_, ?_⟩
    · intro h0
      have hc : collapsed ms = [] := (List.append_eq_nil.1 h0).2
      have := collapsed_length_odd ms hne
      rw [hc] at this
      simp at this
    · rw [List.filter_append]
      have h1 : (ms.filter (fun m => m.Role = "system")).filter (fun m => m.Role ≠ "system") = [] := by
        rw [List.filter_eq_nil_iff]
        intro a ha
        simpa using (List.mem_filter.1 ha).2
      have h2 : (collapsed ms).filter (fun m => m.Role ≠ "system") = collapsed ms := by
        rw [List.filter_eq_self]
        intro a ha
        simpa using collapsed_no_system ms a ha
      rw [h1, h2, List.nil_append]
      exact collapsed_length_odd ms hne

/-- Witness for `fix_faults_iff_empty`: the sample conversation. -/
theorem fix_faults_iff_empty_witness :
    sampleMessages ≠ []
      ∧ ∃ r, Messages.Fix sampleMessages = .ret r ∧ r ≠ []
        ∧ (r.filter (fun m => m.Role ≠ "system")).length % 2 = 1 :=
  ⟨by decide, (fix_faults_iff_empty sampleMessages).2.2 (by decide)⟩

/-! ## C30: `VendorModel.GetDimension` -/

theorem defaultDimension_pos (vm : VendorModel) (ratio : String) :
    0 < (vm.defaultDimension ratio).Width ∧ 0 < (vm.defaultDimension ratio).Height := by
  unfold VendorModel.defaultDimension
  split_ifs <;> exact ⟨by decide, by decide⟩

/-- C30.  For a vendor model whose configured dimensions are all non-negative and
every ratio string, `GetDimension` returns positive width and height: the default
dimension of the ratio when the ratio has no entry (512x512 when the ratio is none
of the six known ones), the entry itself when both its components are positive, and
otherwise the entry with each zero component replaced by that of the default. -/
theorem getDimension_positive (vm : VendorModel) (ratio : String)
    (hnonneg : ∀ r d, vm.RatioDimensions r = some d → 0 ≤ d.Width ∧ 0 ≤ d.Height) :
    (0 < (vm.GetDimension ratio).Width ∧ 0 < (vm.GetDimension ratio).Height)
      ∧ (vm.RatioDimensions ratio = none → vm.GetDimension ratio = vm.defaultDimension ratio)
      ∧ (ratio ∉ ["1:1", "4:3", "3:4", "3:2", "2:3", "16:9"] →
          vm.defaultDimension ratio = ⟨512, 512⟩)
      ∧ (∀ d, vm.RatioDimensions ratio = some d → 0 < d.Width → 0 < d.Height →
          vm.GetDimension ratio = d)
      ∧ (∀ d, vm.RatioDimensions ratio = some d → ¬ (0 < d.Width ∧ 0 < d.Height) →
          vm.GetDimension ratio =
            ⟨if d.Width = 0 then (vm.defaultDimension ratio).Width else d.Width,
              if d.Height = 0 then (vm.defaultDimension ratio).Height else d.Height⟩) := by
  have hdef := defaultDimension_pos vm ratio
  refine ⟨?_, ?_, ?_, ?_, ?_⟩
  · rcases hd : vm.RatioDimensions ratio with _ | d
    · simp only [VendorModel.GetDimension, hd]
      exact hdef
    · obtain ⟨hw, hh⟩ := hnonneg ratio d hd
      simp only [VendorModel.GetDimension, hd]
      by_cases hw0 : d.Width = 0 <;> by_cases hh0 : d.Height = 0
      · simp [hw0, hh0, hdef.1, hdef.2]
      · have : ¬ d.Height ≤ 0 := by omega
        simp [hw0, hh0, this, hdef.1]
        omega
      · have : ¬ d.Width ≤ 0 := by omega
        simp [hw0, hh0, this, hdef.2]
        omega
      · simp [hw0, hh0]
        omega
  · intro hd
    simp [VendorModel.GetDimension, hd]
  · intro hr
    simp only [List.mem_cons, List.mem_singleton, List.not_mem_nil, or_false, not_or] at hr
    simp [VendorModel.defaultDimension, hr]
  · intro d hd hw hh
    have h1 : ¬ d.Width = 0 := by omega
    have h2 : ¬ d.Height = 0 := by omega
    simp [VendorModel.GetDimension, hd, h1, h2]
  · intro d hd hnot
    obtain ⟨hw, hh⟩ := hnonneg ratio d hd
    simp only [VendorModel.GetDimension, hd]
    by_cases hw0 : d.Width = 0 <;> by_cases hh0 : d.Height = 0
    · simp [hw0, hh0]
    · have : ¬ d.Height ≤ 0 := by omega
      simp [hw0, hh0, this]
    · have : ¬ d.Width ≤ 0 := by omega
      simp [hw0, hh0, this]
    · exact absurd ⟨by omega, by omega⟩ hnot

/-- Witness for `getDimension_positive`: the sample model, whose entry for "4:3"
has height 0. -/
theorem getDimension_positive_witness :
    (∀ r d, sampleVendorModel.RatioDimensions r = some d → 0 ≤ d.Width ∧ 0 ≤ d.Height)
      ∧ sampleVendorModel.GetDimension "4:3" = ⟨1024, 576⟩
      ∧ 0 < (sampleVendorModel.GetDimension "4:3").Width
      ∧ 0 < (sampleVendorModel.GetDimension "4:3").Height :=
  have hnonneg : ∀ r d, sampleVendorModel.RatioDimensions r = some d →
      0 ≤ d.Width ∧ 0 ≤ d.Height := by
    intro r d hd
    simp only [sampleVendorModel] at hd
    split_ifs at hd <;> simp at hd <;> subst hd <;> decide
  have h := (getDimension_positive sampleVendorModel "4:3" hnonneg).1
  ⟨hnonneg, by decide, h.1, h.2⟩

/-! ## C22: the response of `TaskStatus` for the owner -/

/-- C22.  For a task that is found and belongs to the requesting user: with status
Success and a result that decodes, the body holds the status, the origin image, the
resource URL list and the validity window (and the width and the height when they
are positive); with status Failed and a result that decodes, the body holds the
status and the error-string list; with any other status the body holds the status
only. -/
theorem taskStatus_owner (env : TaskStatusEnv) (task : QueueTasks) (userID : Int)
    (hfound : env.task = .found task) (howner : task.Uid = userID) :
    (∀ r, task.Status = env.QueueTaskStatusSuccess → env.unmarshalCompletion task.Result = .ok r →
        TaskStatus env userID =
          .JSON ([("status", .str task.Status), ("origin_image", .str r.OriginImage),
              ("resources", .strs r.Resources),
              ("valid_before", .str (env.formatRFC3339 r.ValidBefore))] ++
            (if r.Width > 0 then [("width", .int r.Width)] else []) ++
            (if r.Height > 0 then [("height", .int r.Height)] else [])))
      ∧ (∀ r, task.Status ≠ env.QueueTaskStatusSuccess →
          task.Status = env.QueueTaskStatusFailed → env.unmarshalError task.Result = .ok r →
          TaskStatus env userID = .JSON [("status", .str task.Status), ("errors", .strs r.Errors)])
      ∧ (task.Status ≠ env.QueueTaskStatusSuccess → task.Status ≠ env.QueueTaskStatusFailed →
          TaskStatus env userID = .JSON [("status", .str task.Status)]) := by
  refine ⟨fun r hs hr => ?_, fun r hs hf hr => ?_, fun hs hf => ?_⟩
  · simp only [TaskStatus, hfound]
    rw [if_neg (not_not.2 howner), if_pos hs, hr]
  · simp only [TaskStatus, hfound]
    rw [if_neg (not_not.2 howner), if_neg hs, if_pos hf, hr]
  · simp only [TaskStatus, hfound]
    rw [if_neg (not_not.2 howner), if_neg hs, if_neg hf]

/-- Witness for `taskStatus_owner`: user 7 reads the status of a successful task of
their own. -/
theorem taskStatus_owner_witness :
    (sampleTaskStatusEnv { TaskID := "t1", Uid := 7, Status := "success" }).task =
        .found { TaskID := "t1", Uid := 7, Status := "success" }
      ∧ TaskStatus (sampleTaskStatusEnv { TaskID := "t1", Uid := 7, Status := "success" }) 7 =
        .JSON [("status", .str "success"), ("origin_image", .str "o.png"),
          ("resources", .strs ["u1", "u2"]), ("valid_before", .str "0001-01-01T00:00:00Z")] :=
  ⟨rfl,
    (taskStatus_owner (sampleTaskStatusEnv { TaskID := "t1", Uid := 7, Status := "success" })
      { TaskID := "t1", Uid := 7, Status := "success" } 7 rfl rfl).1
      { OriginImage := "o.png", Resources := ["u1", "u2"] } rfl rfl⟩

/-! ## C29: tasks of other users -/

/-- C29.  For any two stored tasks that do not belong to the requesting user,
whatever their statuses and results, `TaskStatus` gives the same response: the
not-found error with HTTP status 404. -/
theorem taskStatus_other_user (env : TaskStatusEnv) (task1 task2 : QueueTasks) (userID : Int)
    (h1 : task1.Uid ≠ userID) (h2 : task2.Uid ≠ userID) :
    TaskStatus { env with task := .found task1 } userID =
        .JSONError (env.text env.ErrNotFound) 404
      ∧ TaskStatus { env with task := .found task1 } userID =
        TaskStatus { env with task := .found task2 } userID := by
  have e1 : TaskStatus { env with task := .found task1 } userID =
      .JSONError (env.text env.ErrNotFound) 404 := by
    simp only [TaskStatus]
    rw [if_pos h1]
  have e2 : TaskStatus { env with task := .found task2 } userID =
      .JSONError (env.text env.ErrNotFound) 404 := by
    simp only [TaskStatus]
    rw [if_pos h2]
  exact ⟨e1, e1.trans e2.symm⟩

/-- Witness for `taskStatus_other_user`: user 7 asks for a successful and for a
failed task of users 8 and 9. -/
theorem taskStatus_other_user_witness :
    ({ Uid := 8, Status := "success", Result := "r1" } : QueueTasks).Uid ≠ 7
      ∧ TaskStatus (sampleTaskStatusEnv { Uid := 8, Status := "success", Result := "r1" }) 7 =
        .JSONError "not found" 404
      ∧ TaskStatus (sampleTaskStatusEnv { Uid := 8, Status := "success", Result := "r1" }) 7 =
        TaskStatus (sampleTaskStatusEnv { Uid := 9, Status := "failed", Result := "r2" }) 7 :=
  have h := taskStatus_other_user (sampleTaskStatusEnv {})
    { Uid := 8, Status := "success", Result := "r1" }
    { Uid := 9, Status := "failed", Result := "r2" } 7 (by decide) (by decide)
  ⟨by decide, h.1, h.2⟩

/-! ## `Request.Init`: splitting the model name and trimming -/

theorem splitOn_spec (sep : Char) (cs : List Char) :
    joinWith sep (splitOn sep cs) = cs
      ∧ (sep ∉ cs → splitOn sep cs = [cs])
      ∧ (sep ∈ cs → ∃ seg next segs, splitOn sep cs = seg :: next :: segs
          ∧ joinWith sep (next :: segs) = afterFirst sep cs) := by
  induction cs with
  | nil => simp [splitOn, joinWith]
  | cons c cs ih =>
    obtain ⟨hjoin, hno, hyes⟩ := ih
    by_cases hc : c = sep
    · subst hc
      have hne : ∃ next segs, splitOn c cs = next :: segs := by
        by_cases hm : c ∈ cs
        · obtain ⟨seg, next, segs, h, -⟩ := hyes hm
          exact ⟨seg, next :: segs, h⟩
        · exact ⟨cs, [], hno hm⟩
      obtain ⟨next, segs, hs⟩ := hne
      refine ⟨?_, ?_, ?_⟩
      · rw [hs] at hjoin
        simp [splitOn, hs, joinWith, hjoin]
      · intro h
        simp at h
      · intro _
        refine ⟨[], next, segs, by simp [splitOn, hs], ?_⟩
        rw [← hs, hjoin]
        simp [afterFirst, List.dropWhile]
    · have hmem : sep ∈ c :: cs ↔ sep ∈ cs := by
        simp [List.mem_cons, Ne.symm hc]
      have haf : afterFirst sep (c :: cs) = afterFirst sep cs := by
        simp [afterFirst, List.dropWhile, hc]
      by_cases hm : sep ∈ cs
      · obtain ⟨seg, next, segs, hs, hj⟩ := hyes hm
        refine ⟨?_, ?_, ?_⟩
        · rw [hs] at hjoin
          simp only [splitOn, hc, if_false, hs, joinWith, List.cons_append, hjoin]
          rw [← hjoin]
          simp [joinWith]
        · intro h
          exact absurd (hmem.2 hm) h
        · intro _
          exact ⟨c :: seg, next, segs, by simp [splitOn, hc, hs], by rw [hj, haf]⟩
      · have hs := hno hm
        refine ⟨?_, ?_, ?_⟩
        · simp [splitOn, hc, hs, joinWith]
        · intro _
          simp [splitOn, hc, hs]
        · intro h
          exact absurd (hmem.1 h) hm

theorem trimSpace_eq_empty_iff (s : String) : TrimSpace s = "" ↔ isBlank s = true := by
  have hmk : ∀ l : List Char, String.mk l = "" ↔ l = [] := by
    intro l
    constructor
    · intro h
      have h2 : (String.mk l).data = ("" : String).data := by rw [h]
      simpa using h2
    · intro h
      rw [h]
  simp only [TrimSpace, isBlank, hmk, List.reverse_eq_nil_iff, List.all_eq_true]
  constructor
  · intro h
    rw [List.dropWhile_eq_nil_iff] at h
    have hall : ∀ x ∈ s.toList.dropWhile isSpace, isSpace x = true := by
      intro x hx
      exact h x (List.mem_reverse.2 hx)
    rcases hd : s.toList.dropWhile isSpace with _ | ⟨y, ys⟩
    · exact List.dropWhile_eq_nil_iff.1 hd
    · have hy : isSpace y = true := hall y (by rw [hd]; simp)
      have hny := List.head_dropWhile_not isSpace s.toList (by rw [hd]; simp)
      simp only [hd, List.head_cons] at hny
      rw [hy] at hny
      exact absurd hny (by simp)
  · intro h
    have hd : s.toList.dropWhile isSpace = [] := List.dropWhile_eq_nil_iff.2 h
    rw [hd]
    rfl

/-! ## C26: `Request.Init` -/

/-- C26.  `Request.Init` (a) replaces the model name by the text after its first
':' when it contains one and leaves it unchanged otherwise, (b) sets `RoomID` to the
former `N` and `N` to 0, (c) keeps, in order, exactly the messages whose content is
not blank (not made of white space only), except that (d) when the new model name
is the Gemini Pro Vision model and more than one message remains, only the last of
them is kept; the other fields are unchanged. -/
theorem request_init (geminiProVision : String) (req : Request) :
    (':' ∈ req.Model.toList →
        (Request.Init geminiProVision req).Model = String.mk (afterFirst ':' req.Model.toList))
      ∧ (':' ∉ req.Model.toList → (Request.Init geminiProVision req).Model = req.Model)
      ∧ (Request.Init geminiProVision req).RoomID = req.N
      ∧ (Request.Init geminiProVision req).N = 0
      ∧ (¬ ((Request.Init geminiProVision req).Model = geminiProVision
            ∧ (req.Messages.filter fun m => !isBlank m.Content).length > 1) →
          (Request.Init geminiProVision req).Messages =
            req.Messages.filter fun m => !isBlank m.Content)
      ∧ ((Request.Init geminiProVision req).Model = geminiProVision →
          (req.Messages.filter fun m => !isBlank m.Content).length > 1 →
          ∃ last, (req.Messages.filter fun m => !isBlank m.Content).getLast? = some last
            ∧ (Request.Init geminiProVision req).Messages = [last])
      ∧ (Request.Init geminiProVision req).Stream = req.Stream
      ∧ (Request.Init geminiProVision req).MaxTokens = req.MaxTokens
      ∧ (Request.Init geminiProVision req).WebSocket = req.WebSocket := by
  have hfilter : (req.Messages.filter fun item => TrimSpace item.Content ≠ "") =
      req.Messages.filter fun m => !isBlank m.Content := by
    apply List.filter_congr
    intro m _
    by_cases hb : isBlank m.Content = true
    · simp [hb, (trimSpace_eq_empty_iff m.Content).2 hb]
    · have : ¬ TrimSpace m.Content = "" := fun h => hb ((trimSpace_eq_empty_iff _).1 h)
      simp [hb, this]
  obtain ⟨hjoin, hno, hyes⟩ := splitOn_spec ':' req.Model.toList
  have hmodel1 : ':' ∈ req.Model.toList →
      (Request.Init geminiProVision req).Model = String.mk (afterFirst ':' req.Model.toList) := by
    intro h
    obtain ⟨seg, next, segs, hs, hj⟩ := hyes h
    simp only [Request.Init, hs]
    simp [hj]
  have hmodel2 : ':' ∉ req.Model.toList → (Request.Init geminiProVision req).Model = req.Model := by
    intro h
    simp only [Request.Init, hno h]
    simp [joinWith]
  refine ⟨hmodel1, hmodel2, rfl, rfl, ?_, ?_, rfl, rfl, rfl⟩
  · intro hcond
    have hm : (Request.Init geminiProVision req).Messages =
        if (Request.Init geminiProVision req).Model = geminiProVision ∧
            (req.Messages.filter fun m => !isBlank m.Content).length > 1
        then (req.Messages.filter fun m => !isBlank m.Content).drop
          ((req.Messages.filter fun m => !isBlank m.Content).length - 1)
        else req.Messages.filter fun m => !isBlank m.Content := by
      rw [← hfilter]
      rfl
    rw [hm, if_neg hcond]
  · intro hg hlen
    have hm : (Request.Init geminiProVision req).Messages =
        if (Request.Init geminiProVision req).Model = geminiProVision ∧
            (req.Messages.filter fun m => !isBlank m.Content).length > 1
        then (req.Messages.filter fun m => !isBlank m.Content).drop
          ((req.Messages.filter fun m => !isBlank m.Content).length - 1)
        else req.Messages.filter fun m => !isBlank m.Content := by
      rw [← hfilter]
      rfl
    rw [hm, if_pos ⟨hg, hlen⟩]
    generalize (req.Messages.filter fun m => !isBlank m.Content) = kept at hlen ⊢
    have hne : kept ≠ [] := by
      intro h0
      rw [h0] at hlen
      simp at hlen
    obtain ⟨init, last, hk⟩ : ∃ init last, kept = init ++ [last] :=
      ⟨kept.dropLast, kept.getLast hne, (List.dropLast_append_getLast hne).symm⟩
    refine ⟨last, by rw [hk, List.getLast?_concat], ?_⟩
    rw [hk]
    simp

/-- Witness of `request_init` on a request with a vendor prefix, a room id and
blank messages. -/
theorem request_init_witness :
    ':' ∈ sampleRequest.Model.toList
      ∧ (Request.Init "gemini-pro-vision" sampleRequest).Model = "gpt-4:32k"
      ∧ (Request.Init "gemini-pro-vision" sampleRequest).RoomID = 12
      ∧ (Request.Init "gemini-pro-vision" sampleRequest).N = 0
      ∧ (Request.Init "gemini-pro-vision" sampleRequest).Messages =
          [⟨"system", "be brief", []⟩, ⟨"user", "hello", []⟩] :=
  ⟨by decide,
   ((request_init "gemini-pro-vision" sampleRequest).1 (by decide)).trans (by decide),
   (request_init "gemini-pro-vision" sampleRequest).2.2.1,
   (request_init "gemini-pro-vision" sampleRequest).2.2.2.1,
   ((request_init "gemini-pro-vision" sampleRequest).2.2.2.2.1 (by decide)).trans (by decide)⟩

/-! ## C21: `Request.Fix` -/

/-- The budget computed by `Request.Fix` (lines 168-172) is the minimum of the
requested token count and the context length of the model less the tokens of the
system messages. -/
theorem fix_budget (limit maxTokenCount : Int) :
    (if limit < maxTokenCount then limit else maxTokenCount) = min maxTokenCount limit := by
  by_cases h : limit < maxTokenCount
  · rw [if_pos h, min_eq_right (le_of_lt h)]
  · rw [if_neg h, min_eq_left (not_lt.1 h)]

/-- The detail levels are only defaulted on images: the parts stay as they are. -/
theorem defaultDetail_parts (heap : Heap) (addrs : List Nat) :
    (heap.defaultDetail addrs).parts = heap.parts := rfl

theorem defaultDetail_nil (heap : Heap) : heap.defaultDetail [] = heap := by
  ext a <;> simp [Heap.defaultDetail]

/-- Defaulting the detail levels at two lists of addresses, one after the other, is
defaulting them at all these addresses. -/
theorem defaultDetail_append (heap : Heap) (xs ys : List Nat) :
    (heap.defaultDetail xs).defaultDetail ys = heap.defaultDetail (xs ++ ys) := by
  apply Heap.ext
  · rfl
  · funext a
    by_cases hc : (heap.images a).URL ≠ "" ∧ (heap.images a).Detail = ""
    · by_cases hx : a ∈ xs
      · simp [Heap.defaultDetail, hc, hx]
      · by_cases hy : a ∈ ys <;> simp [Heap.defaultDetail, hc, hx, hy]
    · by_cases hx : a ∈ xs <;> by_cases hy : a ∈ ys <;>
        simp [Heap.defaultDetail, hc, hx, hy]

theorem partImages_defaultDetail (heap : Heap) (addrs : List Nat) (parts : List (Option Nat)) :
    partImages (heap.defaultDetail addrs) parts = partImages heap parts := rfl

theorem partImages_cons (heap : Heap) (part : Option Nat) (parts : List (Option Nat)) :
    partImages heap (part :: parts) = partImages heap [part] ++ partImages heap parts := by
  unfold partImages
  rw [← List.filterMap_append]
  rfl

/-- The function mapped over the parts, on a pointer that is not nil. -/
theorem lowDetailPart_some (heap : Heap) (p : Nat) :
    lowDetailPart heap (some p) = (heap.defaultDetail (partImages heap [some p]), .ret (some p)) := by
  rcases himg : (heap.parts p).ImageURL with _ | a
  · have hl : partImages heap [some p] = [] := by simp [partImages, himg]
    rw [hl, defaultDetail_nil]
    simp only [lowDetailPart, himg]
  · have hl : partImages heap [some p] = [a] := by simp [partImages, himg]
    rw [hl]
    by_cases hc : (heap.images a).URL ≠ "" ∧ (heap.images a).Detail = ""
    · have hh : heap.setDetail a "low" = heap.defaultDetail [a] := by
        apply Heap.ext
        · rfl
        · funext b
          by_cases hb : b = a
          · subst hb
            simp [Heap.setDetail, Heap.defaultDetail, hc]
          · simp [Heap.setDetail, Heap.defaultDetail, hb]
      simp only [lowDetailPart, himg]
      rw [if_pos hc, hh]
    · have hh : heap = heap.defaultDetail [a] := by
        apply Heap.ext
        · rfl
        · funext b
          by_cases hb : b = a
          · subst hb
            simp [Heap.defaultDetail, hc]
          · simp [Heap.defaultDetail, hb]
      simp only [lowDetailPart, himg]
      rw [if_neg hc]
      exact congrArg (fun h => (h, Res.ret (some p))) hh

/-- Over parts none of which is nil, the map returns the same pointers and defaults
the detail level of their images. -/
theorem lowDetailParts_ok (parts : List (Option Nat)) :
    ∀ heap : Heap, (∀ part ∈ parts, part ≠ none) →
      lowDetailParts heap parts = (heap.defaultDetail (partImages heap parts), .ret parts) := by
  induction parts with
  | nil =>
    intro heap _
    simp [lowDetailParts, partImages, defaultDetail_nil]
  | cons part rest ih =>
    intro heap h
    rcases part with _ | p
    · exact absurd rfl (h none (List.mem_cons_self _ _))
    · rw [lowDetailParts, lowDetailPart_some]
      simp only []
      rw [ih _ fun x hx => h x (List.mem_cons_of_mem _ hx)]
      simp only []
      rw [partImages_defaultDetail, defaultDetail_append, ← partImages_cons]

/-- Over parts one of which is nil, the map panics. -/
theorem lowDetailParts_nil (parts : List (Option Nat)) :
    ∀ heap : Heap, none ∈ parts → (lowDetailParts heap parts).2 = .panic nilDereference := by
  induction parts with
  | nil =>
    intro heap h
    exact absurd h (List.not_mem_nil _)
  | cons part rest ih =>
    intro heap h
    rcases part with _ | p
    · rfl
    · have hrest : none ∈ rest := by
        rcases List.mem_cons.1 h with h1 | h1
        · cases h1
        · exact h1
      rw [lowDetailParts, lowDetailPart_some]
      simp only []
      have := ih (heap.defaultDetail (partImages heap [some p])) hrest
      rcases hr : lowDetailParts (heap.defaultDetail (partImages heap [some p])) rest with ⟨h2, r⟩
      rw [hr] at this
      simp only at this
      subst this
      rfl

theorem messageImages_cons (heap : Heap) (m : Message) (ms : List Message) :
    messageImages heap (m :: ms) = partImages heap m.MultipartContents ++ messageImages heap ms := by
  simp [messageImages]

theorem messageImages_defaultDetail (heap : Heap) (addrs : List Nat) (ms : List Message) :
    messageImages (heap.defaultDetail addrs) ms = messageImages heap ms := rfl

theorem lowDetail_ok (heap : Heap) (item : Message)
    (h : ∀ part ∈ item.MultipartContents, part ≠ none) :
    lowDetail heap item =
      (heap.defaultDetail (partImages heap item.MultipartContents), .ret item) := by
  unfold lowDetail
  by_cases hlen : item.MultipartContents.length > 0
  · rw [if_pos hlen, lowDetailParts_ok _ heap h]
  · rw [if_neg hlen]
    have h0 : item.MultipartContents = [] := by
      cases hc : item.MultipartContents with
      | nil => rfl
      | cons a l => rw [hc] at hlen; simp at hlen
    rw [h0]
    simp [partImages, defaultDetail_nil]

theorem lowDetail_nil (heap : Heap) (item : Message) (h : none ∈ item.MultipartContents) :
    (lowDetail heap item).2 = .panic nilDereference := by
  unfold lowDetail
  have hlen : item.MultipartContents.length > 0 := List.length_pos_of_mem h
  rw [if_pos hlen]
  have := lowDetailParts_nil _ heap h
  rcases hr : lowDetailParts heap item.MultipartContents with ⟨h2, r⟩
  rw [hr] at this
  simp only at this
  subst this
  rfl

/-- Over messages none of whose parts is nil, the map returns the messages as they
are and defaults the detail level of their images. -/
theorem lowDetailMessages_ok (ms : List Message) :
    ∀ heap : Heap, (∀ m ∈ ms, ∀ part ∈ m.MultipartContents, part ≠ none) →
      lowDetailMessages heap ms = (heap.defaultDetail (messageImages heap ms), .ret ms) := by
  induction ms with
  | nil =>
    intro heap _
    simp [lowDetailMessages, messageImages, defaultDetail_nil]
  | cons m rest ih =>
    intro heap h
    rw [lowDetailMessages, lowDetail_ok heap m (h m (List.mem_cons_self _ _))]
    simp only []
    rw [ih _ fun x hx => h x (List.mem_cons_of_mem _ hx)]
    simp only []
    rw [messageImages_defaultDetail, defaultDetail_append, ← messageImages_cons]

/-- Over messages one of whose parts is nil, the map panics. -/
theorem lowDetailMessages_nil (ms : List Message) :
    ∀ heap : Heap, (∃ m ∈ ms, none ∈ m.MultipartContents) →
      (lowDetailMessages heap ms).2 = .panic nilDereference := by
  induction ms with
  | nil =>
    rintro heap ⟨m, hm, _⟩
    exact absurd hm (List.not_mem_nil _)
  | cons m rest ih =>
    rintro heap ⟨x, hx, hnil⟩
    by_cases hm : none ∈ m.MultipartContents
    · rw [lowDetailMessages]
      have := lowDetail_nil heap m hm
      rcases hr : lowDetail heap m with ⟨h2, r⟩
      rw [hr] at this
      simp only at this
      subst this
      rfl
    · have hrest : ∃ y ∈ rest, none ∈ y.MultipartContents := by
        rcases List.mem_cons.1 hx with h1 | h1
        · subst h1
          exact absurd hnil hm
        · exact ⟨x, h1, hnil⟩
      rw [lowDetailMessages, lowDetail_ok heap m fun part hp hn => hm (hn ▸ hp)]
      simp only []
      have := ih (heap.defaultDetail (partImages heap m.MultipartContents)) hrest
      rcases hr : lowDetailMessages (heap.defaultDetail (partImages heap m.MultipartContents)) rest
        with ⟨h2, r⟩
      rw [hr] at this
      simp only at this
      subst this
      rfl

/-- C21 fails as stated.  On a request whose user message holds a nil part after an
image part, the reducer returns the message, so `Request.Fix` does not fail; it does
not return a request either: reading `part.ImageURL` through the nil pointer panics,
after the detail level of the image of the first part has been set. -/
theorem fix_panics_on_nil_part :
    sampleFixEnv.reduceMessageContext sampleHeap
        (sampleFixEnv.reduceMessageContextUpToContextWindow sampleHeap
          (sampleNilPartRequest.Messages.filter fun item => item.Role ≠ "system") 5)
        sampleNilPartRequest.Model
        (min 200 (sampleFixEnv.maxContextLength sampleNilPartRequest.Model
          - sampleFixEnv.messageTokenCount sampleHeap
              (sampleNilPartRequest.Messages.filter fun item => item.Role = "system")
              sampleNilPartRequest.Model))
      = .ok ([⟨"user", "what is this?", [some 0, none]⟩], 1)
    ∧ (Request.Fix sampleFixEnv sampleHeap sampleNilPartRequest 5 200).2
      = .panic (.error ⟨"runtime error: invalid memory address or nil pointer dereference"⟩)
    ∧ (Request.Fix sampleFixEnv sampleHeap sampleNilPartRequest 5 200).1.images 0
      = ⟨"https://x/1.png", "low"⟩ :=
  ⟨rfl, by decide, by decide⟩

/-- C21, amended.  `Request.Fix` fails exactly when the context reducer fails on
the non-system messages with the token budget min(maxTokenCount,
MaxContextLength(model) - system-message tokens): it then returns a nil request, a
zero token count and an error, and leaves the heap as it is.  Otherwise, when no
part pointer of the system messages and of the output of the reducer is nil, it
returns, with a nil error and the token count of the reducer, the request whose
messages are the system messages of the input in order followed by the output of the
reducer, with the same part pointers, and it leaves the heap in which every image of
these messages that has a URL and no detail level has the detail level "low" and
nothing else is changed; when one of these part pointers is nil, it panics with a
nil-pointer dereference. -/
theorem request_fix (env : FixEnv) (heap : Heap) (req : Request)
    (maxContextLength maxTokenCount : Int) :
    (∀ e, env.reduceMessageContext heap
          (env.reduceMessageContextUpToContextWindow heap
            (req.Messages.filter fun item => item.Role ≠ "system") maxContextLength)
          req.Model
          (min maxTokenCount (env.maxContextLength req.Model
            - env.messageTokenCount heap (req.Messages.filter fun item => item.Role = "system")
                req.Model)) = .error e →
        Request.Fix env heap req maxContextLength maxTokenCount =
          (heap,
            .ret (none, 0,
              some ⟨"超过模型最大允许的上下文长度限制，请尝试“新对话”或缩短输入内容长度"⟩)))
      ∧ (∀ ms n, env.reduceMessageContext heap
          (env.reduceMessageContextUpToContextWindow heap
            (req.Messages.filter fun item => item.Role ≠ "system") maxContextLength)
          req.Model
          (min maxTokenCount (env.maxContextLength req.Model
            - env.messageTokenCount heap (req.Messages.filter fun item => item.Role = "system")
                req.Model)) = .ok (ms, n) →
        ((∀ m ∈ (req.Messages.filter fun item => item.Role = "system") ++ ms,
            ∀ part ∈ m.MultipartContents, part ≠ none) →
          Request.Fix env heap req maxContextLength maxTokenCount =
            (heap.defaultDetail
                (messageImages heap ((req.Messages.filter fun item => item.Role = "system") ++ ms)),
              .ret (some { req with
                      Messages := (req.Messages.filter fun item => item.Role = "system") ++ ms },
                    n, none)))
        ∧ ((∃ m ∈ (req.Messages.filter fun item => item.Role = "system") ++ ms,
              none ∈ m.MultipartContents) →
          (Request.Fix env heap req maxContextLength maxTokenCount).2
            = .panic (.error
                ⟨"runtime error: invalid memory address or nil pointer dereference"⟩))) := by
  refine ⟨?_, ?_⟩
  · intro e h
    rw [← fix_budget] at h
    simp only [Request.Fix, h]
  · intro ms n h
    rw [← fix_budget] at h
    refine ⟨fun hparts => ?_, fun hnil => ?_⟩
    · simp only [Request.Fix, h, lowDetailMessages_ok _ heap hparts]
    · have hp := lowDetailMessages_nil _ heap hnil
      simp only [Request.Fix, h]
      rcases hr : lowDetailMessages heap
        ((req.Messages.filter fun item => item.Role = "system") ++ ms) with ⟨h2, r⟩
      rw [hr] at hp
      simp only at hp
      subst hp
      rfl

/-- Witness of `request_fix`: the sample reducer succeeds on the request with the
image part; the request returned holds the messages of the input, and the image at
address 0 has the detail level "low". -/
theorem request_fix_witness :
    (Request.Fix sampleFixEnv sampleHeap sampleImageRequest 5 200).2
        = .ret (some sampleImageRequest, 1, none)
      ∧ (Request.Fix sampleFixEnv sampleHeap sampleImageRequest 5 200).1.images 0
        = ⟨"https://x/1.png", "low"⟩
      ∧ (Request.Fix sampleFixEnv sampleHeap sampleImageRequest 5 200).1.images 1
        = sampleHeap.images 1 :=
  have h := ((request_fix sampleFixEnv sampleHeap sampleImageRequest 5 200).2
    [⟨"user", "what is this?", [some 0]⟩] 1 rfl).1 (by decide)
  ⟨by rw [h]; decide, by rw [h]; decide, by rw [h]; decide⟩

/-! ## C25: release of the frozen coins in the group-chat handler -/

/-- The body of the group-chat handler never releases frozen coins. -/
theorem groupChatBody_never_unfreezes (env : GroupChatEnv) (payload : GroupChatPayload) :
    countCalls Call.isUnfreeze (groupChatBody env payload).trace = 0 := by
  unfold groupChatBody
  rcases hfix : env.fix ⟨payload.ModelID, payload.ContextMessages⟩ with req | e | v
  · rcases hchat : env.chat with resp | e | v
    · by_cases hcode : resp.ErrorCode = ""
      · rcases hupd : env.updateChatMessageSucceed with _ | e
        · by_cases hcost : (if env.freeChatRequestCounts > 0 then (0 : Int)
              else env.getOpenAITextCoins (ResolveCalFeeModel req env.nanxianRel env.beichouRel)
                (resp.InputTokens + resp.OutputTokens)) > 0 <;>
            simp [Run.after, groupChatSettle, countCalls, Call.isUnfreeze, hcode, hupd, hcost,
              List.filter_cons]
        · simp [Run.after, groupChatSettle, countCalls, Call.isUnfreeze, hcode, hupd,
            List.filter_cons]
      · simp [countCalls, Call.isUnfreeze, hcode, List.filter_cons]
    · simp [countCalls, Call.isUnfreeze, List.filter_cons]
    · simp [countCalls, Call.isUnfreeze, List.filter_cons]
  · simp [countCalls]
  · simp [countCalls]

/-- Once the deferred function of the group-chat handler runs to its end, that is
in every run on a task that has not expired in which no panic with a value other
than an error is raised, the frozen coins are released exactly once when
`FreezedCoins > 0` and not at all otherwise. -/
theorem groupChat_release_when_deferred_runs (env : GroupChatEnv) (raw : String)
    (payload : GroupChatPayload) (hdec : env.unmarshal raw = .ok payload)
    (hlive : expired payload.CreatedAt (15 * Minute) env.now = false)
    (hcaught : ∀ s, (groupChatBody env payload).out ≠ .panic (.str s)) :
    countCalls Call.isUnfreeze (BuildGroupChatHandler env raw).trace
      = (if payload.FreezedCoins > 0 then 1 else 0) := by
  unfold BuildGroupChatHandler
  simp only [hdec, hlive, Bool.false_eq_true, ↓reduceIte, Run.after_trace, countCalls_append,
    groupChatBody_never_unfreezes, Nat.zero_add]
  rcases hout : (groupChatBody env payload).out with r | v
  · rcases r with _ | err <;> by_cases hfree : payload.FreezedCoins > 0 <;>
      simp [groupChatDeferred, groupChatFailed, groupChatRelease, countCalls, Call.isUnfreeze,
        hfree, List.filter_cons]
  · rcases v with e | s
    · by_cases hfree : payload.FreezedCoins > 0 <;>
        simp [groupChatDeferred, groupChatFailed, groupChatRelease, countCalls, Call.isUnfreeze,
          hfree, assertError, List.filter_cons]
    · exact absurd hout (hcaught s)

/-- C25 at two runs on a payload with 5 frozen coins.  A task picked up 16 minutes
after its creation is dropped by the expiry check, which precedes the `defer`
statement: the handler returns nil without any call, so the coins stay frozen.  A
run in which the chat client panics with the string "boom" ends in the type
assertion of the deferred function, before the unfreeze step. -/
theorem groupChat_frozen_coins_not_released :
    sampleGroupChatPayload.FreezedCoins = 5
      ∧ BuildGroupChatHandler (sampleGroupChatEnvLate sampleGroupChatPayload) "raw"
          = ⟨[], .ret none⟩
      ∧ countCalls Call.isUnfreeze
          (BuildGroupChatHandler (sampleGroupChatEnvLate sampleGroupChatPayload) "raw").trace = 0
      ∧ countCalls Call.isUnfreeze
          (BuildGroupChatHandler (sampleGroupChatEnvChatPanics sampleGroupChatPayload) "raw").trace
          = 0 := by
  decide

/-! ## Creative-island submissions: lemmas -/

@[simp]
theorem countWebCalls_nil (p : WebCall → Bool) : countWebCalls p [] = 0 := rfl

@[simp]
theorem countWebCalls_cons (p : WebCall → Bool) (x : WebEffect) (t : List WebEffect) :
    countWebCalls p (x :: t) = (if p x.call then 1 else 0) + countWebCalls p t := by
  unfold countWebCalls
  by_cases h : p x.call = true
  · simp [List.filter_cons, h, Nat.add_comm]
  · simp [List.filter_cons, h]

@[simp]
theorem countWebCalls_append (p : WebCall → Bool) (s t : List WebEffect) :
    countWebCalls p (s ++ t) = countWebCalls p s + countWebCalls p t := by
  simp [countWebCalls, List.filter_append]

@[simp]
theorem WebRun.trace_after (pre : List WebEffect) (r : WebRun) :
    (WebRun.after pre r).trace = pre ++ r.trace := rfl

@[simp]
theorem WebRun.response_after (pre : List WebEffect) (r : WebRun) :
    (WebRun.after pre r).response = r.response := rfl

/-- The calls made while the request of `Completions` is resolved are reads of the
filters and of the models. -/
theorem resolve_trace_reads (env : CreativeIslandEnv) (webCtx : WebContext) (userID : Int) :
    ∀ x ∈ (resolveImageCompletionRequest env webCtx userID).1,
      x.call.isEnqueue = false ∧ x.call.isFreeze = false := by
  unfold resolveImageCompletionRequest
  simp only []
  split_ifs
  all_goals first
    | (simp; done)
    | (split
       · simp [filtersCall, WebCall.isEnqueue, WebCall.isFreeze]
       · split <;> simp [filtersCall, modelsCall, WebCall.isEnqueue, WebCall.isFreeze])

/-- The payload built by `resolveDimensions` keeps the user and the number of images
of the fields it is given, is for the model of the vendor model, and its quota is
the price of an image of that model times the number of images. -/
theorem resolveDimensions_ok (env : CreativeIslandEnv) (webCtx : WebContext)
    (fields : ImageCompletionPayload) (filterID : Int) (filterName defaultFilterMode : String)
    (vendorModel : VendorModel) :
    ∀ req, resolveDimensions env webCtx fields filterID filterName defaultFilterMode vendorModel
        = .ok req →
      req.UID = fields.UID ∧ req.ImageCount = fields.ImageCount
        ∧ req.Model = vendorModel.Model
        ∧ req.Quota = env.GetUnifiedImageGenCoins vendorModel.Model * fields.ImageCount := by
  unfold resolveDimensions
  simp only []
  split_ifs
  all_goals intro req h
  all_goals cases h
  all_goals exact ⟨rfl, rfl, rfl, rfl⟩

/-- A payload resolved by `resolveImageCompletionRequest` is for the requesting
user, asks for 1 to 4 images, and its quota is the price of an image of its model
times the number of images. -/
theorem resolve_ok_quota (env : CreativeIslandEnv) (webCtx : WebContext) (userID : Int) :
    ∀ req, (resolveImageCompletionRequest env webCtx userID).2 = .ok req →
      req.UID = userID ∧ 1 ≤ req.ImageCount ∧ req.ImageCount ≤ 4
        ∧ req.Quota = env.GetUnifiedImageGenCoins req.Model * req.ImageCount := by
  unfold resolveImageCompletionRequest
  simp only []
  split_ifs with h1 h2 h3 h4
  all_goals intro req
  all_goals first
    | (intro h
       cases h)
    | (split
       · intro h
         cases h
       · split
         · intro h
           cases h
         · intro h
           obtain ⟨hu, hc, hm, hq⟩ := resolveDimensions_ok _ _ _ _ _ _ _ req h
           simp only at hu hc
           rw [hm, hc]
           refine ⟨hu, ?_, ?_, hq⟩ <;> omega)

/-- A run of the closing steps that answers with a JSON body has enqueued the
payload and then frozen the quota, and has made no other such call. -/
theorem submitTask_shape (env : CreativeIslandEnv) (userID : Int) (payload : Payload)
    (taskBuilder : String) (quota : Int) (record : String → CreativeItem × CreativeRecordArguments)
    (wait : Int) (body : List (String × JSONValue))
    (hok : (submitTask env userID payload taskBuilder quota record wait).response = .JSON body) :
    ∃ result post,
      (submitTask env userID payload taskBuilder quota record wait).trace =
          ⟨.Enqueue payload taskBuilder, .ok⟩ :: ⟨.FreezeUserQuota userID quota, result⟩ :: post
        ∧ ∀ x ∈ post, x.call.isEnqueue = false ∧ x.call.isFreeze = false := by
  revert hok
  unfold submitTask
  rcases henq : env.enqueue with e | taskID
  · intro hok
    cases hok
  · rcases hrec : env.createRecordWithArguments with _ | e
    · intro _
      exact ⟨_, _, rfl, by simp [WebCall.isEnqueue, WebCall.isFreeze]⟩
    · intro hok
      cases hok

/-- A run of the submission shape that answers with a JSON body has made exactly
one `Enqueue` call, which succeeded, and exactly one `FreezeUserQuota` call, right
after it and for the quota of the enqueued payload. -/
theorem after_submitTask_shape (env : CreativeIslandEnv) (userID : Int) (run : WebRun)
    (hshape : SubmissionShape env userID run) (hok : ∃ body, run.response = .JSON body) :
    ∃ pre payload taskBuilder result post,
      run.trace = pre ++ ⟨.Enqueue payload taskBuilder, .ok⟩
          :: ⟨.FreezeUserQuota userID payload.GetQuota, result⟩ :: post
        ∧ ∀ x ∈ pre ++ post, x.call.isEnqueue = false ∧ x.call.isFreeze = false := by
  obtain ⟨body, hok⟩ := hok
  rcases hshape with ⟨pre, msg, status, rfl⟩ | ⟨pre, payload, taskBuilder, record, wait, rfl, hpre⟩
  · cases hok
  · obtain ⟨result, post, ht, hpost⟩ := submitTask_shape env userID payload taskBuilder _ record
      wait body hok
    refine ⟨pre, payload, taskBuilder, result, post, ?_, ?_⟩
    · rw [WebRun.trace_after, ht]
    · intro x hx
      rcases List.mem_append.1 hx with h | h
      · exact hpre x h
      · exact hpost x h

/-- An error response has the submission shape. -/
theorem shape_error (env : CreativeIslandEnv) (userID : Int) (pre : List WebEffect)
    (msg : String) (status : Nat) :
    SubmissionShape env userID ⟨pre, .JSONError msg status⟩ :=
  Or.inl ⟨pre, msg, status, rfl⟩

/-- A conditional between two runs of the submission shape has that shape. -/
theorem shape_ite (env : CreativeIslandEnv) (userID : Int) (cond : Prop) [Decidable cond]
    (a b : WebRun) (ha : SubmissionShape env userID a) (hb : SubmissionShape env userID b) :
    SubmissionShape env userID (if cond then a else b) := by
  by_cases h : cond
  · rw [if_pos h]
    exact ha
  · rw [if_neg h]
    exact hb

/-- The closing steps after calls that neither enqueue nor freeze have the
submission shape. -/
theorem shape_submit (env : CreativeIslandEnv) (userID : Int) (pre : List WebEffect)
    (payload : Payload) (taskBuilder : String)
    (record : String → CreativeItem × CreativeRecordArguments) (wait : Int)
    (hpre : ∀ x ∈ pre, x.call.isEnqueue = false ∧ x.call.isFreeze = false) :
    SubmissionShape env userID
      (WebRun.after pre (submitTask env userID payload taskBuilder payload.GetQuota record wait)) :=
  Or.inr ⟨pre, payload, taskBuilder, record, wait, rfl, hpre⟩

/-- Every run of `ImageUpscale` has the submission shape. -/
theorem imageUpscale_shape (env : CreativeIslandEnv) (webCtx : WebContext) (userID : Int) :
    SubmissionShape env userID (ImageUpscale env webCtx userID) := by
  unfold ImageUpscale
  rcases env.userQuota with e | quota <;> dsimp only
  all_goals repeat' first
    | apply shape_error
    | apply shape_ite
    | (apply shape_submit
       simp [WebCall.isEnqueue, WebCall.isFreeze])

/-- Every run of `ImageColorize` has the submission shape. -/
theorem imageColorize_shape (env : CreativeIslandEnv) (webCtx : WebContext) (userID : Int) :
    SubmissionShape env userID (ImageColorize env webCtx userID) := by
  unfold ImageColorize
  rcases env.userQuota with e | quota <;> dsimp only
  all_goals repeat' first
    | apply shape_error
    | apply shape_ite
    | (apply shape_submit
       simp [WebCall.isEnqueue, WebCall.isFreeze])

/-- Every run of `ImageToVideo` has the submission shape. -/
theorem imageToVideo_shape (env : CreativeIslandEnv) (webCtx : WebContext) (userID : Int) :
    SubmissionShape env userID (ImageToVideo env webCtx userID) := by
  unfold ImageToVideo
  rcases env.userQuota with e | quota <;> dsimp only
  all_goals repeat' first
    | apply shape_error
    | apply shape_ite
    | (apply shape_submit
       simp [WebCall.isEnqueue, WebCall.isFreeze])

/-- Every run of `ArtisticText` has the submission shape. -/
theorem artisticText_shape (c : Consts) (env : CreativeIslandEnv) (webCtx : WebContext)
    (userID : Int) :
    SubmissionShape env userID (ArtisticText c env webCtx userID) := by
  unfold ArtisticText
  rcases env.userQuota with e | quota <;> dsimp only
  all_goals repeat' first
    | apply shape_error
    | apply shape_ite
    | (apply shape_submit
       simp [WebCall.isEnqueue, WebCall.isFreeze])

/-- Every run of the quota check of `Completions` and what follows it has the
submission shape. -/
theorem completionsCharge_shape (env : CreativeIslandEnv) (userID : Int)
    (req : ImageCompletionPayload) :
    SubmissionShape env userID (completionsCharge env userID req) := by
  unfold completionsCharge
  rcases env.userQuota with e | quota <;> rcases env.promptDetect with _ | ⟨_ | _, detail⟩ <;>
    dsimp only
  all_goals repeat' first
    | apply shape_error
    | apply shape_ite
    | (apply shape_submit
       simp [WebCall.isEnqueue, WebCall.isFreeze])

/-- Every run of `Completions` on a resolved payload has the submission shape. -/
theorem completionsSubmit_shape (env : CreativeIslandEnv) (userID : Int)
    (req : ImageCompletionPayload) :
    SubmissionShape env userID (completionsSubmit env userID req) := by
  unfold completionsSubmit
  apply shape_ite
  · apply shape_error
  · apply completionsCharge_shape

/-- An error response of `resolveDimensions` is a `JSONError`. -/
theorem resolveDimensions_error (env : CreativeIslandEnv) (webCtx : WebContext)
    (fields : ImageCompletionPayload) (filterID : Int) (filterName defaultFilterMode : String)
    (vendorModel : VendorModel) :
    ∀ errResp,
      resolveDimensions env webCtx fields filterID filterName defaultFilterMode vendorModel
        = .error errResp →
      ∃ msg status, errResp = .JSONError msg status := by
  unfold resolveDimensions
  simp only []
  split_ifs
  all_goals intro errResp h
  all_goals cases h
  all_goals exact ⟨_, _, rfl⟩

/-- An error response of `resolveImageCompletionRequest` is a `JSONError`. -/
theorem resolve_error (env : CreativeIslandEnv) (webCtx : WebContext) (userID : Int) :
    ∀ errResp, (resolveImageCompletionRequest env webCtx userID).2 = .error errResp →
      ∃ msg status, errResp = .JSONError msg status := by
  unfold resolveImageCompletionRequest
  simp only []
  split_ifs
  all_goals intro errResp
  all_goals first
    | (intro h
       cases h
       exact ⟨_, _, rfl⟩)
    | (split
       · intro h
         cases h
         exact ⟨_, _, rfl⟩
       · split
         · intro h
           cases h
           exact ⟨_, _, rfl⟩
         · intro h
           exact resolveDimensions_error _ _ _ _ _ _ _ errResp h)

/-- Every run of `Completions` has the submission shape. -/
theorem completions_shape (env : CreativeIslandEnv) (webCtx : WebContext) (userID : Int) :
    SubmissionShape env userID (Completions env webCtx userID) := by
  unfold Completions
  rcases hres : (resolveImageCompletionRequest env webCtx userID).2 with errResp | req
  · obtain ⟨msg, status, rfl⟩ := resolve_error env webCtx userID errResp hres
    simp only [hres]
    exact Or.inl ⟨_, msg, status, rfl⟩
  · simp only [hres]
    rcases completionsSubmit_shape env userID req with
      ⟨pre, msg, status, h⟩ | ⟨pre, payload, taskBuilder, record, wait, h, hpre⟩
    · rw [h]
      exact Or.inl ⟨_, msg, status, rfl⟩
    · rw [h]
      refine Or.inr ⟨(resolveImageCompletionRequest env webCtx userID).1 ++ pre, payload,
        taskBuilder, record, wait, by simp [WebRun.after], ?_⟩
      intro x hx
      rcases List.mem_append.1 hx with h1 | h1
      · exact resolve_trace_reads env webCtx userID x h1
      · exact hpre x h1

/-- A trace without a call that satisfies `p` counts none. -/
theorem countWebCalls_eq_zero (p : WebCall → Bool) (t : List WebEffect)
    (h : ∀ x ∈ t, p x.call = false) : countWebCalls p t = 0 := by
  induction t with
  | nil => rfl
  | cons x t ih =>
    rw [countWebCalls_cons, h x (List.mem_cons_self x t),
      ih fun y hy => h y (List.mem_cons_of_mem x hy)]
    rfl

/-! ## C23: order of the enqueue and the freeze -/

/-- C23 fails as stated.  A successful `Completions` submission of the prompt
"a cat" for one image at 20 coins makes its calls in this order: the payload is
enqueued (fifth call) and only then is the quota frozen (sixth call). -/
theorem completions_enqueues_before_freeze :
    Completions sampleCreativeIslandEnv (sampleWebContext [("prompt", "a cat")]) 7 =
        ⟨[⟨.Filters, .ok⟩, ⟨.Models, .ok⟩, ⟨.UserQuota 7, .ok⟩, ⟨.PromptDetect "a cat", .ok⟩,
          ⟨.Enqueue (.ImageCompletion
              { Prompt := "a cat", ImageCount := 1, ImageRatio := "1:1", Width := 512,
                Height := 512, Steps := 30, Mode := "canny", UpscaleBy := "x1", Seed := 42,
                UID := 7, Quota := 20, CreatedAt := 0, Vendor := "dashscope",
                Model := "stable-diffusion-xl", ModelName := "SDXL" })
            "NewImageCompletionTask", .ok⟩,
          ⟨.FreezeUserQuota 7 20, .ok⟩,
          ⟨.SetEx 7 "task-1" 20 (5 * Minute), .ok⟩,
          ⟨.CreateRecordWithArguments 7
              { IslandId := "all-in-one", IslandType := .Image,
                IslandModel := "stable-diffusion-xl", Prompt := "a cat", TaskId := "task-1",
                Status := .Pending }
              { Width := 512, Height := 512, Steps := 30, ImageCount := 1, ImageRatio := "1:1",
                Mode := "canny", UpscaleBy := "x1", ModelID := "stable-diffusion-xl",
                ModelName := "SDXL", Seed := 42 }, .ok⟩],
         .JSON [("task_id", .str "task-1"), ("wait", .int 60)]⟩
      ∧ ((Completions sampleCreativeIslandEnv (sampleWebContext [("prompt", "a cat")]) 7).trace.map
          fun x => x.call.isEnqueue).indexOf true = 4
      ∧ ((Completions sampleCreativeIslandEnv (sampleWebContext [("prompt", "a cat")]) 7).trace.map
          fun x => x.call.isFreeze).indexOf true = 5 := by
  decide

/-- C23, amended.  In every successful submission through the creative-island
endpoints (`Completions`, `ArtisticText`, `ImageUpscale`, `ImageColorize`,
`ImageToVideo`), that is in every run that answers with the JSON body of the task,
the payload is enqueued first and the quota freeze call follows it: the run makes
exactly one `Enqueue` call, which succeeds, and exactly one `FreezeUserQuota` call,
right after it, for the requesting user and the quota of the enqueued payload. -/
theorem enqueue_precedes_freeze (c : Consts) (env : CreativeIslandEnv) (webCtx : WebContext)
    (userID : Int) (run : WebRun)
    (hrun : run = Completions env webCtx userID ∨ run = ArtisticText c env webCtx userID
      ∨ run = ImageUpscale env webCtx userID ∨ run = ImageColorize env webCtx userID
      ∨ run = ImageToVideo env webCtx userID)
    (hok : ∃ body, run.response = .JSON body) :
    ∃ pre payload taskBuilder result post,
      run.trace = pre ++ ⟨.Enqueue payload taskBuilder, .ok⟩
          :: ⟨.FreezeUserQuota userID payload.GetQuota, result⟩ :: post
        ∧ ∀ x ∈ pre ++ post, x.call.isEnqueue = false ∧ x.call.isFreeze = false := by
  apply after_submitTask_shape env userID run _ hok
  rcases hrun with rfl | rfl | rfl | rfl | rfl
  · exact completions_shape env webCtx userID
  · exact artisticText_shape c env webCtx userID
  · exact imageUpscale_shape env webCtx userID
  · exact imageColorize_shape env webCtx userID
  · exact imageToVideo_shape env webCtx userID

/-- Witness of `enqueue_precedes_freeze`: a successful `ArtisticText` submission of
a QR code. -/
theorem enqueue_precedes_freeze_witness :
    (∃ body, (ArtisticText sampleConsts sampleCreativeIslandEnv
        (sampleWebContext [("text", "hi"), ("type", "qr"), ("prompt", "a cat")]) 7).response
          = .JSON body)
      ∧ ∃ pre payload taskBuilder result post,
          (ArtisticText sampleConsts sampleCreativeIslandEnv
              (sampleWebContext [("text", "hi"), ("type", "qr"), ("prompt", "a cat")]) 7).trace
            = pre ++ ⟨.Enqueue payload taskBuilder, .ok⟩
                :: ⟨.FreezeUserQuota 7 payload.GetQuota, result⟩ :: post
          ∧ ∀ x ∈ pre ++ post, x.call.isEnqueue = false ∧ x.call.isFreeze = false :=
  ⟨⟨[("task_id", .str "task-1"), ("wait", .int 30)], by decide⟩,
   enqueue_precedes_freeze sampleConsts sampleCreativeIslandEnv
     (sampleWebContext [("text", "hi"), ("type", "qr"), ("prompt", "a cat")]) 7 _
     (Or.inr (Or.inl rfl)) ⟨[("task_id", .str "task-1"), ("wait", .int 30)], by decide⟩⟩

/-! ## C24: the freeze of `Completions` -/

/-- The quota check of `Completions` and what follows it, for a user whose quota
was read. -/
theorem completionsCharge_cases (env : CreativeIslandEnv) (userID : Int)
    (req : ImageCompletionPayload) (quota : UserQuota) (hquota : env.userQuota = .ok quota) :
    (quota.Rest - quota.Freezed < req.Quota →
        completionsCharge env userID req =
          ⟨[⟨.UserQuota userID, .ok⟩], .JSONError (env.text env.ErrQuotaNotEnough) 402⟩)
      ∧ (¬ quota.Rest - quota.Freezed < req.Quota →
          (∀ detail, env.promptDetect ≠ some ⟨true, detail⟩) →
          completionsCharge env userID req =
            WebRun.after [⟨.UserQuota userID, .ok⟩, ⟨.PromptDetect req.Prompt, .ok⟩]
              (submitTask env userID (.ImageCompletion req) "NewImageCompletionTask" req.Quota
                (buildHistorySaveRecord req) 60))
      ∧ (¬ quota.Rest - quota.Freezed < req.Quota →
          ∀ detail, env.promptDetect = some ⟨true, detail⟩ →
          completionsCharge env userID req =
            ⟨[⟨.UserQuota userID, .ok⟩, ⟨.PromptDetect req.Prompt, .ok⟩],
              .JSONError
                ("内容违规，已被系统拦截，如有疑问邮件联系：support@aicode.cc\n\n原因：" ++ detail)
                406⟩) := by
  unfold completionsCharge
  simp only [hquota]
  refine ⟨fun h => by rw [if_pos h], fun h hsafe => ?_, fun h detail hdet => ?_⟩
  · rw [if_neg h]
    rcases hdet : env.promptDetect with _ | ⟨_ | _, detail⟩
    · rfl
    · rfl
    · exact absurd hdet (hsafe detail)
  · rw [if_neg h]
    simp only [hdet]

/-- C24 fails as stated.  A `Completions` request for one image at 20 coins passes
validation, and the user has 100 coins at rest and none frozen, so rest - freezed is
not less than the cost; the queue refuses the payload: the run ends with status 500
after the `Enqueue` call and `FreezeUserQuota` is not invoked. -/
theorem completions_refused_enqueue_no_freeze :
    (resolveImageCompletionRequest sampleCreativeIslandEnvQueueDown
        (sampleWebContext [("prompt", "a cat")]) 7).2
        = .ok { Prompt := "a cat", ImageCount := 1, ImageRatio := "1:1", Width := 512,
                Height := 512, Steps := 30, Mode := "canny", UpscaleBy := "x1", Seed := 42,
                UID := 7, Quota := 20, CreatedAt := 0, Vendor := "dashscope",
                Model := "stable-diffusion-xl", ModelName := "SDXL" }
      ∧ sampleCreativeIslandEnvQueueDown.userQuota = .ok ⟨100, 0⟩
      ∧ Completions sampleCreativeIslandEnvQueueDown (sampleWebContext [("prompt", "a cat")]) 7 =
        ⟨[⟨.Filters, .ok⟩, ⟨.Models, .ok⟩, ⟨.UserQuota 7, .ok⟩, ⟨.PromptDetect "a cat", .ok⟩,
          ⟨.Enqueue (.ImageCompletion
              { Prompt := "a cat", ImageCount := 1, ImageRatio := "1:1", Width := 512,
                Height := 512, Steps := 30, Mode := "canny", UpscaleBy := "x1", Seed := 42,
                UID := 7, Quota := 20, CreatedAt := 0, Vendor := "dashscope",
                Model := "stable-diffusion-xl", ModelName := "SDXL" })
            "NewImageCompletionTask", .failed ⟨"redis down"⟩⟩],
         .JSONError "internal error" 500⟩
      ∧ countWebCalls WebCall.isFreeze
          (Completions sampleCreativeIslandEnvQueueDown
            (sampleWebContext [("prompt", "a cat")]) 7).trace = 0 :=
  ⟨rfl, rfl, by decide, by decide⟩

/-- C24, as amended.  For a `Completions` request that passes validation (its
parameters resolve to the payload `req` and the image address is accepted) of a user
whose quota was read: the payload asks for 1 to 4 images and its quota is the price
of an image of its model times the number of images.  If rest - freezed is less than
that quota the request is rejected with status 402, without an `Enqueue` and without
a `FreezeUserQuota` call.  Otherwise: when the content check finds the prompt
unsafe, the request is rejected with status 406, again without either call; when the
prompt passes and the queue accepts the payload, `FreezeUserQuota` is invoked
exactly once, for the requesting user and with the quota of the one payload that is
enqueued; when the prompt passes and the queue refuses the payload,
`FreezeUserQuota` is not invoked. -/
theorem completions_freeze (env : CreativeIslandEnv) (webCtx : WebContext) (userID : Int)
    (req : ImageCompletionPayload) (quota : UserQuota)
    (hres : (resolveImageCompletionRequest env webCtx userID).2 = .ok req)
    (himg : ¬ (req.Image ≠ ""
      ∧ ¬ HasPrefixes req.Image ["https://ssl.aicode.cc/", env.StorageDomain]))
    (hquota : env.userQuota = .ok quota) :
    (1 ≤ req.ImageCount ∧ req.ImageCount ≤ 4
        ∧ req.Quota = env.GetUnifiedImageGenCoins req.Model * req.ImageCount)
      ∧ (quota.Rest - quota.Freezed < req.Quota →
          (Completions env webCtx userID).response
              = .JSONError (env.text env.ErrQuotaNotEnough) 402
            ∧ countWebCalls WebCall.isEnqueue (Completions env webCtx userID).trace = 0
            ∧ countWebCalls WebCall.isFreeze (Completions env webCtx userID).trace = 0)
      ∧ (¬ quota.Rest - quota.Freezed < req.Quota →
          (∀ detail, env.promptDetect = some ⟨true, detail⟩ →
            (Completions env webCtx userID).response
                = .JSONError
                    ("内容违规，已被系统拦截，如有疑问邮件联系：support@aicode.cc\n\n原因：" ++ detail)
                    406
              ∧ countWebCalls WebCall.isEnqueue (Completions env webCtx userID).trace = 0
              ∧ countWebCalls WebCall.isFreeze (Completions env webCtx userID).trace = 0)
          ∧ ((∀ detail, env.promptDetect ≠ some ⟨true, detail⟩) →
            (∀ taskID, env.enqueue = .ok taskID →
              countWebCalls WebCall.isFreeze (Completions env webCtx userID).trace = 1
                ∧ countWebCalls WebCall.isEnqueue (Completions env webCtx userID).trace = 1
                ∧ ∃ payload : ImageCompletionPayload,
                    payload.Quota = req.Quota ∧ payload.ImageCount = req.ImageCount
                      ∧ payload.Model = req.Model
                      ∧ ⟨.Enqueue (.ImageCompletion payload) "NewImageCompletionTask", .ok⟩
                          ∈ (Completions env webCtx userID).trace
                      ∧ ⟨.FreezeUserQuota userID payload.Quota,
                            CallResult.ofError env.freezeUserQuota⟩
                          ∈ (Completions env webCtx userID).trace)
              ∧ (∀ e, env.enqueue = .error e →
                  countWebCalls WebCall.isFreeze (Completions env webCtx userID).trace = 0))) := by
  have hrun : Completions env webCtx userID =
      WebRun.after (resolveImageCompletionRequest env webCtx userID).1
        (completionsCharge env userID
          (if req.Image ≠ "" ∧ req.Vendor ∈ ["fromston", "stabilityai"] then
            { req with
              Image := env.BuildImageURLWithFilter req.Image "fix_square_1024" env.StorageDomain }
          else req)) := by
    unfold Completions
    simp only [hres]
    unfold completionsSubmit
    rw [if_neg himg]
  have henq0 : countWebCalls WebCall.isEnqueue (resolveImageCompletionRequest env webCtx userID).1
      = 0 :=
    countWebCalls_eq_zero _ _ fun x hx => (resolve_trace_reads env webCtx userID x hx).1
  have hfrz0 : countWebCalls WebCall.isFreeze (resolveImageCompletionRequest env webCtx userID).1
      = 0 :=
    countWebCalls_eq_zero _ _ fun x hx => (resolve_trace_reads env webCtx userID x hx).2
  obtain ⟨_, hlo, hhi, hq⟩ := resolve_ok_quota env webCtx userID req hres
  generalize hreq' : (if req.Image ≠ "" ∧ req.Vendor ∈ ["fromston", "stabilityai"] then
      ({ req with
        Image := env.BuildImageURLWithFilter req.Image "fix_square_1024" env.StorageDomain } :
        ImageCompletionPayload)
    else req) = req' at hrun
  have hfields : req'.Quota = req.Quota ∧ req'.ImageCount = req.ImageCount
      ∧ req'.Model = req.Model := by
    rw [← hreq']
    split_ifs <;> exact ⟨rfl, rfl, rfl⟩
  obtain ⟨hpoor, hrich, hunsafe⟩ := completionsCharge_cases env userID req' quota hquota
  refine ⟨⟨hlo, hhi, hq⟩, ?_, ?_⟩
  · intro hlt
    rw [hrun, hpoor (by rw [hfields.1]; exact hlt)]
    simp [henq0, hfrz0, WebCall.isEnqueue, WebCall.isFreeze]
  · intro hge
    refine ⟨?_, ?_⟩
    · intro detail hdet
      rw [hrun, hunsafe (by rw [hfields.1]; exact hge) detail hdet]
      simp [henq0, hfrz0, WebCall.isEnqueue, WebCall.isFreeze]
    · intro hsafe
      rw [hrun, hrich (by rw [hfields.1]; exact hge) hsafe]
      refine ⟨?_, ?_⟩
      · intro taskID henq
        rcases hrec : env.createRecordWithArguments with _ | e
        · refine ⟨?_, ?_, req', hfields.1, hfields.2.1, hfields.2.2, ?_, ?_⟩ <;>
            simp [submitTask, henq, hrec, henq0, hfrz0, WebCall.isEnqueue, WebCall.isFreeze,
              CallResult.ofError]
        · refine ⟨?_, ?_, req', hfields.1, hfields.2.1, hfields.2.2, ?_, ?_⟩ <;>
            simp [submitTask, henq, hrec, henq0, hfrz0, WebCall.isEnqueue, WebCall.isFreeze,
              CallResult.ofError]
      · intro e henq
        simp [submitTask, henq, hfrz0, WebCall.isEnqueue, WebCall.isFreeze]

/-- Witness of `completions_freeze`: the prompt "a cat" for one image at 20 coins,
by a user with 100 coins at rest and none frozen. -/
theorem completions_freeze_witness :
    (resolveImageCompletionRequest sampleCreativeIslandEnv
        (sampleWebContext [("prompt", "a cat"), ("model", "sdxl")]) 7).2
        = .ok { Prompt := "a cat", ImageCount := 1, ImageRatio := "1:1", Width := 512,
                Height := 512, Steps := 30, Mode := "canny", UpscaleBy := "x1", Seed := 42,
                UID := 7, Quota := 20, CreatedAt := 0, Vendor := "dashscope",
                Model := "stable-diffusion-xl", ModelName := "SDXL" }
      ∧ sampleCreativeIslandEnv.userQuota = .ok ⟨100, 0⟩
      ∧ sampleCreativeIslandEnv.enqueue = .ok "task-1"
      ∧ countWebCalls WebCall.isFreeze
          (Completions sampleCreativeIslandEnv
            (sampleWebContext [("prompt", "a cat"), ("model", "sdxl")]) 7).trace = 1
      ∧ countWebCalls WebCall.isEnqueue
          (Completions sampleCreativeIslandEnv
            (sampleWebContext [("prompt", "a cat"), ("model", "sdxl")]) 7).trace = 1 :=
  have h := completions_freeze sampleCreativeIslandEnv
    (sampleWebContext [("prompt", "a cat"), ("model", "sdxl")]) 7
    { Prompt := "a cat", ImageCount := 1, ImageRatio := "1:1", Width := 512,
      Height := 512, Steps := 30, Mode := "canny", UpscaleBy := "x1", Seed := 42,
      UID := 7, Quota := 20, CreatedAt := 0, Vendor := "dashscope",
      Model := "stable-diffusion-xl", ModelName := "SDXL" }
    ⟨100, 0⟩ rfl (by decide) rfl
  have hrun := ((h.2.2 (by decide)).2
    (fun _ hdet => by simp [sampleCreativeIslandEnv] at hdet)).1 "task-1" rfl
  ⟨rfl, rfl, rfl, hrun.1, hrun.2.1⟩

end Aidea
